import Mathlib

/-!
# zephyr-automation: the three stack-lifecycle drivers

A shallow embedding of `local-source/main.go`, `remote-source/main.go` and
`remote-deployment/main.go`.

Each program is a straight-line sequence of calls into the automation engine
(and, for the progress log, into the operating system).  A call is recorded in
a trace together with its outcome; the outcome of every call is chosen by an
arbitrary `Outcomes` function of the history, so a statement proved for all
`Outcomes` holds whatever the engine does.  `os.Exit` ends the run and keeps
the trace.  Console output (`fmt.Printf`) is not part of the model.
-/

namespace Zephyr

/-! ## Values exchanged with the engine -/

/-- Go `error` value: `nil`, or some error. -/
inductive GoError where
  | nil
  | failed
  deriving DecidableEq, Repr

/-- The `auto.ConfigValue` struct. -/
structure ConfigValue where
  Value : String
  Secret : Bool
  deriving DecidableEq, Repr

/-- The `auto.EnvVarValue` struct; `Secret` is `false` when the literal omits it. -/
structure EnvVarValue where
  Value : String
  Secret : Bool
  deriving DecidableEq, Repr

/-- The `auto.GitRepo` struct, with the fields the programs fill in.  `Setup` holds
the command line of the setup hook when the literal has one. -/
structure GitRepo where
  URL : String
  ProjectPath : String
  Branch : String
  Setup : Option (List String)
  deriving DecidableEq, Repr

/-- Stack handle (`auto.Stack`, `auto.RemoteStack`): the reference an upsert call
hands back, identified by the stack name the upsert was called with.  When the upsert
reports an error the Go variable holds whatever the SDK returned with it; the model
keeps naming that variable by the stack it was requested for, so that the calls made on
it afterwards can be told apart. -/
structure Stack where
  stackName : String
  deriving DecidableEq, Repr

/-- An `io.Writer` used as progress sink: `os.Stdout`, or the temp file returned by
the `os.CreateTemp` call recorded at position `id` of the trace. -/
inductive Writer where
  | stdout
  | tmp (id : Nat)
  deriving DecidableEq, Repr

/-- The calls the programs make whose outcome they do not control. -/
inductive Call where
  | UpsertStackLocalSource (stackName : String) (workDir : String)
  | UpsertStackRemoteSource (stackName : String) (repo : GitRepo)
  | UpsertRemoteStackGitSource (stackName : String) (repo : GitRepo)
      (envVars : List (String × EnvVarValue))
  | SetConfig (s : Stack) (key : String) (val : ConfigValue)
  | CreateTemp
  | Refresh (s : Stack) (progressStreams : List Writer)
  | Up (s : Stack) (progressStreams : List Writer)
  | Destroy (s : Stack) (progressStreams : List Writer)
  deriving DecidableEq, Repr

/-- One recorded call: what was called and whether it succeeded. -/
structure Entry where
  call : Call
  ok : Bool
  deriving DecidableEq, Repr

abbrev Trace := List Entry

/-- The behaviour of the engine and the operating system: given the calls made so
far and the next call, whether that call succeeds. -/
abbrev Outcomes := Trace → Call → Bool

/-- The engine in which every call succeeds. -/
def allSucceed : Outcomes := fun _ _ => true

/-! ## Processes -/

/-- Where a computation stands: still running with a value, or exited by `os.Exit`. -/
inductive Step (α : Type) where
  | next (a : α) (t : Trace)
  | exit (code : Nat) (t : Trace)

/-- A computation that makes calls, appends them to the trace and may exit. -/
def Proc (α : Type) : Type := Outcomes → Trace → Step α

def Proc.pure {α : Type} (a : α) : Proc α := fun _ t => .next a t

def Proc.bind {α β : Type} (m : Proc α) (f : α → Proc β) : Proc β := fun w t =>
  match m w t with
  | .next a t1 => f a w t1
  | .exit c t1 => .exit c t1

instance : Monad Proc where
  pure := Proc.pure
  bind := Proc.bind

/-- Go `os.Exit(code)`. -/
def osExit {α : Type} (code : Nat) : Proc α := fun _ t => .exit code t

/-- Make call `c`: ask for its outcome, record it, return the Go error. -/
def invoke (c : Call) : Proc GoError := fun w t =>
  .next (if w t c then GoError.nil else GoError.failed) (t ++ [⟨c, w t c⟩])

/-- What a finished run leaves behind: the calls made and the exit status. -/
structure Result where
  trace : Trace
  exit : Nat
  deriving DecidableEq, Repr

/-- Run a program from the empty trace; returning from `main` is exit status 0. -/
def Proc.run (p : Proc Unit) (w : Outcomes) : Result :=
  match p w [] with
  | .next _ t => ⟨t, 0⟩
  | .exit c t => ⟨t, c⟩

/-! ## Engine SDK functions -/

/-- Modelled from the spec: `auto.FullyQualifiedStackName` of the engine SDK, which is
not part of this repository: "stack names are always fully qualified as
organization/project-name/stack-suffix". -/
def FullyQualifiedStackName (org project stack : String) : String :=
  org ++ "/" ++ project ++ "/" ++ stack

/-- Go `Stack.SetConfig(ctx, key, val)`; the programs drop the error it returns. -/
def Stack.SetConfig (s : Stack) (key : String) (val : ConfigValue) : Proc GoError :=
  invoke (.SetConfig s key val)

/-- Go `os.CreateTemp(os.TempDir(), "")`: the file is named by the position of the call
in the trace. -/
def osCreateTemp : Proc (Writer × GoError) := fun w t =>
  match invoke .CreateTemp w t with
  | .next err t1 => .next (.tmp t.length, err) t1
  | .exit c t1 => .exit c t1

/-! ## Straight-line plans

The three programs are straight-line: a fixed list of calls, cut short at the first
failure the program checks.  A plan lists those calls; `exec` runs a plan as a
process, and each `main` is shown further down to be `exec` of its plan. -/

/-- The three lifecycle operations on a stack. -/
inductive StackOp where
  | refresh
  | update
  | destroy
  deriving DecidableEq, Repr

def StackOp.call : StackOp → Stack → List Writer → Call
  | .refresh => Call.Refresh
  | .update => Call.Up
  | .destroy => Call.Destroy

/-- One step of a plan: a single call, after which the program exits with status 1
if the call failed and `fatal` is set; or a lifecycle operation with a progress log,
that is `os.CreateTemp` followed by the operation, the program exiting with status 1
when either fails. -/
inductive Item where
  | call (c : Call) (fatal : Bool)
  | logged (op : StackOp) (s : Stack)
  deriving DecidableEq, Repr

def Item.exec : Item → Proc Unit
  | .call c fatal => do
    let err ← invoke c
    if err ≠ GoError.nil ∧ fatal = true then osExit 1
  | .logged op s => do
    let (tmp, err) ← osCreateTemp
    if err ≠ GoError.nil then osExit 1
    let err ← invoke (op.call s [Writer.stdout, tmp])
    if err ≠ GoError.nil then osExit 1

def exec : List Item → Proc Unit
  | [] => pure ()
  | i :: is => do
    i.exec
    exec is

/-- Run a process from a given trace. -/
def Proc.runFrom (p : Proc Unit) (w : Outcomes) (t : Trace) : Result :=
  match p w t with
  | .next _ t1 => ⟨t1, 0⟩
  | .exit c t1 => ⟨t1, c⟩

/-- The calls a plan makes when nothing fails, started after `n` recorded calls. -/
def successCalls : List Item → Nat → List Call
  | [], _ => []
  | .call c _ :: is, n => c :: successCalls is (n + 1)
  | .logged op s :: is, n =>
    Call.CreateTemp :: op.call s [Writer.stdout, Writer.tmp n] :: successCalls is (n + 2)

/-- A plan item makes every call satisfying `P` fatal. -/
def Item.covers (P : Call → Bool) : Item → Bool
  | .call c fatal => !P c || fatal
  | .logged _ _ => true

/-! ## Reading traces -/

/-- In the entries `new` of a run that ended with status `exit`, a failed call
satisfying `P` has nothing after it and the status is 1. -/
def StopsAtFailure (P : Call → Bool) (new : List Entry) (exit : Nat) : Prop :=
  ∀ pre e post, new = pre ++ e :: post → e.ok = false → P e.call = true →
    post = [] ∧ exit = 1

def Call.isUpsert : Call → Bool
  | .UpsertStackLocalSource _ _ => true
  | .UpsertStackRemoteSource _ _ => true
  | .UpsertRemoteStackGitSource _ _ _ => true
  | _ => false

def Call.isSetConfig : Call → Bool
  | .SetConfig _ _ _ => true
  | _ => false

def Call.isCreateTemp : Call → Bool
  | .CreateTemp => true
  | _ => false

def Call.isRefresh : Call → Bool
  | .Refresh _ _ => true
  | _ => false

def Call.isUp : Call → Bool
  | .Up _ _ => true
  | _ => false

def Call.isDestroy : Call → Bool
  | .Destroy _ _ => true
  | _ => false

/-- The calls behind the refresh, update and destroy helpers: the operation itself and
the temp file creation that precedes it. -/
def Call.isLifecycle (c : Call) : Bool :=
  c.isCreateTemp || c.isRefresh || c.isUp || c.isDestroy

/-- The stack name an upsert call was given. -/
def Call.upsertName : Call → Option String
  | .UpsertStackLocalSource n _ => some n
  | .UpsertStackRemoteSource n _ => some n
  | .UpsertRemoteStackGitSource n _ _ => some n
  | _ => none

/-- The calls of a trace, in order. -/
def calls (t : Trace) : List Call := t.map Entry.call

/-- The engine operations of a trace: every call but the temp file creations. -/
def engineOps (t : Trace) : List Call := (calls t).filter (fun c => !c.isCreateTemp)

/-- The upsert calls of a trace, in order. -/
def upsertCalls (t : Trace) : List Call := (calls t).filter Call.isUpsert

/-- The stacks set up, in order: the handle of each upsert call. -/
def upserted (t : Trace) : List Stack :=
  (calls t).filterMap (fun c => c.upsertName.map Stack.mk)

/-- The stacks on which destroy was invoked, in order. -/
def destroyed (t : Trace) : List Stack :=
  (calls t).filterMap (fun c => match c with
    | .Destroy s _ => some s
    | _ => none)

/-- The stacks on which refresh was invoked, in order. -/
def refreshed (t : Trace) : List Stack :=
  (calls t).filterMap (fun c => match c with
    | .Refresh s _ => some s
    | _ => none)

/-- The stacks on which update was invoked, in order. -/
def updated (t : Trace) : List Stack :=
  (calls t).filterMap (fun c => match c with
    | .Up s _ => some s
    | _ => none)

/-- No refresh, update or set-config call in the trace. -/
def NoApplyOps (t : Trace) : Prop :=
  ∀ e ∈ t, e.call.isRefresh = false ∧ e.call.isUp = false ∧ e.call.isSetConfig = false

/-- No destroy call in the trace. -/
def NoDestroy (t : Trace) : Prop :=
  ∀ e ∈ t, e.call.isDestroy = false

/-- Run `r` stops at a failed lifecycle call, and its calls are an initial segment of
the calls of the all-success run `rAll`. -/
def FailureStops (r rAll : Result) : Prop :=
  StopsAtFailure Call.isLifecycle r.trace r.exit ∧ calls r.trace <+: calls rAll.trace

/-- Cross-stack wiring in the engine operations `ops`: the upstream stack was upserted
under the name `org/proj/stack`, and the downstream stack `down` gets `org`, `proj` and
`stack` under the keys `kOrg`, `kProj`, `kStack`, not secret, before a refresh of
`down`; no other value is ever set under these keys. -/
def Wired (ops : List Call) (org proj stack : String) (down : Stack)
    (kOrg kProj kStack : String) : Prop :=
  (∃ u i j k r : Nat, ∃ streams : List Writer,
    (ops[u]?).bind Call.upsertName = some (org ++ "/" ++ proj ++ "/" ++ stack) ∧
    ops[i]? = some (.SetConfig down kOrg ⟨org, false⟩) ∧
    ops[j]? = some (.SetConfig down kProj ⟨proj, false⟩) ∧
    ops[k]? = some (.SetConfig down kStack ⟨stack, false⟩) ∧
    ops[r]? = some (.Refresh down streams) ∧
    u < i ∧ u < j ∧ u < k ∧ i < r ∧ j < r ∧ k < r) ∧
  (∀ s v, Call.SetConfig s kOrg v ∈ ops → v = ⟨org, false⟩) ∧
  (∀ s v, Call.SetConfig s kProj v ∈ ops → v = ⟨proj, false⟩) ∧
  (∀ s v, Call.SetConfig s kStack v ∈ ops → v = ⟨stack, false⟩)

/-- The environment variables an upsert call hands to the engine. -/
def Call.envVars : Call → Option (List (String × EnvVarValue))
  | .UpsertRemoteStackGitSource _ _ envVars => some envVars
  | _ => none

/-- The progress sinks a lifecycle call hands to the engine. -/
def Call.progressStreams : Call → Option (List Writer)
  | .Refresh _ ws => some ws
  | .Up _ ws => some ws
  | .Destroy _ ws => some ws
  | _ => none

/-- Helper `helper` for operation `op` logs to standard output and a temp file of its
own: when `os.CreateTemp` fails it returns the error and makes no further call, and
otherwise it invokes the operation with exactly the two sinks `os.Stdout` and the file
just created, and returns the error of the operation. -/
def LogsToTemp (helper : Stack → String → Proc GoError) (op : StackOp) : Prop :=
  ∀ (s : Stack) (n : String) (w : Outcomes) (t : Trace),
    (w t .CreateTemp = false →
      helper s n w t = .next GoError.failed (t ++ [⟨.CreateTemp, false⟩])) ∧
    (w t .CreateTemp = true →
      helper s n w t =
        .next
          (if w (t ++ [⟨.CreateTemp, true⟩]) (op.call s [.stdout, .tmp t.length]) then
            GoError.nil else GoError.failed)
          (t ++ [⟨.CreateTemp, true⟩,
            ⟨op.call s [.stdout, .tmp t.length],
              w (t ++ [⟨.CreateTemp, true⟩]) (op.call s [.stdout, .tmp t.length])⟩]))

/-- Helper `helper` for operation `op` makes one call, the operation with the single
sink `os.Stdout`, and returns its error. -/
def LogsToStdoutOnly (helper : Stack → String → Proc GoError) (op : StackOp) : Prop :=
  ∀ (s : Stack) (n : String) (w : Outcomes) (t : Trace),
    helper s n w t =
      .next (if w t (op.call s [.stdout]) then GoError.nil else GoError.failed)
        (t ++ [⟨op.call s [.stdout], w t (op.call s [.stdout])⟩])

/-- Two engines answer alike on every call that is not a set-config, whenever the same
calls were made before. -/
def AgreeOffSetConfig (w1 w2 : Outcomes) : Prop :=
  ∀ (t1 t2 : Trace) (c : Call), calls t1 = calls t2 → c.isSetConfig = false →
    w1 t1 c = w2 t2 c

/-- Two runs make the same calls in the same order and end with the same status. -/
def SameCourse (r1 r2 : Result) : Prop :=
  calls r1.trace = calls r2.trace ∧ r1.exit = r2.exit

/-- A plan item does not look at the error of a set-config call. -/
def Item.dropsSetConfigError : Item → Bool
  | .call c fatal => !c.isSetConfig || !fatal
  | .logged _ _ => true

/-- An engine in which every set-config fails and every other call succeeds. -/
def setConfigFails : Outcomes := fun _ c => !c.isSetConfig

/-- The string has no `/` in it. -/
def SlashFree (s : String) : Prop := '/' ∉ s.data

/-! ## The configuration document -/

/-- A parsed YAML node. -/
inductive Yaml where
  | null
  | scalar (v : String)
  | mapping (entries : List (String × Yaml))
  | sequence (items : List Yaml)

/-- The bytes of `config.yaml`: not well-formed YAML, or a document. -/
inductive Data where
  | malformed
  | document (root : Yaml)

/-- Result of `os.ReadFile("config.yaml")`. -/
inductive ReadFile where
  | error
  | data (d : Data)

/-- Modelled from the spec: decoding of a string field by `yaml.Unmarshal` (the YAML
library is not part of this repository): "absent fields default to empty strings",
and so does a null; a scalar is taken as written and a mapping or a sequence is a
decoding error. -/
def decodeString (entries : List (String × Yaml)) (key : String) : Except Unit String :=
  match entries.lookup key with
  | none => .ok ""
  | some .null => .ok ""
  | some (.scalar v) => .ok v
  | some _ => .error ()

/-! ## local-source/main.go -/

namespace LocalSource

structure Project where
  Location : String
  Name : String
  Nickname : String
  deriving DecidableEq, Repr

structure Environment where
  Region : String
  Organization : String
  StackName : String
  BaseProject : Project
  PlatformProject : Project
  AppProject : Project
  deriving DecidableEq, Repr

/-- Modelled from the spec: decoding of a project block by `yaml.Unmarshal`: an absent
or null block leaves the zero `Project`, a mapping is decoded field by field (keys
`location`, `name`, `nickname`), anything else is a decoding error. -/
def decodeProject (entries : List (String × Yaml)) (key : String) : Except Unit Project :=
  match entries.lookup key with
  | none => .ok ⟨"", "", ""⟩
  | some .null => .ok ⟨"", "", ""⟩
  | some (.mapping es) =>
    match decodeString es "location", decodeString es "name", decodeString es "nickname" with
    | .ok l, .ok n, .ok k => .ok ⟨l, n, k⟩
    | _, _, _ => .error ()
  | some _ => .error ()

/-- Modelled from the spec: `yaml.Unmarshal(data, &env)` for this program's
`Environment`: a document that is not well-formed fails; a null document leaves the
zero value; a mapping is decoded key by key, absent keys keeping the zero value and
unknown keys ignored; a scalar or sequence document fails. -/
def yamlUnmarshal : Data → Except Unit Environment
  | .malformed => .error ()
  | .document .null => .ok ⟨"", "", "", ⟨"", "", ""⟩, ⟨"", "", ""⟩, ⟨"", "", ""⟩⟩
  | .document (.mapping es) =>
    match decodeString es "region", decodeString es "organization",
        decodeString es "stackName", decodeProject es "baseProject",
        decodeProject es "platformProject", decodeProject es "appProject" with
    | .ok r, .ok o, .ok s, .ok b, .ok p, .ok a => .ok ⟨r, o, s, b, p, a⟩
    | _, _, _, _, _, _ => .error ()
  | .document _ => .error ()

/-- Go `auto.UpsertStackLocalSource(ctx, stackName, workDir)`. -/
def UpsertStackLocalSource (stackName workDir : String) : Proc (Stack × GoError) := do
  let err ← invoke (.UpsertStackLocalSource stackName workDir)
  pure (⟨stackName⟩, err)

/-- Go `refreshStack(ctx, s, n)`; `n` is only printed.  Returns the error. -/
def refreshStack (s : Stack) (_n : String) : Proc GoError := do
  let (tmp, err) ← osCreateTemp
  if err ≠ GoError.nil then
    pure err
  else
    let progressStreams := [Writer.stdout, tmp]
    let err ← invoke (.Refresh s progressStreams)
    pure err

/-- Go `updateStack(ctx, s, n)`. -/
def updateStack (s : Stack) (_n : String) : Proc GoError := do
  let (tmp, err) ← osCreateTemp
  if err ≠ GoError.nil then
    pure err
  else
    let progressStreams := [Writer.stdout, tmp]
    let err ← invoke (.Up s progressStreams)
    pure err

/-- Go `deleteStack(ctx, s, n)`. -/
def deleteStack (s : Stack) (_n : String) : Proc GoError := do
  let (tmp, err) ← osCreateTemp
  if err ≠ GoError.nil then
    pure err
  else
    let progressStreams := [Writer.stdout, tmp]
    let err ← invoke (.Destroy s progressStreams)
    pure err

/-- Lines 33-39 of `main`: the value of `destroy` for `os.Args[1:]`. -/
def destroyMode (argsWithoutProg : List String) : Bool :=
  match argsWithoutProg with
  | [] => false
  | arg0 :: _ => if arg0 = "destroy" then true else false

/-- Go `main`, for the positional arguments and the result of reading `config.yaml`. -/
def main (argsWithoutProg : List String) (file : ReadFile) : Proc Unit := do
  let destroy := destroyMode argsWithoutProg
  match file with
  | .error => osExit 1
  | .data data =>
  match yamlUnmarshal data with
  | .error _ => osExit 1
  | .ok env =>
    -- Set up base stack
    let baseStackName :=
      FullyQualifiedStackName env.Organization env.BaseProject.Name env.StackName
    let (baseStack, err) ← UpsertStackLocalSource baseStackName env.BaseProject.Location
    if err ≠ GoError.nil then osExit 1
    -- Set up platform stack
    let platformStackName :=
      FullyQualifiedStackName env.Organization env.PlatformProject.Name env.StackName
    let (platformStack, err) ←
      UpsertStackLocalSource platformStackName env.PlatformProject.Location
    if err ≠ GoError.nil then osExit 1
    -- Set up application stack: the error of this call is assigned to `_`, and the
    -- test that follows reads `err` of the platform call
    let appStackName :=
      FullyQualifiedStackName env.Organization env.AppProject.Name env.StackName
    let (appStack, _) ← UpsertStackLocalSource appStackName env.AppProject.Location
    if err ≠ GoError.nil then osExit 1
    -- Tear down the stacks if destroy was specified
    if destroy then
      let err ← deleteStack appStack env.AppProject.Nickname
      if err ≠ GoError.nil then osExit 1
      let err ← deleteStack platformStack env.PlatformProject.Nickname
      if err ≠ GoError.nil then osExit 1
      let err ← deleteStack baseStack env.BaseProject.Nickname
      if err ≠ GoError.nil then osExit 1
      osExit 0
    -- Set config values for base stack
    let _ ← baseStack.SetConfig "aws:region" ⟨env.Region, false⟩
    let err ← refreshStack baseStack env.BaseProject.Nickname
    if err ≠ GoError.nil then osExit 1
    let err ← updateStack baseStack env.BaseProject.Nickname
    if err ≠ GoError.nil then osExit 1
    -- Set config values for platform stack
    let _ ← platformStack.SetConfig "aws:region" ⟨env.Region, false⟩
    let _ ← platformStack.SetConfig "infraOrgName" ⟨env.Organization, false⟩
    let _ ← platformStack.SetConfig "infraProjName" ⟨env.BaseProject.Name, false⟩
    let _ ← platformStack.SetConfig "infraStackName" ⟨env.StackName, false⟩
    let err ← refreshStack platformStack env.PlatformProject.Nickname
    if err ≠ GoError.nil then osExit 1
    let err ← updateStack platformStack env.PlatformProject.Nickname
    if err ≠ GoError.nil then osExit 1
    -- Set config values for app stack
    let _ ← appStack.SetConfig "k8sOrgName" ⟨env.Organization, false⟩
    let _ ← appStack.SetConfig "k8sProjName" ⟨env.PlatformProject.Name, false⟩
    let _ ← appStack.SetConfig "k8sStackName" ⟨env.StackName, false⟩
    let err ← refreshStack appStack env.AppProject.Nickname
    if err ≠ GoError.nil then osExit 1
    let err ← updateStack appStack env.AppProject.Nickname
    if err ≠ GoError.nil then osExit 1

/-- The handle `main` binds to `baseStack`. -/
def baseStack (env : Environment) : Stack :=
  ⟨FullyQualifiedStackName env.Organization env.BaseProject.Name env.StackName⟩

/-- The handle `main` binds to `platformStack`. -/
def platformStack (env : Environment) : Stack :=
  ⟨FullyQualifiedStackName env.Organization env.PlatformProject.Name env.StackName⟩

/-- The handle `main` binds to `appStack`. -/
def appStack (env : Environment) : Stack :=
  ⟨FullyQualifiedStackName env.Organization env.AppProject.Name env.StackName⟩

/-- The upsert call `main` makes for project `p`. -/
def upsertCall (env : Environment) (p : Project) : Call :=
  .UpsertStackLocalSource (FullyQualifiedStackName env.Organization p.Name env.StackName)
    p.Location

/-- The plan of `main`: the three upserts (the error of the third is not looked at),
then the destroy sequence or the apply sequence. -/
def plan (destroy : Bool) (env : Environment) : List Item :=
  [ .call (upsertCall env env.BaseProject) true,
    .call (upsertCall env env.PlatformProject) true,
    .call (upsertCall env env.AppProject) false ] ++
  if destroy then
    [ .logged .destroy (appStack env),
      .logged .destroy (platformStack env),
      .logged .destroy (baseStack env) ]
  else
    [ .call (.SetConfig (baseStack env) "aws:region" ⟨env.Region, false⟩) false,
      .logged .refresh (baseStack env),
      .logged .update (baseStack env),
      .call (.SetConfig (platformStack env) "aws:region" ⟨env.Region, false⟩) false,
      .call (.SetConfig (platformStack env) "infraOrgName" ⟨env.Organization, false⟩) false,
      .call (.SetConfig (platformStack env) "infraProjName" ⟨env.BaseProject.Name, false⟩)
        false,
      .call (.SetConfig (platformStack env) "infraStackName" ⟨env.StackName, false⟩) false,
      .logged .refresh (platformStack env),
      .logged .update (platformStack env),
      .call (.SetConfig (appStack env) "k8sOrgName" ⟨env.Organization, false⟩) false,
      .call (.SetConfig (appStack env) "k8sProjName" ⟨env.PlatformProject.Name, false⟩)
        false,
      .call (.SetConfig (appStack env) "k8sStackName" ⟨env.StackName, false⟩) false,
      .logged .refresh (appStack env),
      .logged .update (appStack env) ]

/-- A sample `config.yaml`. -/
def sampleConfig : Yaml :=
  .mapping
    [ ("region", .scalar "us-west-2"),
      ("organization", .scalar "zephyr"),
      ("stackName", .scalar "dev"),
      ("baseProject", .mapping
        [("location", .scalar "../infra"), ("name", .scalar "base"),
         ("nickname", .scalar "base infrastructure")]),
      ("platformProject", .mapping
        [("location", .scalar "../k8s"), ("name", .scalar "platform"),
         ("nickname", .scalar "Kubernetes platform")]),
      ("appProject", .mapping
        [("location", .scalar "../app"), ("name", .scalar "app"),
         ("nickname", .scalar "application")]) ]

/-- The environment `sampleConfig` decodes to. -/
def sampleEnv : Environment :=
  { Region := "us-west-2"
    Organization := "zephyr"
    StackName := "dev"
    BaseProject := ⟨"../infra", "base", "base infrastructure"⟩
    PlatformProject := ⟨"../k8s", "platform", "Kubernetes platform"⟩
    AppProject := ⟨"../app", "app", "application"⟩ }

/-- An engine in which the upsert of the sample application stack fails and every
other call succeeds. -/
def appUpsertFails : Outcomes := fun _ c =>
  !decide (c = Call.UpsertStackLocalSource "zephyr/app/dev" "../app")

end LocalSource

/-! ## remote-source/main.go -/

namespace RemoteSource

structure Project where
  Location : String
  Name : String
  Path : String
  Branch : String
  deriving DecidableEq, Repr

structure Environment where
  Region : String
  Organization : String
  StackName : String
  BaseProject : Project
  PlatformProject : Project
  AppProject : Project
  DataProject : Project
  deriving DecidableEq, Repr

/-- Modelled from the spec: decoding of a project block by `yaml.Unmarshal`: an absent
or null block leaves the zero `Project`, a mapping is decoded field by field (keys
`location`, `name`, `path`, `branch`), anything else is a decoding error. -/
def decodeProject (entries : List (String × Yaml)) (key : String) : Except Unit Project :=
  match entries.lookup key with
  | none => .ok ⟨"", "", "", ""⟩
  | some .null => .ok ⟨"", "", "", ""⟩
  | some (.mapping es) =>
    match decodeString es "location", decodeString es "name", decodeString es "path",
        decodeString es "branch" with
    | .ok l, .ok n, .ok q, .ok b => .ok ⟨l, n, q, b⟩
    | _, _, _, _ => .error ()
  | some _ => .error ()

/-- Modelled from the spec: `yaml.Unmarshal(data, &env)` for this program's
`Environment`: a document that is not well-formed fails; a null document leaves the
zero value; a mapping is decoded key by key, absent keys keeping the zero value and
unknown keys ignored; a scalar or sequence document fails. -/
def yamlUnmarshal : Data → Except Unit Environment
  | .malformed => .error ()
  | .document .null =>
    .ok ⟨"", "", "", ⟨"", "", "", ""⟩, ⟨"", "", "", ""⟩, ⟨"", "", "", ""⟩, ⟨"", "", "", ""⟩⟩
  | .document (.mapping es) =>
    match decodeString es "region", decodeString es "organization",
        decodeString es "stackName", decodeProject es "baseProject",
        decodeProject es "platformProject", decodeProject es "appProject",
        decodeProject es "dataProject" with
    | .ok r, .ok o, .ok s, .ok b, .ok p, .ok a, .ok d => .ok ⟨r, o, s, b, p, a, d⟩
    | _, _, _, _, _, _, _ => .error ()
  | .document _ => .error ()

/-- Go `refreshStack(ctx, s, n)`; `n` is only printed.  Returns the error. -/
def refreshStack (s : Stack) (_n : String) : Proc GoError := do
  let (tmp, err) ← osCreateTemp
  if err ≠ GoError.nil then
    pure err
  else
    let progressStreams := [Writer.stdout, tmp]
    let err ← invoke (.Refresh s progressStreams)
    pure err

/-- Go `updateStack(ctx, s, n)`. -/
def updateStack (s : Stack) (_n : String) : Proc GoError := do
  let (tmp, err) ← osCreateTemp
  if err ≠ GoError.nil then
    pure err
  else
    let progressStreams := [Writer.stdout, tmp]
    let err ← invoke (.Up s progressStreams)
    pure err

/-- Go `deleteStack(ctx, s, n)`. -/
def deleteStack (s : Stack) (_n : String) : Proc GoError := do
  let (tmp, err) ← osCreateTemp
  if err ≠ GoError.nil then
    pure err
  else
    let progressStreams := [Writer.stdout, tmp]
    let err ← invoke (.Destroy s progressStreams)
    pure err

/-- Go `setupStack(ctx, o, n, proj)`: the setup hook of the repo runs `npm install`. -/
def setupStack (o : String) (n : String) (proj : Project) : Proc (Stack × GoError) := do
  let stackName := FullyQualifiedStackName o proj.Name n
  let gitBranch := if proj.Branch ≠ "" then proj.Branch else "main"
  let repo : GitRepo :=
    { URL := proj.Location
      ProjectPath := proj.Path
      Branch := gitBranch
      Setup := some ["npm", "install"] }
  let err ← invoke (.UpsertStackRemoteSource stackName repo)
  pure (⟨stackName⟩, err)

/-- Lines 35-39 of `main`: the value of `destroy` for `os.Args[1:]`. -/
def destroyMode (argsWithoutProg : List String) : Bool :=
  match argsWithoutProg with
  | [] => false
  | arg0 :: _ => decide (arg0 = "destroy")

/-- Go `main`, for the positional arguments and the result of reading `config.yaml`. -/
def main (argsWithoutProg : List String) (file : ReadFile) : Proc Unit := do
  let destroy := destroyMode argsWithoutProg
  match file with
  | .error => osExit 1
  | .data data =>
  match yamlUnmarshal data with
  | .error _ => osExit 1
  | .ok env =>
    let setup : Project → Proc Stack := fun p => do
      let (stack, err) ← setupStack env.Organization env.StackName p
      if err ≠ GoError.nil then osExit 1
      pure stack
    let baseStack ← setup env.BaseProject
    let platformStack ← setup env.PlatformProject
    let dataStack ← setup env.DataProject
    let appStack ← setup env.AppProject
    let delete : Stack → String → Proc Unit := fun s n => do
      let err ← deleteStack s n
      if err ≠ GoError.nil then osExit 1
    -- Delete the stacks if destroy is true, then return
    if destroy then
      delete appStack env.AppProject.Name
      delete platformStack env.PlatformProject.Name
      delete dataStack env.DataProject.Name
      delete baseStack env.BaseProject.Name
    else
      let refresh : Stack → String → Proc Unit := fun s n => do
        let err ← refreshStack s n
        if err ≠ GoError.nil then osExit 1
      let update : Stack → String → Proc Unit := fun s n => do
        let err ← updateStack s n
        if err ≠ GoError.nil then osExit 1
      -- Set config values for base stack
      let _ ← baseStack.SetConfig "aws:region" ⟨env.Region, false⟩
      refresh baseStack env.BaseProject.Name
      update baseStack env.BaseProject.Name
      -- Set config values for platform stack
      let _ ← platformStack.SetConfig "aws:region" ⟨env.Region, false⟩
      let _ ← platformStack.SetConfig "baseOrgName" ⟨env.Organization, false⟩
      let _ ← platformStack.SetConfig "baseProjName" ⟨env.BaseProject.Name, false⟩
      let _ ← platformStack.SetConfig "baseStackName" ⟨env.StackName, false⟩
      refresh platformStack env.PlatformProject.Name
      update platformStack env.PlatformProject.Name
      -- Set config values for the data stack
      let _ ← dataStack.SetConfig "aws:region" ⟨env.Region, false⟩
      let _ ← dataStack.SetConfig "baseOrgName" ⟨env.Organization, false⟩
      let _ ← dataStack.SetConfig "baseProjName" ⟨env.BaseProject.Name, false⟩
      let _ ← dataStack.SetConfig "baseStackName" ⟨env.StackName, false⟩
      refresh dataStack env.DataProject.Name
      update dataStack env.DataProject.Name
      -- Set config values for app stack
      let _ ← appStack.SetConfig "platformOrgName" ⟨env.Organization, false⟩
      let _ ← appStack.SetConfig "dataOrgName" ⟨env.Organization, false⟩
      let _ ← appStack.SetConfig "platformProjName" ⟨env.PlatformProject.Name, false⟩
      let _ ← appStack.SetConfig "dataProjName" ⟨env.DataProject.Name, false⟩
      let _ ← appStack.SetConfig "platformStackName" ⟨env.StackName, false⟩
      let _ ← appStack.SetConfig "dataStackName" ⟨env.StackName, false⟩
      refresh appStack env.AppProject.Name
      update appStack env.AppProject.Name

/-- The handle `main` binds to `baseStack`. -/
def baseStack (env : Environment) : Stack :=
  ⟨FullyQualifiedStackName env.Organization env.BaseProject.Name env.StackName⟩

/-- The handle `main` binds to `platformStack`. -/
def platformStack (env : Environment) : Stack :=
  ⟨FullyQualifiedStackName env.Organization env.PlatformProject.Name env.StackName⟩

/-- The handle `main` binds to `dataStack`. -/
def dataStack (env : Environment) : Stack :=
  ⟨FullyQualifiedStackName env.Organization env.DataProject.Name env.StackName⟩

/-- The handle `main` binds to `appStack`. -/
def appStack (env : Environment) : Stack :=
  ⟨FullyQualifiedStackName env.Organization env.AppProject.Name env.StackName⟩

/-- The branch `setupStack` hands to the engine for project `p`. -/
def gitBranch (p : Project) : String :=
  if p.Branch = "" then "main" else p.Branch

/-- The upsert call `setupStack` makes for project `p`. -/
def upsertCall (env : Environment) (p : Project) : Call :=
  .UpsertStackRemoteSource (FullyQualifiedStackName env.Organization p.Name env.StackName)
    ⟨p.Location, p.Path, gitBranch p, some ["npm", "install"]⟩

/-- The plan of `main`: the four upserts, then the destroy sequence or the apply
sequence. -/
def plan (destroy : Bool) (env : Environment) : List Item :=
  [ .call (upsertCall env env.BaseProject) true,
    .call (upsertCall env env.PlatformProject) true,
    .call (upsertCall env env.DataProject) true,
    .call (upsertCall env env.AppProject) true ] ++
  if destroy then
    [ .logged .destroy (appStack env),
      .logged .destroy (platformStack env),
      .logged .destroy (dataStack env),
      .logged .destroy (baseStack env) ]
  else
    [ .call (.SetConfig (baseStack env) "aws:region" ⟨env.Region, false⟩) false,
      .logged .refresh (baseStack env),
      .logged .update (baseStack env),
      .call (.SetConfig (platformStack env) "aws:region" ⟨env.Region, false⟩) false,
      .call (.SetConfig (platformStack env) "baseOrgName" ⟨env.Organization, false⟩) false,
      .call (.SetConfig (platformStack env) "baseProjName" ⟨env.BaseProject.Name, false⟩)
        false,
      .call (.SetConfig (platformStack env) "baseStackName" ⟨env.StackName, false⟩) false,
      .logged .refresh (platformStack env),
      .logged .update (platformStack env),
      .call (.SetConfig (dataStack env) "aws:region" ⟨env.Region, false⟩) false,
      .call (.SetConfig (dataStack env) "baseOrgName" ⟨env.Organization, false⟩) false,
      .call (.SetConfig (dataStack env) "baseProjName" ⟨env.BaseProject.Name, false⟩) false,
      .call (.SetConfig (dataStack env) "baseStackName" ⟨env.StackName, false⟩) false,
      .logged .refresh (dataStack env),
      .logged .update (dataStack env),
      .call (.SetConfig (appStack env) "platformOrgName" ⟨env.Organization, false⟩) false,
      .call (.SetConfig (appStack env) "dataOrgName" ⟨env.Organization, false⟩) false,
      .call (.SetConfig (appStack env) "platformProjName" ⟨env.PlatformProject.Name, false⟩)
        false,
      .call (.SetConfig (appStack env) "dataProjName" ⟨env.DataProject.Name, false⟩) false,
      .call (.SetConfig (appStack env) "platformStackName" ⟨env.StackName, false⟩) false,
      .call (.SetConfig (appStack env) "dataStackName" ⟨env.StackName, false⟩) false,
      .logged .refresh (appStack env),
      .logged .update (appStack env) ]

/-- The top-level entries of a sample `config.yaml`; the data project names a branch,
the others do not. -/
def sampleEntries : List (String × Yaml) :=
    [ ("region", .scalar "us-west-2"),
      ("organization", .scalar "zephyr"),
      ("stackName", .scalar "dev"),
      ("baseProject", .mapping
        [("location", .scalar "https://example.com/zephyr.git"), ("name", .scalar "base"),
         ("path", .scalar "infra/base")]),
      ("platformProject", .mapping
        [("location", .scalar "https://example.com/zephyr.git"),
         ("name", .scalar "platform"), ("path", .scalar "infra/platform")]),
      ("appProject", .mapping
        [("location", .scalar "https://example.com/zephyr.git"), ("name", .scalar "app"),
         ("path", .scalar "app")]),
      ("dataProject", .mapping
        [("location", .scalar "https://example.com/zephyr.git"), ("name", .scalar "data"),
         ("path", .scalar "infra/data"), ("branch", .scalar "release")]) ]

/-- A sample `config.yaml`. -/
def sampleConfig : Yaml := .mapping sampleEntries

/-- The environment `sampleConfig` decodes to. -/
def sampleEnv : Environment :=
  { Region := "us-west-2"
    Organization := "zephyr"
    StackName := "dev"
    BaseProject := ⟨"https://example.com/zephyr.git", "base", "infra/base", ""⟩
    PlatformProject := ⟨"https://example.com/zephyr.git", "platform", "infra/platform", ""⟩
    AppProject := ⟨"https://example.com/zephyr.git", "app", "app", ""⟩
    DataProject := ⟨"https://example.com/zephyr.git", "data", "infra/data", "release"⟩ }

/-- The sample configuration without its `region` key. -/
def sampleConfigNoRegion : Yaml :=
  .mapping (sampleEntries.filter (fun kv => kv.1 != "region"))

/-- An engine in which every refresh fails and every other call succeeds. -/
def refreshFails : Outcomes := fun _ c => !c.isRefresh

end RemoteSource

/-! ## remote-deployment/main.go -/

namespace RemoteDeployment

structure Project where
  Location : String
  Name : String
  Path : String
  Branch : String
  deriving DecidableEq, Repr

structure Environment where
  Region : String
  Organization : String
  StackName : String
  BaseProject : Project
  PlatformProject : Project
  AppProject : Project
  DataProject : Project
  deriving DecidableEq, Repr

/-- Modelled from the spec: decoding of a project block by `yaml.Unmarshal`: an absent
or null block leaves the zero `Project`, a mapping is decoded field by field (keys
`location`, `name`, `path`, `branch`), anything else is a decoding error. -/
def decodeProject (entries : List (String × Yaml)) (key : String) : Except Unit Project :=
  match entries.lookup key with
  | none => .ok ⟨"", "", "", ""⟩
  | some .null => .ok ⟨"", "", "", ""⟩
  | some (.mapping es) =>
    match decodeString es "location", decodeString es "name", decodeString es "path",
        decodeString es "branch" with
    | .ok l, .ok n, .ok q, .ok b => .ok ⟨l, n, q, b⟩
    | _, _, _, _ => .error ()
  | some _ => .error ()

/-- Modelled from the spec: `yaml.Unmarshal(data, &env)` for this program's
`Environment`: a document that is not well-formed fails; a null document leaves the
zero value; a mapping is decoded key by key, absent keys keeping the zero value and
unknown keys ignored; a scalar or sequence document fails. -/
def yamlUnmarshal : Data → Except Unit Environment
  | .malformed => .error ()
  | .document .null =>
    .ok ⟨"", "", "", ⟨"", "", "", ""⟩, ⟨"", "", "", ""⟩, ⟨"", "", "", ""⟩, ⟨"", "", "", ""⟩⟩
  | .document (.mapping es) =>
    match decodeString es "region", decodeString es "organization",
        decodeString es "stackName", decodeProject es "baseProject",
        decodeProject es "platformProject", decodeProject es "appProject",
        decodeProject es "dataProject" with
    | .ok r, .ok o, .ok s, .ok b, .ok p, .ok a, .ok d => .ok ⟨r, o, s, b, p, a, d⟩
    | _, _, _, _, _, _, _ => .error ()
  | .document _ => .error ()

/-- Go `refreshStack(ctx, s, n)`: the only progress sink is `os.Stdout`. -/
def refreshStack (s : Stack) (_n : String) : Proc GoError := do
  let stdoutStreamer := [Writer.stdout]
  let err ← invoke (.Refresh s stdoutStreamer)
  pure err

/-- Go `updateStack(ctx, s, n)`. -/
def updateStack (s : Stack) (_n : String) : Proc GoError := do
  let stdoutStreamer := [Writer.stdout]
  let err ← invoke (.Up s stdoutStreamer)
  pure err

/-- Go `deleteStack(ctx, s, n)`. -/
def deleteStack (s : Stack) (_n : String) : Proc GoError := do
  let stdoutStreamer := [Writer.stdout]
  let err ← invoke (.Destroy s stdoutStreamer)
  pure err

/-- Go `setupStack(ctx, o, n, proj, c)`: the repo has no setup hook; `c` is passed on as
`auto.RemoteEnvVars(c)`. -/
def setupStack (o : String) (n : String) (proj : Project) (c : List (String × EnvVarValue)) :
    Proc (Stack × GoError) := do
  let stackName := FullyQualifiedStackName o proj.Name n
  let gitBranch := if proj.Branch ≠ "" then proj.Branch else "main"
  let repo : GitRepo :=
    { URL := proj.Location
      ProjectPath := proj.Path
      Branch := gitBranch
      Setup := none }
  let err ← invoke (.UpsertRemoteStackGitSource stackName repo c)
  pure (⟨stackName⟩, err)

/-- Lines 34-40 of `main`: the value of `destroy` for `os.Args[1:]`. -/
def destroyMode (argsWithoutProg : List String) : Bool :=
  match argsWithoutProg with
  | [] => false
  | arg0 :: _ => if arg0 = "destroy" then true else false

/-- Go `main`, for the positional arguments, the process environment (`os.Getenv`) and the
result of reading `config.yaml`.  The `creds` map is listed in the order of the literal. -/
def main (argsWithoutProg : List String) (getenv : String → String) (file : ReadFile) :
    Proc Unit := do
  let destroy := destroyMode argsWithoutProg
  match file with
  | .error => osExit 1
  | .data data =>
  match yamlUnmarshal data with
  | .error _ => osExit 1
  | .ok env =>
    -- Establish credentials
    let creds : List (String × EnvVarValue) :=
      [ ("AWS_REGION", ⟨env.Region, false⟩),
        ("AWS_ACCESS_KEY_ID", ⟨getenv "AWS_ACCESS_KEY_ID", true⟩),
        ("AWS_SECRET_ACCESS_KEY", ⟨getenv "AWS_SECRET_ACCESS_KEY", true⟩),
        ("AWS_SESSION_TOKEN", ⟨getenv "AWS_SESSION_TOKEN", true⟩) ]
    let (baseStack, err) ← setupStack env.Organization env.StackName env.BaseProject creds
    if err ≠ GoError.nil then osExit 1
    let (platformStack, err) ←
      setupStack env.Organization env.StackName env.PlatformProject creds
    if err ≠ GoError.nil then osExit 1
    let (dataStack, err) ← setupStack env.Organization env.StackName env.DataProject creds
    if err ≠ GoError.nil then osExit 1
    let (appStack, err) ← setupStack env.Organization env.StackName env.AppProject creds
    if err ≠ GoError.nil then osExit 1
    -- If destroy is true, call deleteStack function to destroy stacks
    if destroy then
      let err ← deleteStack appStack env.AppProject.Name
      if err ≠ GoError.nil then osExit 1
      let err ← deleteStack platformStack env.PlatformProject.Name
      if err ≠ GoError.nil then osExit 1
      let err ← deleteStack dataStack env.DataProject.Name
      if err ≠ GoError.nil then osExit 1
      let err ← deleteStack baseStack env.BaseProject.Name
      if err ≠ GoError.nil then osExit 1
      osExit 0
    -- Set config values for base stack
    let _ ← baseStack.SetConfig "aws:region" ⟨env.Region, false⟩
    let err ← refreshStack baseStack env.BaseProject.Name
    if err ≠ GoError.nil then osExit 1
    let err ← updateStack baseStack env.BaseProject.Name
    if err ≠ GoError.nil then osExit 1
    -- Set config values for platform stack
    let _ ← platformStack.SetConfig "aws:region" ⟨env.Region, false⟩
    let _ ← platformStack.SetConfig "baseOrgName" ⟨env.Organization, false⟩
    let _ ← platformStack.SetConfig "baseProjName" ⟨env.BaseProject.Name, false⟩
    let _ ← platformStack.SetConfig "baseStackName" ⟨env.StackName, false⟩
    let err ← refreshStack platformStack env.PlatformProject.Name
    if err ≠ GoError.nil then osExit 1
    let err ← updateStack platformStack env.PlatformProject.Name
    if err ≠ GoError.nil then osExit 1
    -- Set config values for the data stack
    let _ ← dataStack.SetConfig "aws:region" ⟨env.Region, false⟩
    let _ ← dataStack.SetConfig "baseOrgName" ⟨env.Organization, false⟩
    let _ ← dataStack.SetConfig "baseProjName" ⟨env.BaseProject.Name, false⟩
    let _ ← dataStack.SetConfig "baseStackName" ⟨env.StackName, false⟩
    let err ← refreshStack dataStack env.DataProject.Name
    if err ≠ GoError.nil then osExit 1
    let err ← updateStack dataStack env.DataProject.Name
    if err ≠ GoError.nil then osExit 1
    -- Set config values for app stack
    let _ ← appStack.SetConfig "platformOrgName" ⟨env.Organization, false⟩
    let _ ← appStack.SetConfig "dataOrgName" ⟨env.Organization, false⟩
    let _ ← appStack.SetConfig "platformProjName" ⟨env.PlatformProject.Name, false⟩
    let _ ← appStack.SetConfig "dataProjName" ⟨env.DataProject.Name, false⟩
    let _ ← appStack.SetConfig "platformStackName" ⟨env.StackName, false⟩
    let _ ← appStack.SetConfig "dataStackName" ⟨env.StackName, false⟩
    let err ← refreshStack appStack env.AppProject.Name
    if err ≠ GoError.nil then osExit 1
    let err ← updateStack appStack env.AppProject.Name
    if err ≠ GoError.nil then osExit 1

/-- The handle `main` binds to `baseStack`. -/
def baseStack (env : Environment) : Stack :=
  ⟨FullyQualifiedStackName env.Organization env.BaseProject.Name env.StackName⟩

/-- The handle `main` binds to `platformStack`. -/
def platformStack (env : Environment) : Stack :=
  ⟨FullyQualifiedStackName env.Organization env.PlatformProject.Name env.StackName⟩

/-- The handle `main` binds to `dataStack`. -/
def dataStack (env : Environment) : Stack :=
  ⟨FullyQualifiedStackName env.Organization env.DataProject.Name env.StackName⟩

/-- The handle `main` binds to `appStack`. -/
def appStack (env : Environment) : Stack :=
  ⟨FullyQualifiedStackName env.Organization env.AppProject.Name env.StackName⟩

/-- The branch `setupStack` hands to the engine for project `p`. -/
def gitBranch (p : Project) : String :=
  if p.Branch = "" then "main" else p.Branch

/-- The `creds` map of `main`, in the order of the literal. -/
def credentials (env : Environment) (getenv : String → String) : List (String × EnvVarValue) :=
  [ ("AWS_REGION", ⟨env.Region, false⟩),
    ("AWS_ACCESS_KEY_ID", ⟨getenv "AWS_ACCESS_KEY_ID", true⟩),
    ("AWS_SECRET_ACCESS_KEY", ⟨getenv "AWS_SECRET_ACCESS_KEY", true⟩),
    ("AWS_SESSION_TOKEN", ⟨getenv "AWS_SESSION_TOKEN", true⟩) ]

/-- The upsert call `setupStack` makes for project `p`. -/
def upsertCall (env : Environment) (creds : List (String × EnvVarValue)) (p : Project) : Call :=
  .UpsertRemoteStackGitSource (FullyQualifiedStackName env.Organization p.Name env.StackName)
    ⟨p.Location, p.Path, gitBranch p, none⟩ creds

/-- The plan of `main`: the four upserts, then the destroy sequence or the apply
sequence. -/
def plan (destroy : Bool) (env : Environment) (creds : List (String × EnvVarValue)) : List Item :=
  [ .call (upsertCall env creds env.BaseProject) true,
    .call (upsertCall env creds env.PlatformProject) true,
    .call (upsertCall env creds env.DataProject) true,
    .call (upsertCall env creds env.AppProject) true ] ++
  if destroy then
    [ .call (.Destroy (appStack env) [Writer.stdout]) true,
      .call (.Destroy (platformStack env) [Writer.stdout]) true,
      .call (.Destroy (dataStack env) [Writer.stdout]) true,
      .call (.Destroy (baseStack env) [Writer.stdout]) true ]
  else
    [ .call (.SetConfig (baseStack env) "aws:region" ⟨env.Region, false⟩) false,
      .call (.Refresh (baseStack env) [Writer.stdout]) true,
      .call (.Up (baseStack env) [Writer.stdout]) true,
      .call (.SetConfig (platformStack env) "aws:region" ⟨env.Region, false⟩) false,
      .call (.SetConfig (platformStack env) "baseOrgName" ⟨env.Organization, false⟩) false,
      .call (.SetConfig (platformStack env) "baseProjName" ⟨env.BaseProject.Name, false⟩)
        false,
      .call (.SetConfig (platformStack env) "baseStackName" ⟨env.StackName, false⟩) false,
      .call (.Refresh (platformStack env) [Writer.stdout]) true,
      .call (.Up (platformStack env) [Writer.stdout]) true,
      .call (.SetConfig (dataStack env) "aws:region" ⟨env.Region, false⟩) false,
      .call (.SetConfig (dataStack env) "baseOrgName" ⟨env.Organization, false⟩) false,
      .call (.SetConfig (dataStack env) "baseProjName" ⟨env.BaseProject.Name, false⟩) false,
      .call (.SetConfig (dataStack env) "baseStackName" ⟨env.StackName, false⟩) false,
      .call (.Refresh (dataStack env) [Writer.stdout]) true,
      .call (.Up (dataStack env) [Writer.stdout]) true,
      .call (.SetConfig (appStack env) "platformOrgName" ⟨env.Organization, false⟩) false,
      .call (.SetConfig (appStack env) "dataOrgName" ⟨env.Organization, false⟩) false,
      .call (.SetConfig (appStack env) "platformProjName" ⟨env.PlatformProject.Name, false⟩)
        false,
      .call (.SetConfig (appStack env) "dataProjName" ⟨env.DataProject.Name, false⟩) false,
      .call (.SetConfig (appStack env) "platformStackName" ⟨env.StackName, false⟩) false,
      .call (.SetConfig (appStack env) "dataStackName" ⟨env.StackName, false⟩) false,
      .call (.Refresh (appStack env) [Writer.stdout]) true,
      .call (.Up (appStack env) [Writer.stdout]) true ]

/-- The top-level entries of a sample `config.yaml`; the data project names a branch,
the others do not. -/
def sampleEntries : List (String × Yaml) :=
    [ ("region", .scalar "us-west-2"),
      ("organization", .scalar "zephyr"),
      ("stackName", .scalar "dev"),
      ("baseProject", .mapping
        [("location", .scalar "https://example.com/zephyr.git"), ("name", .scalar "base"),
         ("path", .scalar "infra/base")]),
      ("platformProject", .mapping
        [("location", .scalar "https://example.com/zephyr.git"),
         ("name", .scalar "platform"), ("path", .scalar "infra/platform")]),
      ("appProject", .mapping
        [("location", .scalar "https://example.com/zephyr.git"), ("name", .scalar "app"),
         ("path", .scalar "app")]),
      ("dataProject", .mapping
        [("location", .scalar "https://example.com/zephyr.git"), ("name", .scalar "data"),
         ("path", .scalar "infra/data"), ("branch", .scalar "release")]) ]

/-- A sample `config.yaml`. -/
def sampleConfig : Yaml := .mapping sampleEntries

/-- The environment `sampleConfig` decodes to. -/
def sampleEnv : Environment :=
  { Region := "us-west-2"
    Organization := "zephyr"
    StackName := "dev"
    BaseProject := ⟨"https://example.com/zephyr.git", "base", "infra/base", ""⟩
    PlatformProject := ⟨"https://example.com/zephyr.git", "platform", "infra/platform", ""⟩
    AppProject := ⟨"https://example.com/zephyr.git", "app", "app", ""⟩
    DataProject := ⟨"https://example.com/zephyr.git", "data", "infra/data", "release"⟩ }

/-- The sample configuration without its `region` key. -/
def sampleConfigNoRegion : Yaml :=
  .mapping (sampleEntries.filter (fun kv => kv.1 != "region"))

/-- An engine in which every refresh fails and every other call succeeds. -/
def refreshFails : Outcomes := fun _ c => !c.isRefresh

/-- A sample process environment. -/
def sampleGetenv : String → String := fun name =>
  if name = "AWS_ACCESS_KEY_ID" then "AKIAEXAMPLE"
  else if name = "AWS_SECRET_ACCESS_KEY" then "secret-example"
  else if name = "AWS_SESSION_TOKEN" then "token-example"
  else ""

/-- A sample process environment that also sets `AWS_REGION`. -/
def sampleGetenvRegion : String → String := fun name =>
  if name = "AWS_REGION" then "eu-central-1" else sampleGetenv name

end RemoteDeployment

/-! ## Laws of processes and plans -/

theorem proc_pure_bind {α β : Type} (a : α) (f : α → Proc β) : (pure a >>= f) = f a := rfl

theorem proc_bind_assoc {α β γ : Type} (m : Proc α) (f : α → Proc β) (g : β → Proc γ) :
    (m >>= f >>= g) = (m >>= fun a => f a >>= g) := by
  funext w t
  show Proc.bind (Proc.bind m f) g w t = Proc.bind m (fun a => Proc.bind (f a) g) w t
  unfold Proc.bind
  cases m w t <;> rfl

theorem osExit_bind {α β : Type} (c : Nat) (f : α → Proc β) : (osExit c >>= f) = osExit c := rfl

theorem ite_bind {α β : Type} (c : Prop) [Decidable c] (a b : Proc α) (f : α → Proc β) :
    ((if c then a else b) >>= f) = if c then a >>= f else b >>= f := by
  split <;> rfl

theorem bind_apply {α β : Type} (m : Proc α) (f : α → Proc β) (w : Outcomes) (t : Trace) :
    (m >>= f) w t = match m w t with
      | .next a t1 => f a w t1
      | .exit c t1 => .exit c t1 := rfl

theorem Item.exec_call (c : Call) (fatal : Bool) (w : Outcomes) (t : Trace) :
    (Item.call c fatal).exec w t =
      if w t c = false ∧ fatal = true then .exit 1 (t ++ [⟨c, false⟩])
      else .next () (t ++ [⟨c, w t c⟩]) := by
  cases h : w t c <;> cases fatal <;>
    simp [Item.exec, Bind.bind, Proc.bind, Pure.pure, Proc.pure, invoke, osExit, h]

theorem Item.exec_logged (op : StackOp) (s : Stack) (w : Outcomes) (t : Trace) :
    (Item.logged op s).exec w t =
      if w t .CreateTemp = false then .exit 1 (t ++ [⟨.CreateTemp, false⟩])
      else if w (t ++ [⟨.CreateTemp, true⟩]) (op.call s [.stdout, .tmp t.length]) = false then
        .exit 1 (t ++ [⟨.CreateTemp, true⟩, ⟨op.call s [.stdout, .tmp t.length], false⟩])
      else .next () (t ++ [⟨.CreateTemp, true⟩, ⟨op.call s [.stdout, .tmp t.length], true⟩]) := by
  cases h : w t .CreateTemp
  · simp [Item.exec, Bind.bind, Proc.bind, Pure.pure, Proc.pure, invoke, osExit, osCreateTemp, h]
  · cases h2 : w (t ++ [⟨.CreateTemp, true⟩]) (op.call s [.stdout, .tmp t.length]) <;>
      simp [Item.exec, Bind.bind, Proc.bind, Pure.pure, Proc.pure, invoke, osExit,
        osCreateTemp, h, h2]

theorem runFrom_nil (w : Outcomes) (t : Trace) : (exec []).runFrom w t = ⟨t, 0⟩ := rfl

theorem runFrom_cons (i : Item) (is : List Item) (w : Outcomes) (t : Trace) :
    (exec (i :: is)).runFrom w t =
      match i.exec w t with
      | .next _ t1 => (exec is).runFrom w t1
      | .exit c t1 => ⟨t1, c⟩ := by
  simp only [Proc.runFrom, exec, bind_apply]
  cases i.exec w t <;> rfl

/-- When nothing fails, a plan makes exactly its calls and ends with status 0. -/
theorem runFrom_allSucceed (ps : List Item) (t : Trace) :
    (exec ps).runFrom allSucceed t =
      ⟨t ++ (successCalls ps t.length).map (fun c => ⟨c, true⟩), 0⟩ := by
  induction ps generalizing t with
  | nil => simp [runFrom_nil, successCalls]
  | cons i is ih =>
    cases i with
    | call c f =>
      simp [runFrom_cons, Item.exec_call, allSucceed, successCalls, ih]
    | logged op s =>
      simp [runFrom_cons, Item.exec_logged, allSucceed, successCalls, ih]

/-- Whatever fails, the calls made are an initial segment of the calls of the
all-success run. -/
theorem runFrom_calls_isPrefix (ps : List Item) (w : Outcomes) (t : Trace) :
    ((exec ps).runFrom w t).trace.map Entry.call <+:
      t.map Entry.call ++ successCalls ps t.length := by
  induction ps generalizing t with
  | nil => simp [runFrom_nil, successCalls]
  | cons i is ih =>
    cases i with
    | call c f =>
      rw [runFrom_cons, Item.exec_call]
      by_cases hc : w t c = false ∧ f = true
      · simp only [hc, and_self, if_true, successCalls, List.map_append, List.map_cons,
          List.map_nil]
        exact ⟨successCalls is (t.length + 1), by simp⟩
      · have := ih (t ++ [⟨c, w t c⟩])
        simpa [hc, successCalls] using this
    | logged op s =>
      rw [runFrom_cons, Item.exec_logged]
      by_cases h1 : w t .CreateTemp = false
      · simp only [h1, if_true, successCalls, List.map_append, List.map_cons, List.map_nil]
        exact ⟨op.call s [.stdout, .tmp t.length] :: successCalls is (t.length + 2), by simp⟩
      · by_cases h2 : w (t ++ [⟨.CreateTemp, true⟩]) (op.call s [.stdout, .tmp t.length]) = false
        · simp only [h1, h2, if_true, if_false, successCalls, List.map_append, List.map_cons,
            List.map_nil]
          exact ⟨successCalls is (t.length + 2), by simp⟩
        · have := ih (t ++ [⟨.CreateTemp, true⟩, ⟨op.call s [.stdout, .tmp t.length], true⟩])
          simpa [h1, h2, successCalls] using this

theorem runFrom_trace_extends (ps : List Item) (w : Outcomes) (t : Trace) :
    t <+: ((exec ps).runFrom w t).trace := by
  induction ps generalizing t with
  | nil => simp [runFrom_nil]
  | cons i is ih =>
    cases i with
    | call c f =>
      rw [runFrom_cons, Item.exec_call]
      by_cases hc : w t c = false ∧ f = true
      · simp [hc]
      · simp only [hc, if_false]
        exact (List.prefix_append t _).trans (ih _)
    | logged op s =>
      rw [runFrom_cons, Item.exec_logged]
      by_cases h1 : w t .CreateTemp = false
      · simp [h1]
      · by_cases h2 : w (t ++ [⟨.CreateTemp, true⟩]) (op.call s [.stdout, .tmp t.length]) = false
        · simp [h1, h2]
        · simp only [h1, h2, if_false]
          exact (List.prefix_append t _).trans (ih _)

theorem stopsAtFailure_append (P : Call → Bool) (a b : List Entry) (x : Nat)
    (ha : ∀ e ∈ a, ¬ (e.ok = false ∧ P e.call = true)) (hb : StopsAtFailure P b x) :
    StopsAtFailure P (a ++ b) x := by
  induction a with
  | nil => simpa using hb
  | cons y a ih =>
    intro pre e post h hok hP
    cases pre with
    | nil =>
      simp only [List.nil_append, List.cons_append, List.cons.injEq] at h
      exact absurd ⟨hok, hP⟩ (h.1 ▸ ha y (List.mem_cons_self _ _))
    | cons z pre =>
      simp only [List.cons_append, List.cons.injEq] at h
      exact ih (fun e he => ha e (List.mem_cons_of_mem _ he)) pre e post h.2 hok hP

theorem stopsAtFailure_last (P : Call → Bool) (a : List Entry) (e : Entry)
    (ha : ∀ e ∈ a, ¬ (e.ok = false ∧ P e.call = true)) :
    StopsAtFailure P (a ++ [e]) 1 := by
  refine stopsAtFailure_append P a [e] 1 ha ?_
  intro pre e1 post h _ _
  cases pre with
  | nil => simp at h; exact ⟨h.2, rfl⟩
  | cons z pre => simp at h

/-- If every call satisfying `P` is fatal in the plan, a failed call satisfying `P`
ends the run with status 1. -/
theorem runFrom_stopsAtFailure (P : Call → Bool) (ps : List Item)
    (hps : ∀ i ∈ ps, i.covers P = true) (w : Outcomes) (t : Trace) :
    ∃ new, ((exec ps).runFrom w t).trace = t ++ new ∧
      StopsAtFailure P new ((exec ps).runFrom w t).exit := by
  induction ps generalizing t with
  | nil =>
    refine ⟨[], by simp [runFrom_nil], ?_⟩
    intro pre e post h
    simp at h
  | cons i is ih =>
    have his : ∀ i ∈ is, i.covers P = true := fun j hj => hps j (List.mem_cons_of_mem _ hj)
    have hi := hps i (List.mem_cons_self _ _)
    cases i with
    | call c f =>
      rw [runFrom_cons, Item.exec_call]
      by_cases hc : w t c = false ∧ f = true
      · simp only [hc, and_self, if_true]
        exact ⟨[⟨c, false⟩], rfl, stopsAtFailure_last P [] _ (by simp)⟩
      · simp only [hc, if_false]
        obtain ⟨new, h1, h2⟩ := ih his (t ++ [⟨c, w t c⟩])
        refine ⟨⟨c, w t c⟩ :: new, by simp [h1], ?_⟩
        refine stopsAtFailure_append P [⟨c, w t c⟩] new _ ?_ h2
        intro e he
        simp only [List.mem_singleton] at he
        subst he
        simp only [Item.covers, Bool.or_eq_true, Bool.not_eq_true'] at hi
        intro ⟨h3, h4⟩
        simp only at h3 h4
        rcases hi with hi | hi
        · rw [hi] at h4; exact absurd h4 (by decide)
        · exact hc ⟨h3, hi⟩
    | logged op s =>
      rw [runFrom_cons, Item.exec_logged]
      by_cases h1 : w t .CreateTemp = false
      · simp only [h1, if_true]
        exact ⟨[⟨.CreateTemp, false⟩], rfl, stopsAtFailure_last P [] _ (by simp)⟩
      · by_cases h2 : w (t ++ [⟨.CreateTemp, true⟩]) (op.call s [.stdout, .tmp t.length]) = false
        · simp only [h1, h2, if_true, if_false]
          exact ⟨[⟨.CreateTemp, true⟩, ⟨op.call s [.stdout, .tmp t.length], false⟩], rfl,
            stopsAtFailure_last P [⟨.CreateTemp, true⟩] _ (by simp)⟩
        · simp only [h1, h2, if_false]
          obtain ⟨new, h3, h4⟩ :=
            ih his (t ++ [⟨.CreateTemp, true⟩, ⟨op.call s [.stdout, .tmp t.length], true⟩])
          refine ⟨⟨.CreateTemp, true⟩ :: ⟨op.call s [.stdout, .tmp t.length], true⟩ :: new,
            by simp [h3], ?_⟩
          refine stopsAtFailure_append P
            [⟨.CreateTemp, true⟩, ⟨op.call s [.stdout, .tmp t.length], true⟩] new _ ?_ h4
          intro e he
          simp only [List.mem_cons, List.mem_singleton, List.not_mem_nil, or_false] at he
          rcases he with he | he <;> subst he <;> simp


theorem ite_stale {α β : Type} (c : Prop) [Decidable c] (a b : Proc β) (m : Proc α)
    (k : α → Proc β) :
    (if c then a else m >>= fun x => if c then b else k x) = if c then a else m >>= k := by
  split <;> rfl

theorem run_bind_osExit_zero (p : Proc Unit) (w : Outcomes) :
    (p >>= fun _ => (osExit 0 : Proc Unit)).run w = p.runFrom w [] := by
  simp only [Proc.run, Proc.runFrom, bind_apply]
  cases p w [] <;> rfl

theorem run_eq_runFrom (p : Proc Unit) (w : Outcomes) : p.run w = p.runFrom w [] := rfl

theorem exec_call_bind {β : Type} (c : Call) (fatal : Bool) (k : Proc β) :
    ((Item.call c fatal).exec >>= fun _ => k) =
      (invoke c >>= fun err => if err ≠ GoError.nil ∧ fatal = true then osExit 1 else k) := by
  simp only [Item.exec, proc_bind_assoc, ite_bind, osExit_bind, proc_pure_bind]

/-- Every call of a run of a plan is one of the calls of its all-success run. -/
theorem runFrom_call_mem (ps : List Item) (w : Outcomes) (e : Entry)
    (he : e ∈ ((exec ps).runFrom w []).trace) : e.call ∈ successCalls ps 0 := by
  have h := runFrom_calls_isPrefix ps w []
  simp only [List.map_nil, List.nil_append, List.length_nil] at h
  exact h.mem (List.mem_map_of_mem Entry.call he)

theorem failureStops_of_plan (ps : List Item)
    (hps : ∀ i ∈ ps, i.covers Call.isLifecycle = true) (w : Outcomes) :
    FailureStops ((exec ps).runFrom w []) ((exec ps).runFrom allSucceed []) := by
  constructor
  · obtain ⟨new, h1, h2⟩ := runFrom_stopsAtFailure Call.isLifecycle ps hps w []
    rw [List.nil_append] at h1
    rw [h1]
    exact h2
  · have h := runFrom_calls_isPrefix ps w []
    rw [runFrom_allSucceed]
    simpa [calls, Function.comp_def] using h

theorem failureStops_error : FailureStops ⟨[], 1⟩ ⟨[], 1⟩ := by
  constructor
  · intro pre e post h
    simp at h
  · exact List.prefix_refl _

theorem noApplyOps_of_plan (ps : List Item) (w : Outcomes)
    (hps : ∀ c ∈ successCalls ps 0,
      c.isRefresh = false ∧ c.isUp = false ∧ c.isSetConfig = false) :
    NoApplyOps ((exec ps).runFrom w []).trace :=
  fun e he => hps e.call (runFrom_call_mem ps w e he)

theorem noDestroy_of_plan (ps : List Item) (w : Outcomes)
    (hps : ∀ c ∈ successCalls ps 0, c.isDestroy = false) :
    NoDestroy ((exec ps).runFrom w []).trace :=
  fun e he => hps e.call (runFrom_call_mem ps w e he)

/-! ## Each `main` runs its plan -/

namespace LocalSource

theorem refreshStack_check_local {β : Type} (s : Stack) (n : String) (k : Proc β) :
    (refreshStack s n >>= fun err => if err ≠ GoError.nil then osExit 1 else k) =
      ((Item.logged .refresh s).exec >>= fun _ => k) := by
  funext w t
  cases h1 : w t .CreateTemp
  · simp [refreshStack, Item.exec, StackOp.call, Bind.bind, Proc.bind, osCreateTemp, invoke,
      Pure.pure, Proc.pure, osExit, h1]
  · cases h2 : w (t ++ [⟨.CreateTemp, true⟩]) (.Refresh s [.stdout, .tmp t.length]) <;>
      simp [refreshStack, Item.exec, StackOp.call, Bind.bind, Proc.bind, osCreateTemp, invoke,
        Pure.pure, Proc.pure, osExit, h1, h2]

theorem updateStack_check_local {β : Type} (s : Stack) (n : String) (k : Proc β) :
    (updateStack s n >>= fun err => if err ≠ GoError.nil then osExit 1 else k) =
      ((Item.logged .update s).exec >>= fun _ => k) := by
  funext w t
  cases h1 : w t .CreateTemp
  · simp [updateStack, Item.exec, StackOp.call, Bind.bind, Proc.bind, osCreateTemp, invoke,
      Pure.pure, Proc.pure, osExit, h1]
  · cases h2 : w (t ++ [⟨.CreateTemp, true⟩]) (.Up s [.stdout, .tmp t.length]) <;>
      simp [updateStack, Item.exec, StackOp.call, Bind.bind, Proc.bind, osCreateTemp, invoke,
        Pure.pure, Proc.pure, osExit, h1, h2]

theorem deleteStack_check_local {β : Type} (s : Stack) (n : String) (k : Proc β) :
    (deleteStack s n >>= fun err => if err ≠ GoError.nil then osExit 1 else k) =
      ((Item.logged .destroy s).exec >>= fun _ => k) := by
  funext w t
  cases h1 : w t .CreateTemp
  · simp [deleteStack, Item.exec, StackOp.call, Bind.bind, Proc.bind, osCreateTemp, invoke,
      Pure.pure, Proc.pure, osExit, h1]
  · cases h2 : w (t ++ [⟨.CreateTemp, true⟩]) (.Destroy s [.stdout, .tmp t.length]) <;>
      simp [deleteStack, Item.exec, StackOp.call, Bind.bind, Proc.bind, osCreateTemp, invoke,
        Pure.pure, Proc.pure, osExit, h1, h2]

theorem main_eq_exec_local (args : List String) (d : Data) (env : Environment)
    (h : yamlUnmarshal d = .ok env) :
    main args (.data d) =
      if destroyMode args = true then exec (plan true env) >>= fun _ => osExit 0
      else exec (plan false env) := by
  unfold main
  simp only [h]
  cases destroyMode args <;>
    simp only [plan, upsertCall, baseStack, platformStack, appStack, exec, exec_call_bind,
      UpsertStackLocalSource, Stack.SetConfig, proc_bind_assoc, proc_pure_bind, osExit_bind,
      ite_bind, refreshStack_check_local, updateStack_check_local, deleteStack_check_local, ite_stale, and_true,
      and_false, Bool.false_eq_true, if_false, if_true, List.cons_append, List.nil_append]

/-- The run of `main` on a configuration that decodes is the run of its plan. -/
theorem run_main_local (args : List String) (d : Data) (env : Environment)
    (h : yamlUnmarshal d = .ok env) (w : Outcomes) :
    (main args (.data d)).run w = (exec (plan (destroyMode args) env)).runFrom w [] := by
  rw [main_eq_exec_local args d env h]
  cases destroyMode args
  · rfl
  · simp only [if_true]
    exact run_bind_osExit_zero _ w

/-- The run of `main` when every call succeeds. -/
theorem run_main_allSucceed_local (args : List String) (d : Data) (env : Environment)
    (h : yamlUnmarshal d = .ok env) :
    (main args (.data d)).run allSucceed =
      ⟨(successCalls (plan (destroyMode args) env) 0).map (fun c => ⟨c, true⟩), 0⟩ := by
  rw [run_main_local args d env h, runFrom_allSucceed]
  simp

theorem run_main_readError_local (args : List String) (w : Outcomes) :
    (main args .error).run w = ⟨[], 1⟩ := rfl

theorem run_main_decodeError_local (args : List String) (d : Data) (w : Outcomes)
    (h : yamlUnmarshal d = .error ()) : (main args (.data d)).run w = ⟨[], 1⟩ := by
  unfold main
  simp only [h]
  rfl

theorem plan_covers_local (b : Bool) (env : Environment) :
    ∀ i ∈ plan b env, i.covers Call.isLifecycle = true := by
  cases b <;> simp [plan, upsertCall, Item.covers, Call.isLifecycle, Call.isCreateTemp,
    Call.isRefresh, Call.isUp, Call.isDestroy]

theorem plan_destroy_calls_local (env : Environment) :
    ∀ c ∈ successCalls (plan true env) 0,
      c.isRefresh = false ∧ c.isUp = false ∧ c.isSetConfig = false := by
  simp [plan, upsertCall, successCalls, StackOp.call, Call.isRefresh, Call.isUp,
    Call.isSetConfig]

theorem plan_apply_calls_local (env : Environment) :
    ∀ c ∈ successCalls (plan false env) 0, c.isDestroy = false := by
  simp [plan, upsertCall, successCalls, StackOp.call, Call.isDestroy]

/-- Every run of `main` is the failed configuration load, or the run of a plan. -/
theorem run_main_cases_local (args : List String) (file : ReadFile) (w : Outcomes) :
    ((main args file).run w = ⟨[], 1⟩ ∧
      (main args file).run allSucceed = ⟨[], 1⟩) ∨
    ∃ env : Environment,
      (main args file).run w =
        (exec (plan (destroyMode args) env)).runFrom w [] ∧
      (main args file).run allSucceed =
        (exec (plan (destroyMode args) env)).runFrom allSucceed [] := by
  cases file with
  | error => exact Or.inl ⟨rfl, rfl⟩
  | data d =>
    cases h : yamlUnmarshal d with
    | error e =>
      exact Or.inl ⟨run_main_decodeError_local args d w h,
        run_main_decodeError_local args d allSucceed h⟩
    | ok env =>
      exact Or.inr ⟨env, run_main_local args d env h w,
        run_main_local args d env h allSucceed⟩

/-- The engine operations of apply mode when every call succeeds. -/
theorem engineOps_apply_local (args : List String) (d : Data) (env : Environment)
    (hd : destroyMode args = false) (h : yamlUnmarshal d = .ok env) :
    engineOps ((main args (.data d)).run allSucceed).trace =
        [ .UpsertStackLocalSource (baseStack env).stackName env.BaseProject.Location,
          .UpsertStackLocalSource (platformStack env).stackName env.PlatformProject.Location,
          .UpsertStackLocalSource (appStack env).stackName env.AppProject.Location,
          .SetConfig (baseStack env) "aws:region" ⟨env.Region, false⟩,
          .Refresh (baseStack env) [.stdout, .tmp 4],
          .Up (baseStack env) [.stdout, .tmp 6],
          .SetConfig (platformStack env) "aws:region" ⟨env.Region, false⟩,
          .SetConfig (platformStack env) "infraOrgName" ⟨env.Organization, false⟩,
          .SetConfig (platformStack env) "infraProjName" ⟨env.BaseProject.Name, false⟩,
          .SetConfig (platformStack env) "infraStackName" ⟨env.StackName, false⟩,
          .Refresh (platformStack env) [.stdout, .tmp 12],
          .Up (platformStack env) [.stdout, .tmp 14],
          .SetConfig (appStack env) "k8sOrgName" ⟨env.Organization, false⟩,
          .SetConfig (appStack env) "k8sProjName" ⟨env.PlatformProject.Name, false⟩,
          .SetConfig (appStack env) "k8sStackName" ⟨env.StackName, false⟩,
          .Refresh (appStack env) [.stdout, .tmp 19],
          .Up (appStack env) [.stdout, .tmp 21] ] := by
  rw [run_main_allSucceed_local args d env h, hd]
  simp [plan, upsertCall, baseStack, platformStack, appStack, successCalls, StackOp.call, engineOps, calls,
    Call.isCreateTemp]

/-- The upsert calls of a run are the first upserts of the plan, all of them when
every call succeeds. -/
theorem upsertCalls_main_local (args : List String) (d : Data) (env : Environment)
    (h : yamlUnmarshal d = .ok env) (w : Outcomes) :
    upsertCalls ((main args (.data d)).run w).trace <+:
        [upsertCall env env.BaseProject, upsertCall env env.PlatformProject,
          upsertCall env env.AppProject] ∧
    upsertCalls ((main args (.data d)).run allSucceed).trace =
        [upsertCall env env.BaseProject, upsertCall env env.PlatformProject,
          upsertCall env env.AppProject] := by
  have hp : (successCalls (plan (destroyMode args) env) 0).filter Call.isUpsert =
      [upsertCall env env.BaseProject, upsertCall env env.PlatformProject,
          upsertCall env env.AppProject] := by
    cases destroyMode args <;>
      simp [plan, upsertCall, successCalls, StackOp.call, Call.isUpsert, List.filter]
  constructor
  · rw [run_main_local args d env h w, ← hp]
    have hpre := runFrom_calls_isPrefix (plan (destroyMode args) env) w []
    simp only [List.map_nil, List.nil_append, List.length_nil] at hpre
    exact hpre.filter Call.isUpsert
  · rw [run_main_allSucceed_local args d env h, ← hp]
    simp [upsertCalls, calls, Function.comp_def]

end LocalSource

namespace RemoteSource

theorem refreshStack_check_remote {β : Type} (s : Stack) (n : String) (k : Proc β) :
    (refreshStack s n >>= fun err => if err ≠ GoError.nil then osExit 1 else k) =
      ((Item.logged .refresh s).exec >>= fun _ => k) := by
  funext w t
  cases h1 : w t .CreateTemp
  · simp [refreshStack, Item.exec, StackOp.call, Bind.bind, Proc.bind, osCreateTemp, invoke,
      Pure.pure, Proc.pure, osExit, h1]
  · cases h2 : w (t ++ [⟨.CreateTemp, true⟩]) (.Refresh s [.stdout, .tmp t.length]) <;>
      simp [refreshStack, Item.exec, StackOp.call, Bind.bind, Proc.bind, osCreateTemp, invoke,
        Pure.pure, Proc.pure, osExit, h1, h2]

theorem updateStack_check_remote {β : Type} (s : Stack) (n : String) (k : Proc β) :
    (updateStack s n >>= fun err => if err ≠ GoError.nil then osExit 1 else k) =
      ((Item.logged .update s).exec >>= fun _ => k) := by
  funext w t
  cases h1 : w t .CreateTemp
  · simp [updateStack, Item.exec, StackOp.call, Bind.bind, Proc.bind, osCreateTemp, invoke,
      Pure.pure, Proc.pure, osExit, h1]
  · cases h2 : w (t ++ [⟨.CreateTemp, true⟩]) (.Up s [.stdout, .tmp t.length]) <;>
      simp [updateStack, Item.exec, StackOp.call, Bind.bind, Proc.bind, osCreateTemp, invoke,
        Pure.pure, Proc.pure, osExit, h1, h2]

theorem deleteStack_check_remote {β : Type} (s : Stack) (n : String) (k : Proc β) :
    (deleteStack s n >>= fun err => if err ≠ GoError.nil then osExit 1 else k) =
      ((Item.logged .destroy s).exec >>= fun _ => k) := by
  funext w t
  cases h1 : w t .CreateTemp
  · simp [deleteStack, Item.exec, StackOp.call, Bind.bind, Proc.bind, osCreateTemp, invoke,
      Pure.pure, Proc.pure, osExit, h1]
  · cases h2 : w (t ++ [⟨.CreateTemp, true⟩]) (.Destroy s [.stdout, .tmp t.length]) <;>
      simp [deleteStack, Item.exec, StackOp.call, Bind.bind, Proc.bind, osCreateTemp, invoke,
        Pure.pure, Proc.pure, osExit, h1, h2]

theorem setupStack_eq_remote (o n : String) (p : Project) :
    setupStack o n p =
      (invoke (.UpsertStackRemoteSource (FullyQualifiedStackName o p.Name n)
          ⟨p.Location, p.Path, gitBranch p, some ["npm", "install"]⟩) >>= fun err =>
        pure (⟨FullyQualifiedStackName o p.Name n⟩, err)) := by
  unfold setupStack gitBranch
  by_cases hb : p.Branch = "" <;> simp [hb]

theorem main_eq_exec_remote (args : List String) (d : Data) (env : Environment)
    (h : yamlUnmarshal d = .ok env) :
    main args (.data d) = exec (plan (destroyMode args) env) := by
  unfold main
  simp only [h]
  cases destroyMode args <;>
    simp only [plan, upsertCall, baseStack, platformStack, dataStack, appStack, exec,
      exec_call_bind, setupStack_eq_remote, Stack.SetConfig, proc_bind_assoc, proc_pure_bind,
      osExit_bind, ite_bind, refreshStack_check_remote, updateStack_check_remote, deleteStack_check_remote, and_true,
      and_false, Bool.false_eq_true, if_false, if_true, List.cons_append, List.nil_append]

/-- The run of `main` on a configuration that decodes is the run of its plan. -/
theorem run_main_remote (args : List String) (d : Data) (env : Environment)
    (h : yamlUnmarshal d = .ok env) (w : Outcomes) :
    (main args (.data d)).run w = (exec (plan (destroyMode args) env)).runFrom w [] := by
  rw [main_eq_exec_remote args d env h]
  rfl

/-- The run of `main` when every call succeeds. -/
theorem run_main_allSucceed_remote (args : List String) (d : Data) (env : Environment)
    (h : yamlUnmarshal d = .ok env) :
    (main args (.data d)).run allSucceed =
      ⟨(successCalls (plan (destroyMode args) env) 0).map (fun c => ⟨c, true⟩), 0⟩ := by
  rw [run_main_remote args d env h, runFrom_allSucceed]
  simp

theorem run_main_readError_remote (args : List String) (w : Outcomes) :
    (main args .error).run w = ⟨[], 1⟩ := rfl

theorem run_main_decodeError_remote (args : List String) (d : Data) (w : Outcomes)
    (h : yamlUnmarshal d = .error ()) : (main args (.data d)).run w = ⟨[], 1⟩ := by
  unfold main
  simp only [h]
  rfl

theorem plan_covers_remote (b : Bool) (env : Environment) :
    ∀ i ∈ plan b env, i.covers Call.isLifecycle = true := by
  cases b <;> simp [plan, upsertCall, Item.covers, Call.isLifecycle, Call.isCreateTemp,
    Call.isRefresh, Call.isUp, Call.isDestroy]

theorem plan_destroy_calls_remote (env : Environment) :
    ∀ c ∈ successCalls (plan true env) 0,
      c.isRefresh = false ∧ c.isUp = false ∧ c.isSetConfig = false := by
  simp [plan, upsertCall, successCalls, StackOp.call, Call.isRefresh, Call.isUp,
    Call.isSetConfig]

theorem plan_apply_calls_remote (env : Environment) :
    ∀ c ∈ successCalls (plan false env) 0, c.isDestroy = false := by
  simp [plan, upsertCall, successCalls, StackOp.call, Call.isDestroy]

/-- Every run of `main` is the failed configuration load, or the run of a plan. -/
theorem run_main_cases_remote (args : List String) (file : ReadFile) (w : Outcomes) :
    ((main args file).run w = ⟨[], 1⟩ ∧
      (main args file).run allSucceed = ⟨[], 1⟩) ∨
    ∃ env : Environment,
      (main args file).run w =
        (exec (plan (destroyMode args) env)).runFrom w [] ∧
      (main args file).run allSucceed =
        (exec (plan (destroyMode args) env)).runFrom allSucceed [] := by
  cases file with
  | error => exact Or.inl ⟨rfl, rfl⟩
  | data d =>
    cases h : yamlUnmarshal d with
    | error e =>
      exact Or.inl ⟨run_main_decodeError_remote args d w h,
        run_main_decodeError_remote args d allSucceed h⟩
    | ok env =>
      exact Or.inr ⟨env, run_main_remote args d env h w,
        run_main_remote args d env h allSucceed⟩

/-- The engine operations of apply mode when every call succeeds. -/
theorem engineOps_apply_remote (args : List String) (d : Data) (env : Environment)
    (hd : destroyMode args = false) (h : yamlUnmarshal d = .ok env) :
    engineOps ((main args (.data d)).run allSucceed).trace =
        [ upsertCall env env.BaseProject,
          upsertCall env env.PlatformProject,
          upsertCall env env.DataProject,
          upsertCall env env.AppProject,
          .SetConfig (baseStack env) "aws:region" ⟨env.Region, false⟩,
          .Refresh (baseStack env) [.stdout, .tmp 5],
          .Up (baseStack env) [.stdout, .tmp 7],
          .SetConfig (platformStack env) "aws:region" ⟨env.Region, false⟩,
          .SetConfig (platformStack env) "baseOrgName" ⟨env.Organization, false⟩,
          .SetConfig (platformStack env) "baseProjName" ⟨env.BaseProject.Name, false⟩,
          .SetConfig (platformStack env) "baseStackName" ⟨env.StackName, false⟩,
          .Refresh (platformStack env) [.stdout, .tmp 13],
          .Up (platformStack env) [.stdout, .tmp 15],
          .SetConfig (dataStack env) "aws:region" ⟨env.Region, false⟩,
          .SetConfig (dataStack env) "baseOrgName" ⟨env.Organization, false⟩,
          .SetConfig (dataStack env) "baseProjName" ⟨env.BaseProject.Name, false⟩,
          .SetConfig (dataStack env) "baseStackName" ⟨env.StackName, false⟩,
          .Refresh (dataStack env) [.stdout, .tmp 21],
          .Up (dataStack env) [.stdout, .tmp 23],
          .SetConfig (appStack env) "platformOrgName" ⟨env.Organization, false⟩,
          .SetConfig (appStack env) "dataOrgName" ⟨env.Organization, false⟩,
          .SetConfig (appStack env) "platformProjName" ⟨env.PlatformProject.Name, false⟩,
          .SetConfig (appStack env) "dataProjName" ⟨env.DataProject.Name, false⟩,
          .SetConfig (appStack env) "platformStackName" ⟨env.StackName, false⟩,
          .SetConfig (appStack env) "dataStackName" ⟨env.StackName, false⟩,
          .Refresh (appStack env) [.stdout, .tmp 31],
          .Up (appStack env) [.stdout, .tmp 33] ] := by
  rw [run_main_allSucceed_remote args d env h, hd]
  simp [plan, upsertCall, baseStack, platformStack, dataStack, appStack, successCalls, StackOp.call, engineOps, calls,
    Call.isCreateTemp]

/-- The upsert calls of a run are the first upserts of the plan, all of them when
every call succeeds. -/
theorem upsertCalls_main_remote (args : List String) (d : Data) (env : Environment)
    (h : yamlUnmarshal d = .ok env) (w : Outcomes) :
    upsertCalls ((main args (.data d)).run w).trace <+:
        [upsertCall env env.BaseProject, upsertCall env env.PlatformProject,
          upsertCall env env.DataProject, upsertCall env env.AppProject] ∧
    upsertCalls ((main args (.data d)).run allSucceed).trace =
        [upsertCall env env.BaseProject, upsertCall env env.PlatformProject,
          upsertCall env env.DataProject, upsertCall env env.AppProject] := by
  have hp : (successCalls (plan (destroyMode args) env) 0).filter Call.isUpsert =
      [upsertCall env env.BaseProject, upsertCall env env.PlatformProject,
          upsertCall env env.DataProject, upsertCall env env.AppProject] := by
    cases destroyMode args <;>
      simp [plan, upsertCall, successCalls, StackOp.call, Call.isUpsert, List.filter]
  constructor
  · rw [run_main_remote args d env h w, ← hp]
    have hpre := runFrom_calls_isPrefix (plan (destroyMode args) env) w []
    simp only [List.map_nil, List.nil_append, List.length_nil] at hpre
    exact hpre.filter Call.isUpsert
  · rw [run_main_allSucceed_remote args d env h, ← hp]
    simp [upsertCalls, calls, Function.comp_def]

end RemoteSource

namespace RemoteDeployment

theorem setupStack_eq_deployment (o n : String) (p : Project) (c : List (String × EnvVarValue)) :
    setupStack o n p c =
      (invoke (.UpsertRemoteStackGitSource (FullyQualifiedStackName o p.Name n)
          ⟨p.Location, p.Path, gitBranch p, none⟩ c) >>= fun err =>
        pure (⟨FullyQualifiedStackName o p.Name n⟩, err)) := by
  unfold setupStack gitBranch
  by_cases hb : p.Branch = "" <;> simp [hb]

theorem main_eq_exec_deployment (args : List String) (getenv : String → String) (d : Data)
    (env : Environment) (h : yamlUnmarshal d = .ok env) :
    main args getenv (.data d) =
      if destroyMode args = true then
        exec (plan true env (credentials env getenv)) >>= fun _ => osExit 0
      else exec (plan false env (credentials env getenv)) := by
  unfold main
  simp only [h]
  cases destroyMode args <;>
    simp only [plan, upsertCall, credentials, baseStack, platformStack, dataStack, appStack,
      exec, exec_call_bind, setupStack_eq_deployment, Stack.SetConfig, refreshStack, updateStack,
      deleteStack, proc_bind_assoc, proc_pure_bind, osExit_bind, ite_bind, and_true, and_false,
      Bool.false_eq_true, if_false, if_true, List.cons_append, List.nil_append]

/-- The run of `main` on a configuration that decodes is the run of its plan. -/
theorem run_main_deployment (args : List String) (getenv : String → String) (d : Data)
    (env : Environment) (h : yamlUnmarshal d = .ok env) (w : Outcomes) :
    (main args getenv (.data d)).run w =
      (exec (plan (destroyMode args) env (credentials env getenv))).runFrom w [] := by
  rw [main_eq_exec_deployment args getenv d env h]
  cases destroyMode args
  · rfl
  · simp only [if_true]
    exact run_bind_osExit_zero _ w

/-- The run of `main` when every call succeeds. -/
theorem run_main_allSucceed_deployment (args : List String) (getenv : String → String)
    (d : Data) (env : Environment)
    (h : yamlUnmarshal d = .ok env) :
    (main args getenv (.data d)).run allSucceed =
      ⟨(successCalls (plan (destroyMode args) env (credentials env getenv)) 0).map (fun c => ⟨c, true⟩), 0⟩ := by
  rw [run_main_deployment args getenv d env h, runFrom_allSucceed]
  simp

theorem run_main_readError_deployment (args : List String) (getenv : String → String) (w : Outcomes) :
    (main args getenv .error).run w = ⟨[], 1⟩ := rfl

theorem run_main_decodeError_deployment (args : List String) (getenv : String → String)
    (d : Data) (w : Outcomes)
    (h : yamlUnmarshal d = .error ()) : (main args getenv (.data d)).run w = ⟨[], 1⟩ := by
  unfold main
  simp only [h]
  rfl

theorem plan_covers_deployment (b : Bool) (env : Environment) (creds : List (String × EnvVarValue)) :
    ∀ i ∈ plan b env creds, i.covers Call.isLifecycle = true := by
  cases b <;> simp [plan, upsertCall, Item.covers, Call.isLifecycle, Call.isCreateTemp,
    Call.isRefresh, Call.isUp, Call.isDestroy]

theorem plan_destroy_calls_deployment (env : Environment) (creds : List (String × EnvVarValue)) :
    ∀ c ∈ successCalls (plan true env creds) 0,
      c.isRefresh = false ∧ c.isUp = false ∧ c.isSetConfig = false := by
  simp [plan, upsertCall, successCalls, StackOp.call, Call.isRefresh, Call.isUp,
    Call.isSetConfig]

theorem plan_apply_calls_deployment (env : Environment) (creds : List (String × EnvVarValue)) :
    ∀ c ∈ successCalls (plan false env creds) 0, c.isDestroy = false := by
  simp [plan, upsertCall, successCalls, StackOp.call, Call.isDestroy]

/-- Every run of `main` is the failed configuration load, or the run of a plan. -/
theorem run_main_cases_deployment (args : List String) (getenv : String → String)
    (file : ReadFile) (w : Outcomes) :
    ((main args getenv file).run w = ⟨[], 1⟩ ∧
      (main args getenv file).run allSucceed = ⟨[], 1⟩) ∨
    ∃ env : Environment,
      (main args getenv file).run w =
        (exec (plan (destroyMode args) env (credentials env getenv))).runFrom w [] ∧
      (main args getenv file).run allSucceed =
        (exec (plan (destroyMode args) env (credentials env getenv))).runFrom allSucceed [] := by
  cases file with
  | error => exact Or.inl ⟨rfl, rfl⟩
  | data d =>
    cases h : yamlUnmarshal d with
    | error e =>
      exact Or.inl ⟨run_main_decodeError_deployment args getenv d w h,
        run_main_decodeError_deployment args getenv d allSucceed h⟩
    | ok env =>
      exact Or.inr ⟨env, run_main_deployment args getenv d env h w,
        run_main_deployment args getenv d env h allSucceed⟩

/-- The engine operations of apply mode when every call succeeds. -/
theorem engineOps_apply_deployment (args : List String) (getenv : String → String)
    (d : Data) (env : Environment)
    (hd : destroyMode args = false) (h : yamlUnmarshal d = .ok env) :
    engineOps ((main args getenv (.data d)).run allSucceed).trace =
        [ upsertCall env (credentials env getenv) env.BaseProject,
          upsertCall env (credentials env getenv) env.PlatformProject,
          upsertCall env (credentials env getenv) env.DataProject,
          upsertCall env (credentials env getenv) env.AppProject,
          .SetConfig (baseStack env) "aws:region" ⟨env.Region, false⟩,
          .Refresh (baseStack env) [.stdout],
          .Up (baseStack env) [.stdout],
          .SetConfig (platformStack env) "aws:region" ⟨env.Region, false⟩,
          .SetConfig (platformStack env) "baseOrgName" ⟨env.Organization, false⟩,
          .SetConfig (platformStack env) "baseProjName" ⟨env.BaseProject.Name, false⟩,
          .SetConfig (platformStack env) "baseStackName" ⟨env.StackName, false⟩,
          .Refresh (platformStack env) [.stdout],
          .Up (platformStack env) [.stdout],
          .SetConfig (dataStack env) "aws:region" ⟨env.Region, false⟩,
          .SetConfig (dataStack env) "baseOrgName" ⟨env.Organization, false⟩,
          .SetConfig (dataStack env) "baseProjName" ⟨env.BaseProject.Name, false⟩,
          .SetConfig (dataStack env) "baseStackName" ⟨env.StackName, false⟩,
          .Refresh (dataStack env) [.stdout],
          .Up (dataStack env) [.stdout],
          .SetConfig (appStack env) "platformOrgName" ⟨env.Organization, false⟩,
          .SetConfig (appStack env) "dataOrgName" ⟨env.Organization, false⟩,
          .SetConfig (appStack env) "platformProjName" ⟨env.PlatformProject.Name, false⟩,
          .SetConfig (appStack env) "dataProjName" ⟨env.DataProject.Name, false⟩,
          .SetConfig (appStack env) "platformStackName" ⟨env.StackName, false⟩,
          .SetConfig (appStack env) "dataStackName" ⟨env.StackName, false⟩,
          .Refresh (appStack env) [.stdout],
          .Up (appStack env) [.stdout] ] := by
  rw [run_main_allSucceed_deployment args getenv d env h, hd]
  simp [plan, upsertCall, baseStack, platformStack, dataStack, appStack, successCalls, StackOp.call, engineOps, calls,
    Call.isCreateTemp]

/-- The upsert calls of a run are the first upserts of the plan, all of them when
every call succeeds. -/
theorem upsertCalls_main_deployment (args : List String) (getenv : String → String)
    (d : Data) (env : Environment)
    (h : yamlUnmarshal d = .ok env) (w : Outcomes) :
    upsertCalls ((main args getenv (.data d)).run w).trace <+:
        [upsertCall env (credentials env getenv) env.BaseProject,
          upsertCall env (credentials env getenv) env.PlatformProject,
          upsertCall env (credentials env getenv) env.DataProject,
          upsertCall env (credentials env getenv) env.AppProject] ∧
    upsertCalls ((main args getenv (.data d)).run allSucceed).trace =
        [upsertCall env (credentials env getenv) env.BaseProject,
          upsertCall env (credentials env getenv) env.PlatformProject,
          upsertCall env (credentials env getenv) env.DataProject,
          upsertCall env (credentials env getenv) env.AppProject] := by
  have hp : (successCalls (plan (destroyMode args) env (credentials env getenv)) 0).filter Call.isUpsert =
      [upsertCall env (credentials env getenv) env.BaseProject,
          upsertCall env (credentials env getenv) env.PlatformProject,
          upsertCall env (credentials env getenv) env.DataProject,
          upsertCall env (credentials env getenv) env.AppProject] := by
    cases destroyMode args <;>
      simp [plan, upsertCall, successCalls, StackOp.call, Call.isUpsert, List.filter]
  constructor
  · rw [run_main_deployment args getenv d env h w, ← hp]
    have hpre := runFrom_calls_isPrefix (plan (destroyMode args) env (credentials env getenv)) w []
    simp only [List.map_nil, List.nil_append, List.length_nil] at hpre
    exact hpre.filter Call.isUpsert
  · rw [run_main_allSucceed_deployment args getenv d env h, ← hp]
    simp [upsertCalls, calls, Function.comp_def]

end RemoteDeployment

/-! ## Decoding a document with a key taken out -/

theorem lookup_filter_self (es : List (String × Yaml)) (key : String) :
    (es.filter (fun kv => kv.1 != key)).lookup key = none := by
  induction es with
  | nil => rfl
  | cons kv es ih =>
    obtain ⟨k, v⟩ := kv
    by_cases hk : k = key
    · rw [List.filter_cons_of_neg (by simp [hk])]
      exact ih
    · have hk2 : (key == k) = false := by simpa using fun h => hk h.symm
      rw [List.filter_cons_of_pos (by simp [hk]), List.lookup_cons, hk2]
      exact ih

theorem lookup_filter_ne (es : List (String × Yaml)) (key k : String) (h : k ≠ key) :
    (es.filter (fun kv => kv.1 != key)).lookup k = es.lookup k := by
  induction es with
  | nil => rfl
  | cons kv es ih =>
    obtain ⟨a, v⟩ := kv
    by_cases ha : a = key
    · have hk2 : (k == a) = false := by simpa [ha] using h
      rw [List.filter_cons_of_neg (by simp [ha]), List.lookup_cons, hk2]
      exact ih
    · rw [List.filter_cons_of_pos (by simp [ha]), List.lookup_cons, List.lookup_cons, ih]

theorem decodeString_filter (es : List (String × Yaml)) (key k : String) :
    decodeString (es.filter (fun kv => kv.1 != key)) k =
      if k = key then .ok "" else decodeString es k := by
  unfold decodeString
  by_cases h : k = key
  · subst h
    simp [lookup_filter_self]
  · simp [h, lookup_filter_ne es key k h]

theorem ite_ok {α : Type} (c : Prop) [Decidable c] (a b : α) :
    (if c then (Except.ok a : Except Unit α) else Except.ok b) = Except.ok (if c then a else b) := by
  split <;> rfl

/-- A plan that starts with a call starts the trace with that call. -/
theorem runFrom_head (c : Call) (f : Bool) (is : List Item) (w : Outcomes) :
    ((exec (.call c f :: is)).runFrom w []).trace.head? = some ⟨c, w [] c⟩ := by
  rw [runFrom_cons, Item.exec_call]
  by_cases hc : w [] c = false ∧ f = true
  · simp [hc]
  · simp only [hc, if_false]
    obtain ⟨r, hr⟩ := runFrom_trace_extends is w ([] ++ [⟨c, w [] c⟩])
    rw [← hr]
    rfl

namespace LocalSource

theorem decodeProject_filter_local (es : List (String × Yaml)) (key k : String) :
    decodeProject (es.filter (fun kv => kv.1 != key)) k =
      if k = key then .ok ⟨"", "", ""⟩ else decodeProject es k := by
  unfold decodeProject
  by_cases h : k = key
  · subst h
    simp [lookup_filter_self]
  · simp [h, lookup_filter_ne es key k h]

/-- A document that decodes still decodes when a top-level key is taken out. -/
theorem yamlUnmarshal_filter_local (es : List (String × Yaml)) (key : String) (env : Environment)
    (h : yamlUnmarshal (.document (.mapping es)) = .ok env) :
    ∃ env2, yamlUnmarshal (.document (.mapping (es.filter (fun kv => kv.1 != key)))) =
      .ok env2 := by
  simp only [yamlUnmarshal] at h ⊢
  simp only [decodeString_filter, decodeProject_filter_local]
  split at h
  · next h1 h2 h3 h4 h5 h6 =>
    simp only [h1, h2, h3, h4, h5, h6, ite_ok]
    exact ⟨_, rfl⟩
  · cases h

/-- On a configuration that decodes, the first call is the upsert of the base stack. -/
theorem run_main_head_local (args : List String) (d : Data) (env : Environment)
    (h : yamlUnmarshal d = .ok env) (w : Outcomes) :
    ((main args (.data d)).run w).trace.head? =
      some ⟨upsertCall env env.BaseProject, w [] (upsertCall env env.BaseProject)⟩ := by
  rw [run_main_local args d env h w]
  cases destroyMode args <;> exact runFrom_head _ _ _ w

end LocalSource

namespace RemoteSource

theorem decodeProject_filter_remote (es : List (String × Yaml)) (key k : String) :
    decodeProject (es.filter (fun kv => kv.1 != key)) k =
      if k = key then .ok ⟨"", "", "", ""⟩ else decodeProject es k := by
  unfold decodeProject
  by_cases h : k = key
  · subst h
    simp [lookup_filter_self]
  · simp [h, lookup_filter_ne es key k h]

/-- A document that decodes still decodes when a top-level key is taken out. -/
theorem yamlUnmarshal_filter_remote (es : List (String × Yaml)) (key : String) (env : Environment)
    (h : yamlUnmarshal (.document (.mapping es)) = .ok env) :
    ∃ env2, yamlUnmarshal (.document (.mapping (es.filter (fun kv => kv.1 != key)))) =
      .ok env2 := by
  simp only [yamlUnmarshal] at h ⊢
  simp only [decodeString_filter, decodeProject_filter_remote]
  split at h
  · next h1 h2 h3 h4 h5 h6 h7 =>
    simp only [h1, h2, h3, h4, h5, h6, h7, ite_ok]
    exact ⟨_, rfl⟩
  · cases h

/-- On a configuration that decodes, the first call is the upsert of the base stack. -/
theorem run_main_head_remote (args : List String) (d : Data) (env : Environment)
    (h : yamlUnmarshal d = .ok env) (w : Outcomes) :
    ((main args (.data d)).run w).trace.head? =
      some ⟨upsertCall env env.BaseProject, w [] (upsertCall env env.BaseProject)⟩ := by
  rw [run_main_remote args d env h w]
  cases destroyMode args <;> exact runFrom_head _ _ _ w

end RemoteSource

namespace RemoteDeployment

theorem decodeProject_filter_deployment (es : List (String × Yaml)) (key k : String) :
    decodeProject (es.filter (fun kv => kv.1 != key)) k =
      if k = key then .ok ⟨"", "", "", ""⟩ else decodeProject es k := by
  unfold decodeProject
  by_cases h : k = key
  · subst h
    simp [lookup_filter_self]
  · simp [h, lookup_filter_ne es key k h]

/-- A document that decodes still decodes when a top-level key is taken out. -/
theorem yamlUnmarshal_filter_deployment (es : List (String × Yaml)) (key : String) (env : Environment)
    (h : yamlUnmarshal (.document (.mapping es)) = .ok env) :
    ∃ env2, yamlUnmarshal (.document (.mapping (es.filter (fun kv => kv.1 != key)))) =
      .ok env2 := by
  simp only [yamlUnmarshal] at h ⊢
  simp only [decodeString_filter, decodeProject_filter_deployment]
  split at h
  · next h1 h2 h3 h4 h5 h6 h7 =>
    simp only [h1, h2, h3, h4, h5, h6, h7, ite_ok]
    exact ⟨_, rfl⟩
  · cases h

/-- On a configuration that decodes, the first call is the upsert of the base stack. -/
theorem run_main_head_deployment (args : List String) (getenv : String → String)
    (d : Data) (env : Environment)
    (h : yamlUnmarshal d = .ok env) (w : Outcomes) :
    ((main args getenv (.data d)).run w).trace.head? =
      some ⟨upsertCall env (credentials env getenv) env.BaseProject, w [] (upsertCall env (credentials env getenv) env.BaseProject)⟩ := by
  rw [run_main_deployment args getenv d env h w]
  cases destroyMode args <;> exact runFrom_head _ _ _ w

end RemoteDeployment

/-! ## Cross-stack wiring in the apply sequence -/

namespace LocalSource

theorem wired_local (args : List String) (d : Data) (env : Environment)
    (hd : destroyMode args = false) (h : yamlUnmarshal d = .ok env) :
    Wired (engineOps ((main args (.data d)).run allSucceed).trace)
        env.Organization env.BaseProject.Name env.StackName (platformStack env)
        "infraOrgName" "infraProjName" "infraStackName" ∧
      Wired (engineOps ((main args (.data d)).run allSucceed).trace)
        env.Organization env.PlatformProject.Name env.StackName (appStack env)
        "k8sOrgName" "k8sProjName" "k8sStackName" := by
  rw [engineOps_apply_local args d env hd h]
  constructor
  · refine ⟨⟨0, 7, 8, 9, 10, [.stdout, .tmp 12], ?_⟩, ?_, ?_, ?_⟩
    · simp [Call.upsertName, baseStack, FullyQualifiedStackName]
    all_goals
      intro s v hm
      simp at hm
      exact hm.2
  · refine ⟨⟨1, 12, 13, 14, 15, [.stdout, .tmp 19], ?_⟩, ?_, ?_, ?_⟩
    · simp [Call.upsertName, platformStack, FullyQualifiedStackName]
    all_goals
      intro s v hm
      simp at hm
      exact hm.2

end LocalSource

namespace RemoteSource

theorem wired_remote (args : List String) (d : Data) (env : Environment)
    (hd : destroyMode args = false) (h : yamlUnmarshal d = .ok env) :
    Wired (engineOps ((main args (.data d)).run allSucceed).trace)
        env.Organization env.BaseProject.Name env.StackName (platformStack env)
        "baseOrgName" "baseProjName" "baseStackName" ∧
      Wired (engineOps ((main args (.data d)).run allSucceed).trace)
        env.Organization env.BaseProject.Name env.StackName (dataStack env)
        "baseOrgName" "baseProjName" "baseStackName" ∧
      Wired (engineOps ((main args (.data d)).run allSucceed).trace)
        env.Organization env.PlatformProject.Name env.StackName (appStack env)
        "platformOrgName" "platformProjName" "platformStackName" ∧
      Wired (engineOps ((main args (.data d)).run allSucceed).trace)
        env.Organization env.DataProject.Name env.StackName (appStack env)
        "dataOrgName" "dataProjName" "dataStackName" := by
  rw [engineOps_apply_remote args d env hd h]
  refine ⟨?_, ?_, ?_, ?_⟩
  · refine ⟨⟨0, 8, 9, 10, 11, [.stdout, .tmp 13], ?_⟩, ?_, ?_, ?_⟩
    · simp [Call.upsertName, upsertCall, FullyQualifiedStackName]
    all_goals
      intro s v hm
      simp [upsertCall] at hm
      rcases hm with hm | hm <;> exact hm.2
  · refine ⟨⟨0, 14, 15, 16, 17, [.stdout, .tmp 21], ?_⟩, ?_, ?_, ?_⟩
    · simp [Call.upsertName, upsertCall, FullyQualifiedStackName]
    all_goals
      intro s v hm
      simp [upsertCall] at hm
      rcases hm with hm | hm <;> exact hm.2
  · refine ⟨⟨1, 19, 21, 23, 25, [.stdout, .tmp 31], ?_⟩, ?_, ?_, ?_⟩
    · simp [Call.upsertName, upsertCall, FullyQualifiedStackName]
    all_goals
      intro s v hm
      simp [upsertCall] at hm
      exact hm.2
  · refine ⟨⟨2, 20, 22, 24, 25, [.stdout, .tmp 31], ?_⟩, ?_, ?_, ?_⟩
    · simp [Call.upsertName, upsertCall, FullyQualifiedStackName]
    all_goals
      intro s v hm
      simp [upsertCall] at hm
      exact hm.2

end RemoteSource

namespace RemoteDeployment

theorem wired_deployment (args : List String) (getenv : String → String)
    (d : Data) (env : Environment)
    (hd : destroyMode args = false) (h : yamlUnmarshal d = .ok env) :
    Wired (engineOps ((main args getenv (.data d)).run allSucceed).trace)
        env.Organization env.BaseProject.Name env.StackName (platformStack env)
        "baseOrgName" "baseProjName" "baseStackName" ∧
      Wired (engineOps ((main args getenv (.data d)).run allSucceed).trace)
        env.Organization env.BaseProject.Name env.StackName (dataStack env)
        "baseOrgName" "baseProjName" "baseStackName" ∧
      Wired (engineOps ((main args getenv (.data d)).run allSucceed).trace)
        env.Organization env.PlatformProject.Name env.StackName (appStack env)
        "platformOrgName" "platformProjName" "platformStackName" ∧
      Wired (engineOps ((main args getenv (.data d)).run allSucceed).trace)
        env.Organization env.DataProject.Name env.StackName (appStack env)
        "dataOrgName" "dataProjName" "dataStackName" := by
  rw [engineOps_apply_deployment args getenv d env hd h]
  refine ⟨?_, ?_, ?_, ?_⟩
  · refine ⟨⟨0, 8, 9, 10, 11, [.stdout], ?_⟩, ?_, ?_, ?_⟩
    · simp [Call.upsertName, upsertCall, FullyQualifiedStackName]
    all_goals
      intro s v hm
      simp [upsertCall] at hm
      rcases hm with hm | hm <;> exact hm.2
  · refine ⟨⟨0, 14, 15, 16, 17, [.stdout], ?_⟩, ?_, ?_, ?_⟩
    · simp [Call.upsertName, upsertCall, FullyQualifiedStackName]
    all_goals
      intro s v hm
      simp [upsertCall] at hm
      rcases hm with hm | hm <;> exact hm.2
  · refine ⟨⟨1, 19, 21, 23, 25, [.stdout], ?_⟩, ?_, ?_, ?_⟩
    · simp [Call.upsertName, upsertCall, FullyQualifiedStackName]
    all_goals
      intro s v hm
      simp [upsertCall] at hm
      exact hm.2
  · refine ⟨⟨2, 20, 22, 24, 25, [.stdout], ?_⟩, ?_, ?_, ?_⟩
    · simp [Call.upsertName, upsertCall, FullyQualifiedStackName]
    all_goals
      intro s v hm
      simp [upsertCall] at hm
      exact hm.2

end RemoteDeployment

/-! ## C1: order of the destroy sequence -/

/-- C1 as stated fails for remote-source: on the sample configuration, in destroy mode
with every call succeeding, the stacks destroyed are not the reverse of the stacks set
up. -/
theorem C1_destroy_not_reverse_of_setup :
    destroyed ((RemoteSource.main ["destroy"]
        (.data (.document RemoteSource.sampleConfig))).run allSucceed).trace ≠
      (upserted ((RemoteSource.main ["destroy"]
        (.data (.document RemoteSource.sampleConfig))).run allSucceed).trace).reverse := by
  decide

/-- C1, amended: in destroy mode with every call succeeding, local-source sets up base,
platform, app and destroys app, platform, base, the exact reverse; remote-source and
remote-deployment set up base, platform, data, app and destroy app, platform, data,
base. -/
theorem C1_destroy_order :
    (∀ (args : List String) (d : Data) (env : LocalSource.Environment),
      LocalSource.destroyMode args = true → LocalSource.yamlUnmarshal d = .ok env →
      upserted ((LocalSource.main args (.data d)).run allSucceed).trace =
        [LocalSource.baseStack env, LocalSource.platformStack env, LocalSource.appStack env] ∧
      destroyed ((LocalSource.main args (.data d)).run allSucceed).trace =
        [LocalSource.appStack env, LocalSource.platformStack env, LocalSource.baseStack env] ∧
      destroyed ((LocalSource.main args (.data d)).run allSucceed).trace =
        (upserted ((LocalSource.main args (.data d)).run allSucceed).trace).reverse) ∧
    (∀ (args : List String) (d : Data) (env : RemoteSource.Environment),
      RemoteSource.destroyMode args = true → RemoteSource.yamlUnmarshal d = .ok env →
      upserted ((RemoteSource.main args (.data d)).run allSucceed).trace =
        [RemoteSource.baseStack env, RemoteSource.platformStack env,
         RemoteSource.dataStack env, RemoteSource.appStack env] ∧
      destroyed ((RemoteSource.main args (.data d)).run allSucceed).trace =
        [RemoteSource.appStack env, RemoteSource.platformStack env,
         RemoteSource.dataStack env, RemoteSource.baseStack env]) ∧
    (∀ (args : List String) (getenv : String → String) (d : Data)
        (env : RemoteDeployment.Environment),
      RemoteDeployment.destroyMode args = true → RemoteDeployment.yamlUnmarshal d = .ok env →
      upserted ((RemoteDeployment.main args getenv (.data d)).run allSucceed).trace =
        [RemoteDeployment.baseStack env, RemoteDeployment.platformStack env,
         RemoteDeployment.dataStack env, RemoteDeployment.appStack env] ∧
      destroyed ((RemoteDeployment.main args getenv (.data d)).run allSucceed).trace =
        [RemoteDeployment.appStack env, RemoteDeployment.platformStack env,
         RemoteDeployment.dataStack env, RemoteDeployment.baseStack env]) := by
  refine ⟨?_, ?_, ?_⟩
  · intro args d env hd h
    rw [LocalSource.run_main_allSucceed_local args d env h, hd]
    simp [LocalSource.plan, LocalSource.upsertCall, LocalSource.baseStack,
      LocalSource.platformStack, LocalSource.appStack, successCalls, StackOp.call, upserted,
      destroyed, calls, Call.upsertName]
  · intro args d env hd h
    rw [RemoteSource.run_main_allSucceed_remote args d env h, hd]
    simp [RemoteSource.plan, RemoteSource.upsertCall, RemoteSource.baseStack,
      RemoteSource.platformStack, RemoteSource.dataStack, RemoteSource.appStack, successCalls,
      StackOp.call, upserted, destroyed, calls, Call.upsertName]
  · intro args getenv d env hd h
    rw [RemoteDeployment.run_main_allSucceed_deployment args getenv d env h, hd]
    simp [RemoteDeployment.plan, RemoteDeployment.upsertCall, RemoteDeployment.baseStack,
      RemoteDeployment.platformStack, RemoteDeployment.dataStack, RemoteDeployment.appStack,
      successCalls, StackOp.call, upserted, destroyed, calls, Call.upsertName]

/-- C1, amended, on the sample configurations. -/
theorem C1_destroy_order_sample :
    destroyed ((LocalSource.main ["destroy"]
        (.data (.document LocalSource.sampleConfig))).run allSucceed).trace =
      (upserted ((LocalSource.main ["destroy"]
        (.data (.document LocalSource.sampleConfig))).run allSucceed).trace).reverse ∧
    destroyed ((RemoteSource.main ["destroy"]
        (.data (.document RemoteSource.sampleConfig))).run allSucceed).trace =
      [⟨"zephyr/app/dev"⟩, ⟨"zephyr/platform/dev"⟩, ⟨"zephyr/data/dev"⟩, ⟨"zephyr/base/dev"⟩] ∧
    destroyed ((RemoteDeployment.main ["destroy"] RemoteDeployment.sampleGetenv
        (.data (.document RemoteDeployment.sampleConfig))).run allSucceed).trace =
      [⟨"zephyr/app/dev"⟩, ⟨"zephyr/platform/dev"⟩, ⟨"zephyr/data/dev"⟩, ⟨"zephyr/base/dev"⟩] :=
  ⟨(C1_destroy_order.1 ["destroy"] (.document LocalSource.sampleConfig)
      LocalSource.sampleEnv rfl rfl).2.2,
    (C1_destroy_order.2.1 ["destroy"] (.document RemoteSource.sampleConfig)
      RemoteSource.sampleEnv rfl rfl).2,
    (C1_destroy_order.2.2 ["destroy"] RemoteDeployment.sampleGetenv
      (.document RemoteDeployment.sampleConfig) RemoteDeployment.sampleEnv rfl rfl).2⟩

/-! ## C2: a failed upsert -/

/-- C2 fails in local-source for the application stack: when its upsert fails and every
other call succeeds, destroy mode goes on to destroy all three stacks and exits with
status 0, and apply mode makes the same 23 calls as the all-success run and exits with
status 0. -/
theorem C2_local_source_app_upsert_error_ignored :
    (LocalSource.main ["destroy"] (.data (.document LocalSource.sampleConfig))).run
        LocalSource.appUpsertFails =
      ⟨[ ⟨.UpsertStackLocalSource "zephyr/base/dev" "../infra", true⟩,
         ⟨.UpsertStackLocalSource "zephyr/platform/dev" "../k8s", true⟩,
         ⟨.UpsertStackLocalSource "zephyr/app/dev" "../app", false⟩,
         ⟨.CreateTemp, true⟩,
         ⟨.Destroy ⟨"zephyr/app/dev"⟩ [.stdout, .tmp 3], true⟩,
         ⟨.CreateTemp, true⟩,
         ⟨.Destroy ⟨"zephyr/platform/dev"⟩ [.stdout, .tmp 5], true⟩,
         ⟨.CreateTemp, true⟩,
         ⟨.Destroy ⟨"zephyr/base/dev"⟩ [.stdout, .tmp 7], true⟩ ], 0⟩ ∧
    ((LocalSource.main [] (.data (.document LocalSource.sampleConfig))).run
        LocalSource.appUpsertFails).exit = 0 ∧
    ((LocalSource.main [] (.data (.document LocalSource.sampleConfig))).run
        LocalSource.appUpsertFails).trace[2]? =
      some ⟨.UpsertStackLocalSource "zephyr/app/dev" "../app", false⟩ ∧
    ((LocalSource.main [] (.data (.document LocalSource.sampleConfig))).run
        LocalSource.appUpsertFails).trace.length = 23 ∧
    calls ((LocalSource.main [] (.data (.document LocalSource.sampleConfig))).run
        LocalSource.appUpsertFails).trace =
      calls ((LocalSource.main [] (.data (.document LocalSource.sampleConfig))).run
        allSucceed).trace := by
  decide

/-- In remote-source and remote-deployment every upsert error is looked at: a failed
upsert is the last call of the run and the exit status is 1. -/
theorem remote_upsert_failure_fatal :
    (∀ (args : List String) (file : ReadFile) (w : Outcomes),
      StopsAtFailure Call.isUpsert ((RemoteSource.main args file).run w).trace
        ((RemoteSource.main args file).run w).exit) ∧
    (∀ (args : List String) (getenv : String → String) (file : ReadFile) (w : Outcomes),
      StopsAtFailure Call.isUpsert ((RemoteDeployment.main args getenv file).run w).trace
        ((RemoteDeployment.main args getenv file).run w).exit) := by
  constructor
  · intro args file w
    rcases RemoteSource.run_main_cases_remote args file w with ⟨h, _⟩ | ⟨env, h, _⟩
    · rw [h]; intro pre e post h; simp at h
    · rw [h]
      obtain ⟨new, h1, h2⟩ := runFrom_stopsAtFailure Call.isUpsert
        (RemoteSource.plan (RemoteSource.destroyMode args) env)
        (by cases RemoteSource.destroyMode args <;>
          simp [RemoteSource.plan, RemoteSource.upsertCall, Item.covers, Call.isUpsert]) w []
      rw [List.nil_append] at h1
      rw [h1]; exact h2
  · intro args getenv file w
    rcases RemoteDeployment.run_main_cases_deployment args getenv file w with ⟨h, _⟩ | ⟨env, h, _⟩
    · rw [h]; intro pre e post h; simp at h
    · rw [h]
      obtain ⟨new, h1, h2⟩ := runFrom_stopsAtFailure Call.isUpsert
        (RemoteDeployment.plan (RemoteDeployment.destroyMode args) env
          (RemoteDeployment.credentials env getenv))
        (by cases RemoteDeployment.destroyMode args <;>
          simp [RemoteDeployment.plan, RemoteDeployment.upsertCall, Item.covers,
            Call.isUpsert]) w []
      rw [List.nil_append] at h1
      rw [h1]; exact h2

/-! ## C3: a failed refresh, update or destroy -/

/-- C3: in each program and for every outcome of the calls, a failed refresh, update or
destroy call, and a failed temp file creation of their helpers, is the last call of the
run and the exit status is 1; the calls made are an initial segment of the calls of the
all-success run. -/
theorem C3_lifecycle_failure_stops :
    (∀ (args : List String) (file : ReadFile) (w : Outcomes),
      FailureStops ((LocalSource.main args file).run w)
        ((LocalSource.main args file).run allSucceed)) ∧
    (∀ (args : List String) (file : ReadFile) (w : Outcomes),
      FailureStops ((RemoteSource.main args file).run w)
        ((RemoteSource.main args file).run allSucceed)) ∧
    (∀ (args : List String) (getenv : String → String) (file : ReadFile) (w : Outcomes),
      FailureStops ((RemoteDeployment.main args getenv file).run w)
        ((RemoteDeployment.main args getenv file).run allSucceed)) := by
  refine ⟨?_, ?_, ?_⟩
  · intro args file w
    rcases LocalSource.run_main_cases_local args file w with ⟨h1, h2⟩ | ⟨env, h1, h2⟩
    · rw [h1, h2]; exact failureStops_error
    · rw [h1, h2]; exact failureStops_of_plan _ (LocalSource.plan_covers_local _ env) w
  · intro args file w
    rcases RemoteSource.run_main_cases_remote args file w with ⟨h1, h2⟩ | ⟨env, h1, h2⟩
    · rw [h1, h2]; exact failureStops_error
    · rw [h1, h2]; exact failureStops_of_plan _ (RemoteSource.plan_covers_remote _ env) w
  · intro args getenv file w
    rcases RemoteDeployment.run_main_cases_deployment args getenv file w with ⟨h1, h2⟩ | ⟨env, h1, h2⟩
    · rw [h1, h2]; exact failureStops_error
    · rw [h1, h2]; exact failureStops_of_plan _ (RemoteDeployment.plan_covers_deployment _ env _) w

/-- C3 on the sample configuration of remote-source when every refresh fails: the run
ends at the failed refresh of the base stack with status 1. -/
theorem C3_lifecycle_failure_stops_sample :
    FailureStops
        ((RemoteSource.main [] (.data (.document RemoteSource.sampleConfig))).run
          RemoteSource.refreshFails)
        ((RemoteSource.main [] (.data (.document RemoteSource.sampleConfig))).run allSucceed) ∧
    ((RemoteSource.main [] (.data (.document RemoteSource.sampleConfig))).run
        RemoteSource.refreshFails).exit = 1 ∧
    ((RemoteSource.main [] (.data (.document RemoteSource.sampleConfig))).run
        RemoteSource.refreshFails).trace.getLast? =
      some ⟨.Refresh ⟨"zephyr/base/dev"⟩ [.stdout, .tmp 5], false⟩ :=
  ⟨C3_lifecycle_failure_stops.2.1 [] (.data (.document RemoteSource.sampleConfig))
      RemoteSource.refreshFails, by decide, by decide⟩

/-! ## C4: the apply sequence -/

/-- C4: in apply mode with every call succeeding, the engine operations of each program
are the upserts of base, platform, (data,) app, then for each stack in that order its
set-config calls, its refresh and its update. -/
theorem C4_apply_sequence :
    (∀ (args : List String) (d : Data) (env : LocalSource.Environment),
      LocalSource.destroyMode args = false → LocalSource.yamlUnmarshal d = .ok env →
      engineOps ((LocalSource.main args (.data d)).run allSucceed).trace =
        [ .UpsertStackLocalSource (LocalSource.baseStack env).stackName env.BaseProject.Location,
        .UpsertStackLocalSource (LocalSource.platformStack env).stackName env.PlatformProject.Location,
        .UpsertStackLocalSource (LocalSource.appStack env).stackName env.AppProject.Location,
        .SetConfig (LocalSource.baseStack env) "aws:region" ⟨env.Region, false⟩,
        .Refresh (LocalSource.baseStack env) [.stdout, .tmp 4],
        .Up (LocalSource.baseStack env) [.stdout, .tmp 6],
        .SetConfig (LocalSource.platformStack env) "aws:region" ⟨env.Region, false⟩,
        .SetConfig (LocalSource.platformStack env) "infraOrgName" ⟨env.Organization, false⟩,
        .SetConfig (LocalSource.platformStack env) "infraProjName" ⟨env.BaseProject.Name, false⟩,
        .SetConfig (LocalSource.platformStack env) "infraStackName" ⟨env.StackName, false⟩,
        .Refresh (LocalSource.platformStack env) [.stdout, .tmp 12],
        .Up (LocalSource.platformStack env) [.stdout, .tmp 14],
        .SetConfig (LocalSource.appStack env) "k8sOrgName" ⟨env.Organization, false⟩,
        .SetConfig (LocalSource.appStack env) "k8sProjName" ⟨env.PlatformProject.Name, false⟩,
        .SetConfig (LocalSource.appStack env) "k8sStackName" ⟨env.StackName, false⟩,
        .Refresh (LocalSource.appStack env) [.stdout, .tmp 19],
        .Up (LocalSource.appStack env) [.stdout, .tmp 21] ]) ∧
    (∀ (args : List String) (d : Data) (env : RemoteSource.Environment),
      RemoteSource.destroyMode args = false → RemoteSource.yamlUnmarshal d = .ok env →
      engineOps ((RemoteSource.main args (.data d)).run allSucceed).trace =
        [ RemoteSource.upsertCall env env.BaseProject,
        RemoteSource.upsertCall env env.PlatformProject,
        RemoteSource.upsertCall env env.DataProject,
        RemoteSource.upsertCall env env.AppProject,
        .SetConfig (RemoteSource.baseStack env) "aws:region" ⟨env.Region, false⟩,
        .Refresh (RemoteSource.baseStack env) [.stdout, .tmp 5],
        .Up (RemoteSource.baseStack env) [.stdout, .tmp 7],
        .SetConfig (RemoteSource.platformStack env) "aws:region" ⟨env.Region, false⟩,
        .SetConfig (RemoteSource.platformStack env) "baseOrgName" ⟨env.Organization, false⟩,
        .SetConfig (RemoteSource.platformStack env) "baseProjName" ⟨env.BaseProject.Name, false⟩,
        .SetConfig (RemoteSource.platformStack env) "baseStackName" ⟨env.StackName, false⟩,
        .Refresh (RemoteSource.platformStack env) [.stdout, .tmp 13],
        .Up (RemoteSource.platformStack env) [.stdout, .tmp 15],
        .SetConfig (RemoteSource.dataStack env) "aws:region" ⟨env.Region, false⟩,
        .SetConfig (RemoteSource.dataStack env) "baseOrgName" ⟨env.Organization, false⟩,
        .SetConfig (RemoteSource.dataStack env) "baseProjName" ⟨env.BaseProject.Name, false⟩,
        .SetConfig (RemoteSource.dataStack env) "baseStackName" ⟨env.StackName, false⟩,
        .Refresh (RemoteSource.dataStack env) [.stdout, .tmp 21],
        .Up (RemoteSource.dataStack env) [.stdout, .tmp 23],
        .SetConfig (RemoteSource.appStack env) "platformOrgName" ⟨env.Organization, false⟩,
        .SetConfig (RemoteSource.appStack env) "dataOrgName" ⟨env.Organization, false⟩,
        .SetConfig (RemoteSource.appStack env) "platformProjName" ⟨env.PlatformProject.Name, false⟩,
        .SetConfig (RemoteSource.appStack env) "dataProjName" ⟨env.DataProject.Name, false⟩,
        .SetConfig (RemoteSource.appStack env) "platformStackName" ⟨env.StackName, false⟩,
        .SetConfig (RemoteSource.appStack env) "dataStackName" ⟨env.StackName, false⟩,
        .Refresh (RemoteSource.appStack env) [.stdout, .tmp 31],
        .Up (RemoteSource.appStack env) [.stdout, .tmp 33] ]) ∧
    (∀ (args : List String) (getenv : String → String) (d : Data)
        (env : RemoteDeployment.Environment),
      RemoteDeployment.destroyMode args = false → RemoteDeployment.yamlUnmarshal d = .ok env →
      engineOps ((RemoteDeployment.main args getenv (.data d)).run allSucceed).trace =
        [ RemoteDeployment.upsertCall env (RemoteDeployment.credentials env getenv) env.BaseProject,
        RemoteDeployment.upsertCall env (RemoteDeployment.credentials env getenv) env.PlatformProject,
        RemoteDeployment.upsertCall env (RemoteDeployment.credentials env getenv) env.DataProject,
        RemoteDeployment.upsertCall env (RemoteDeployment.credentials env getenv) env.AppProject,
        .SetConfig (RemoteDeployment.baseStack env) "aws:region" ⟨env.Region, false⟩,
        .Refresh (RemoteDeployment.baseStack env) [.stdout],
        .Up (RemoteDeployment.baseStack env) [.stdout],
        .SetConfig (RemoteDeployment.platformStack env) "aws:region" ⟨env.Region, false⟩,
        .SetConfig (RemoteDeployment.platformStack env) "baseOrgName" ⟨env.Organization, false⟩,
        .SetConfig (RemoteDeployment.platformStack env) "baseProjName" ⟨env.BaseProject.Name, false⟩,
        .SetConfig (RemoteDeployment.platformStack env) "baseStackName" ⟨env.StackName, false⟩,
        .Refresh (RemoteDeployment.platformStack env) [.stdout],
        .Up (RemoteDeployment.platformStack env) [.stdout],
        .SetConfig (RemoteDeployment.dataStack env) "aws:region" ⟨env.Region, false⟩,
        .SetConfig (RemoteDeployment.dataStack env) "baseOrgName" ⟨env.Organization, false⟩,
        .SetConfig (RemoteDeployment.dataStack env) "baseProjName" ⟨env.BaseProject.Name, false⟩,
        .SetConfig (RemoteDeployment.dataStack env) "baseStackName" ⟨env.StackName, false⟩,
        .Refresh (RemoteDeployment.dataStack env) [.stdout],
        .Up (RemoteDeployment.dataStack env) [.stdout],
        .SetConfig (RemoteDeployment.appStack env) "platformOrgName" ⟨env.Organization, false⟩,
        .SetConfig (RemoteDeployment.appStack env) "dataOrgName" ⟨env.Organization, false⟩,
        .SetConfig (RemoteDeployment.appStack env) "platformProjName" ⟨env.PlatformProject.Name, false⟩,
        .SetConfig (RemoteDeployment.appStack env) "dataProjName" ⟨env.DataProject.Name, false⟩,
        .SetConfig (RemoteDeployment.appStack env) "platformStackName" ⟨env.StackName, false⟩,
        .SetConfig (RemoteDeployment.appStack env) "dataStackName" ⟨env.StackName, false⟩,
        .Refresh (RemoteDeployment.appStack env) [.stdout],
        .Up (RemoteDeployment.appStack env) [.stdout] ]) :=
  ⟨fun args d env hd h => LocalSource.engineOps_apply_local args d env hd h,
    fun args d env hd h => RemoteSource.engineOps_apply_remote args d env hd h,
    fun args getenv d env hd h => RemoteDeployment.engineOps_apply_deployment args getenv d env hd h⟩

/-- C4 on the sample configuration of local-source. -/
theorem C4_apply_sequence_sample :
    engineOps ((LocalSource.main [] (.data (.document LocalSource.sampleConfig))).run
        allSucceed).trace =
      [ .UpsertStackLocalSource "zephyr/base/dev" "../infra",
        .UpsertStackLocalSource "zephyr/platform/dev" "../k8s",
        .UpsertStackLocalSource "zephyr/app/dev" "../app",
        .SetConfig ⟨"zephyr/base/dev"⟩ "aws:region" ⟨"us-west-2", false⟩,
        .Refresh ⟨"zephyr/base/dev"⟩ [.stdout, .tmp 4],
        .Up ⟨"zephyr/base/dev"⟩ [.stdout, .tmp 6],
        .SetConfig ⟨"zephyr/platform/dev"⟩ "aws:region" ⟨"us-west-2", false⟩,
        .SetConfig ⟨"zephyr/platform/dev"⟩ "infraOrgName" ⟨"zephyr", false⟩,
        .SetConfig ⟨"zephyr/platform/dev"⟩ "infraProjName" ⟨"base", false⟩,
        .SetConfig ⟨"zephyr/platform/dev"⟩ "infraStackName" ⟨"dev", false⟩,
        .Refresh ⟨"zephyr/platform/dev"⟩ [.stdout, .tmp 12],
        .Up ⟨"zephyr/platform/dev"⟩ [.stdout, .tmp 14],
        .SetConfig ⟨"zephyr/app/dev"⟩ "k8sOrgName" ⟨"zephyr", false⟩,
        .SetConfig ⟨"zephyr/app/dev"⟩ "k8sProjName" ⟨"platform", false⟩,
        .SetConfig ⟨"zephyr/app/dev"⟩ "k8sStackName" ⟨"dev", false⟩,
        .Refresh ⟨"zephyr/app/dev"⟩ [.stdout, .tmp 19],
        .Up ⟨"zephyr/app/dev"⟩ [.stdout, .tmp 21] ] :=
  C4_apply_sequence.1 [] (.document LocalSource.sampleConfig) LocalSource.sampleEnv rfl rfl

/-! ## C5: destroy and apply never mix -/

/-- C5: for every outcome of the calls, a run in destroy mode makes no refresh, update
or set-config call and a run in apply mode makes no destroy call; so no run has both a
destroy and a refresh, update or set-config. -/
theorem C5_destroy_and_apply_exclusive :
    (∀ (args : List String) (file : ReadFile) (w : Outcomes),
      (LocalSource.destroyMode args = true →
        NoApplyOps ((LocalSource.main args file).run w).trace) ∧
      (LocalSource.destroyMode args = false →
        NoDestroy ((LocalSource.main args file).run w).trace) ∧
      (NoApplyOps ((LocalSource.main args file).run w).trace ∨
        NoDestroy ((LocalSource.main args file).run w).trace)) ∧
    (∀ (args : List String) (file : ReadFile) (w : Outcomes),
      (RemoteSource.destroyMode args = true →
        NoApplyOps ((RemoteSource.main args file).run w).trace) ∧
      (RemoteSource.destroyMode args = false →
        NoDestroy ((RemoteSource.main args file).run w).trace) ∧
      (NoApplyOps ((RemoteSource.main args file).run w).trace ∨
        NoDestroy ((RemoteSource.main args file).run w).trace)) ∧
    (∀ (args : List String) (getenv : String → String) (file : ReadFile) (w : Outcomes),
      (RemoteDeployment.destroyMode args = true →
        NoApplyOps ((RemoteDeployment.main args getenv file).run w).trace) ∧
      (RemoteDeployment.destroyMode args = false →
        NoDestroy ((RemoteDeployment.main args getenv file).run w).trace) ∧
      (NoApplyOps ((RemoteDeployment.main args getenv file).run w).trace ∨
        NoDestroy ((RemoteDeployment.main args getenv file).run w).trace)) := by
  have key : ∀ (b : Bool) (t : Trace), (b = true → NoApplyOps t) → (b = false → NoDestroy t) →
      (b = true → NoApplyOps t) ∧ (b = false → NoDestroy t) ∧ (NoApplyOps t ∨ NoDestroy t) := by
    intro b t h1 h2
    refine ⟨h1, h2, ?_⟩
    cases b
    · exact Or.inr (h2 rfl)
    · exact Or.inl (h1 rfl)
  have nil1 : NoApplyOps [] := fun e he => by simp at he
  have nil2 : NoDestroy [] := fun e he => by simp at he
  refine ⟨?_, ?_, ?_⟩
  · intro args file w
    apply key
    · intro hd
      rcases LocalSource.run_main_cases_local args file w with ⟨h1, _⟩ | ⟨env, h1, _⟩
      · rw [h1]; exact nil1
      · rw [h1, hd]; exact noApplyOps_of_plan _ w (LocalSource.plan_destroy_calls_local env)
    · intro hd
      rcases LocalSource.run_main_cases_local args file w with ⟨h1, _⟩ | ⟨env, h1, _⟩
      · rw [h1]; exact nil2
      · rw [h1, hd]; exact noDestroy_of_plan _ w (LocalSource.plan_apply_calls_local env)
  · intro args file w
    apply key
    · intro hd
      rcases RemoteSource.run_main_cases_remote args file w with ⟨h1, _⟩ | ⟨env, h1, _⟩
      · rw [h1]; exact nil1
      · rw [h1, hd]; exact noApplyOps_of_plan _ w (RemoteSource.plan_destroy_calls_remote env)
    · intro hd
      rcases RemoteSource.run_main_cases_remote args file w with ⟨h1, _⟩ | ⟨env, h1, _⟩
      · rw [h1]; exact nil2
      · rw [h1, hd]; exact noDestroy_of_plan _ w (RemoteSource.plan_apply_calls_remote env)
  · intro args getenv file w
    apply key
    · intro hd
      rcases RemoteDeployment.run_main_cases_deployment args getenv file w with ⟨h1, _⟩ | ⟨env, h1, _⟩
      · rw [h1]; exact nil1
      · rw [h1, hd]; exact noApplyOps_of_plan _ w (RemoteDeployment.plan_destroy_calls_deployment env _)
    · intro hd
      rcases RemoteDeployment.run_main_cases_deployment args getenv file w with ⟨h1, _⟩ | ⟨env, h1, _⟩
      · rw [h1]; exact nil2
      · rw [h1, hd]; exact noDestroy_of_plan _ w (RemoteDeployment.plan_apply_calls_deployment env _)

/-- C5 on the sample configuration of remote-source: destroy mode makes no refresh,
update or set-config call even when every refresh would fail. -/
theorem C5_destroy_and_apply_exclusive_sample :
    NoApplyOps ((RemoteSource.main ["destroy"]
      (.data (.document RemoteSource.sampleConfig))).run RemoteSource.refreshFails).trace :=
  (C5_destroy_and_apply_exclusive.2.1 ["destroy"]
    (.data (.document RemoteSource.sampleConfig)) RemoteSource.refreshFails).1 rfl

/-! ## C6: the git source handed to the engine -/

/-- C6: `setupStack` makes one call, the upsert, and the repository it hands over has
the project's `Location` as URL, its `Path` as project path, and as branch `"main"`
when the project's `Branch` is empty and the `Branch` itself otherwise. -/
theorem C6_setupStack_git_source :
    (∀ (o n : String) (proj : RemoteSource.Project) (w : Outcomes) (t : Trace),
      ∃ repo : GitRepo,
        repo.URL = proj.Location ∧ repo.ProjectPath = proj.Path ∧
        repo.Branch = (if proj.Branch = "" then "main" else proj.Branch) ∧
        ∃ s err, RemoteSource.setupStack o n proj w t =
          .next (s, err)
            (t ++ [⟨.UpsertStackRemoteSource (FullyQualifiedStackName o proj.Name n) repo,
              w t (.UpsertStackRemoteSource (FullyQualifiedStackName o proj.Name n) repo)⟩])) ∧
    (∀ (o n : String) (proj : RemoteDeployment.Project) (c : List (String × EnvVarValue))
        (w : Outcomes) (t : Trace),
      ∃ repo : GitRepo,
        repo.URL = proj.Location ∧ repo.ProjectPath = proj.Path ∧
        repo.Branch = (if proj.Branch = "" then "main" else proj.Branch) ∧
        ∃ s err, RemoteDeployment.setupStack o n proj c w t =
          .next (s, err)
            (t ++ [⟨.UpsertRemoteStackGitSource (FullyQualifiedStackName o proj.Name n) repo c,
              w t (.UpsertRemoteStackGitSource (FullyQualifiedStackName o proj.Name n)
                repo c)⟩])) := by
  constructor
  · intro o n proj w t
    refine ⟨⟨proj.Location, proj.Path, RemoteSource.gitBranch proj, some ["npm", "install"]⟩,
      rfl, rfl, rfl, ?_⟩
    rw [RemoteSource.setupStack_eq_remote]
    exact ⟨_, _, rfl⟩
  · intro o n proj c w t
    refine ⟨⟨proj.Location, proj.Path, RemoteDeployment.gitBranch proj, none⟩,
      rfl, rfl, rfl, ?_⟩
    rw [RemoteDeployment.setupStack_eq_deployment]
    exact ⟨_, _, rfl⟩

/-! ## C7: the stack names passed to upsert -/

/-- C7: for every loaded environment and every outcome of the calls, the upsert calls
of a run are, in order, the upserts for the base, platform, (data,) app projects, each
under the name `Organization/Name/StackName` built from that project's own `Name` and
given that project's own source; all of them are made when every call succeeds. -/
theorem C7_upsert_names :
    (∀ (args : List String) (d : Data) (env : LocalSource.Environment) (w : Outcomes),
      LocalSource.yamlUnmarshal d = .ok env →
      (∀ p : LocalSource.Project, LocalSource.upsertCall env p =
        .UpsertStackLocalSource (env.Organization ++ "/" ++ p.Name ++ "/" ++ env.StackName)
          p.Location) ∧
      upsertCalls ((LocalSource.main args (.data d)).run w).trace <+:
        [LocalSource.upsertCall env env.BaseProject,
         LocalSource.upsertCall env env.PlatformProject,
         LocalSource.upsertCall env env.AppProject] ∧
      upsertCalls ((LocalSource.main args (.data d)).run allSucceed).trace =
        [LocalSource.upsertCall env env.BaseProject,
         LocalSource.upsertCall env env.PlatformProject,
         LocalSource.upsertCall env env.AppProject]) ∧
    (∀ (args : List String) (d : Data) (env : RemoteSource.Environment) (w : Outcomes),
      RemoteSource.yamlUnmarshal d = .ok env →
      (∀ p : RemoteSource.Project, RemoteSource.upsertCall env p =
        .UpsertStackRemoteSource (env.Organization ++ "/" ++ p.Name ++ "/" ++ env.StackName)
          ⟨p.Location, p.Path, RemoteSource.gitBranch p, some ["npm", "install"]⟩) ∧
      upsertCalls ((RemoteSource.main args (.data d)).run w).trace <+:
        [RemoteSource.upsertCall env env.BaseProject,
         RemoteSource.upsertCall env env.PlatformProject,
         RemoteSource.upsertCall env env.DataProject,
         RemoteSource.upsertCall env env.AppProject] ∧
      upsertCalls ((RemoteSource.main args (.data d)).run allSucceed).trace =
        [RemoteSource.upsertCall env env.BaseProject,
         RemoteSource.upsertCall env env.PlatformProject,
         RemoteSource.upsertCall env env.DataProject,
         RemoteSource.upsertCall env env.AppProject]) ∧
    (∀ (args : List String) (getenv : String → String) (d : Data)
        (env : RemoteDeployment.Environment) (w : Outcomes),
      RemoteDeployment.yamlUnmarshal d = .ok env →
      (∀ (creds : List (String × EnvVarValue)) (p : RemoteDeployment.Project),
        RemoteDeployment.upsertCall env creds p =
          .UpsertRemoteStackGitSource
            (env.Organization ++ "/" ++ p.Name ++ "/" ++ env.StackName)
            ⟨p.Location, p.Path, RemoteDeployment.gitBranch p, none⟩ creds) ∧
      upsertCalls ((RemoteDeployment.main args getenv (.data d)).run w).trace <+:
        [RemoteDeployment.upsertCall env (RemoteDeployment.credentials env getenv)
           env.BaseProject,
         RemoteDeployment.upsertCall env (RemoteDeployment.credentials env getenv)
           env.PlatformProject,
         RemoteDeployment.upsertCall env (RemoteDeployment.credentials env getenv)
           env.DataProject,
         RemoteDeployment.upsertCall env (RemoteDeployment.credentials env getenv)
           env.AppProject] ∧
      upsertCalls ((RemoteDeployment.main args getenv (.data d)).run allSucceed).trace =
        [RemoteDeployment.upsertCall env (RemoteDeployment.credentials env getenv)
           env.BaseProject,
         RemoteDeployment.upsertCall env (RemoteDeployment.credentials env getenv)
           env.PlatformProject,
         RemoteDeployment.upsertCall env (RemoteDeployment.credentials env getenv)
           env.DataProject,
         RemoteDeployment.upsertCall env (RemoteDeployment.credentials env getenv)
           env.AppProject]) := by
  refine ⟨?_, ?_, ?_⟩
  · intro args d env w h
    exact ⟨fun _ => rfl, LocalSource.upsertCalls_main_local args d env h w⟩
  · intro args d env w h
    exact ⟨fun _ => rfl, RemoteSource.upsertCalls_main_remote args d env h w⟩
  · intro args getenv d env w h
    exact ⟨fun _ _ => rfl, RemoteDeployment.upsertCalls_main_deployment args getenv d env h w⟩

/-- C7 on the sample configuration of remote-source, with every call succeeding. -/
theorem C7_upsert_names_sample :
    upsertCalls ((RemoteSource.main [] (.data (.document RemoteSource.sampleConfig))).run
        allSucceed).trace =
      [ .UpsertStackRemoteSource "zephyr/base/dev"
          ⟨"https://example.com/zephyr.git", "infra/base", "main", some ["npm", "install"]⟩,
        .UpsertStackRemoteSource "zephyr/platform/dev"
          ⟨"https://example.com/zephyr.git", "infra/platform", "main",
            some ["npm", "install"]⟩,
        .UpsertStackRemoteSource "zephyr/data/dev"
          ⟨"https://example.com/zephyr.git", "infra/data", "release",
            some ["npm", "install"]⟩,
        .UpsertStackRemoteSource "zephyr/app/dev"
          ⟨"https://example.com/zephyr.git", "app", "main", some ["npm", "install"]⟩ ] :=
  (C7_upsert_names.2.1 [] (.document RemoteSource.sampleConfig) RemoteSource.sampleEnv
    allSucceed rfl).2.2

/-! ## C8: cross-stack wiring -/

/-- C8: in apply mode with every call succeeding, each downstream stack is given, for
each of its upstream stacks, the organization, the upstream project's name and the
stack name under the three keys of that upstream, not secret and before the downstream
refresh, and these three values joined with `/` are the name the upstream stack was
upserted under: platform from base and app from platform in local-source; platform
and data from base, app from platform and from data in the four-stack programs. -/
theorem C8_cross_stack_wiring :
    (∀ (args : List String) (d : Data) (env : LocalSource.Environment),
      LocalSource.destroyMode args = false → LocalSource.yamlUnmarshal d = .ok env →
      Wired (engineOps ((LocalSource.main args (.data d)).run allSucceed).trace)
        env.Organization env.BaseProject.Name env.StackName (LocalSource.platformStack env)
        "infraOrgName" "infraProjName" "infraStackName" ∧
      Wired (engineOps ((LocalSource.main args (.data d)).run allSucceed).trace)
        env.Organization env.PlatformProject.Name env.StackName (LocalSource.appStack env)
        "k8sOrgName" "k8sProjName" "k8sStackName") ∧
    (∀ (args : List String) (d : Data) (env : RemoteSource.Environment),
      RemoteSource.destroyMode args = false → RemoteSource.yamlUnmarshal d = .ok env →
      Wired (engineOps ((RemoteSource.main args (.data d)).run allSucceed).trace)
        env.Organization env.BaseProject.Name env.StackName (RemoteSource.platformStack env)
        "baseOrgName" "baseProjName" "baseStackName" ∧
      Wired (engineOps ((RemoteSource.main args (.data d)).run allSucceed).trace)
        env.Organization env.BaseProject.Name env.StackName (RemoteSource.dataStack env)
        "baseOrgName" "baseProjName" "baseStackName" ∧
      Wired (engineOps ((RemoteSource.main args (.data d)).run allSucceed).trace)
        env.Organization env.PlatformProject.Name env.StackName (RemoteSource.appStack env)
        "platformOrgName" "platformProjName" "platformStackName" ∧
      Wired (engineOps ((RemoteSource.main args (.data d)).run allSucceed).trace)
        env.Organization env.DataProject.Name env.StackName (RemoteSource.appStack env)
        "dataOrgName" "dataProjName" "dataStackName") ∧
    (∀ (args : List String) (getenv : String → String) (d : Data)
        (env : RemoteDeployment.Environment),
      RemoteDeployment.destroyMode args = false → RemoteDeployment.yamlUnmarshal d = .ok env →
      Wired (engineOps ((RemoteDeployment.main args getenv (.data d)).run allSucceed).trace)
        env.Organization env.BaseProject.Name env.StackName
        (RemoteDeployment.platformStack env) "baseOrgName" "baseProjName" "baseStackName" ∧
      Wired (engineOps ((RemoteDeployment.main args getenv (.data d)).run allSucceed).trace)
        env.Organization env.BaseProject.Name env.StackName
        (RemoteDeployment.dataStack env) "baseOrgName" "baseProjName" "baseStackName" ∧
      Wired (engineOps ((RemoteDeployment.main args getenv (.data d)).run allSucceed).trace)
        env.Organization env.PlatformProject.Name env.StackName
        (RemoteDeployment.appStack env)
        "platformOrgName" "platformProjName" "platformStackName" ∧
      Wired (engineOps ((RemoteDeployment.main args getenv (.data d)).run allSucceed).trace)
        env.Organization env.DataProject.Name env.StackName
        (RemoteDeployment.appStack env) "dataOrgName" "dataProjName" "dataStackName") :=
  ⟨fun args d env hd h => LocalSource.wired_local args d env hd h,
    fun args d env hd h => RemoteSource.wired_remote args d env hd h,
    fun args getenv d env hd h => RemoteDeployment.wired_deployment args getenv d env hd h⟩

/-- C8 on the sample configuration of remote-deployment: the application stack is wired
to the data stack `zephyr/data/dev`. -/
theorem C8_cross_stack_wiring_sample :
    Wired (engineOps ((RemoteDeployment.main [] RemoteDeployment.sampleGetenv
        (.data (.document RemoteDeployment.sampleConfig))).run allSucceed).trace)
      "zephyr" "data" "dev" ⟨"zephyr/app/dev"⟩ "dataOrgName" "dataProjName" "dataStackName" :=
  (C8_cross_stack_wiring.2.2 [] RemoteDeployment.sampleGetenv
    (.document RemoteDeployment.sampleConfig) RemoteDeployment.sampleEnv rfl rfl).2.2.2

/-! ## C9: a configuration document lacking a key -/

/-- C9 as stated fails: the sample configuration of remote-source without its `region`
key is decoded, and with every call succeeding the run makes its engine calls and
exits with status 0. -/
theorem C9_missing_region_not_fatal :
    (RemoteSource.sampleEntries.filter (fun kv => kv.1 != "region")).lookup "region" = none ∧
    ((RemoteSource.main [] (.data (.document RemoteSource.sampleConfigNoRegion))).run
      allSucceed).exit = 0 ∧
    ¬ (((RemoteSource.main [] (.data (.document RemoteSource.sampleConfigNoRegion))).run
        allSucceed).exit = 1 ∧
      engineOps ((RemoteSource.main [] (.data (.document RemoteSource.sampleConfigNoRegion))).run
        allSucceed).trace = []) :=
  ⟨rfl, by decide, by decide⟩

/-- C9, amended: each program exits with status 1 without any call when `config.yaml`
cannot be read or does not decode; a document that decodes still decodes when a
top-level key is taken out of it, and on every document that decodes the program goes on
to the upsert of the base stack. -/
theorem C9_config_load_failure :
    ((∀ (args : List String) (w : Outcomes),
        (LocalSource.main args .error).run w = ⟨[], 1⟩) ∧
      (∀ (args : List String) (d : Data) (w : Outcomes),
        LocalSource.yamlUnmarshal d = .error () →
        (LocalSource.main args (.data d)).run w = ⟨[], 1⟩) ∧
      (∀ (es : List (String × Yaml)) (key : String) (env : LocalSource.Environment),
        LocalSource.yamlUnmarshal (.document (.mapping es)) = .ok env →
        ∃ env2, LocalSource.yamlUnmarshal
          (.document (.mapping (es.filter (fun kv => kv.1 != key)))) = .ok env2) ∧
      (∀ (args : List String) (d : Data) (env : LocalSource.Environment) (w : Outcomes),
        LocalSource.yamlUnmarshal d = .ok env →
        ((LocalSource.main args (.data d)).run w).trace.head? =
          some ⟨LocalSource.upsertCall env env.BaseProject,
            w [] (LocalSource.upsertCall env env.BaseProject)⟩)) ∧
    ((∀ (args : List String) (w : Outcomes),
        (RemoteSource.main args .error).run w = ⟨[], 1⟩) ∧
      (∀ (args : List String) (d : Data) (w : Outcomes),
        RemoteSource.yamlUnmarshal d = .error () →
        (RemoteSource.main args (.data d)).run w = ⟨[], 1⟩) ∧
      (∀ (es : List (String × Yaml)) (key : String) (env : RemoteSource.Environment),
        RemoteSource.yamlUnmarshal (.document (.mapping es)) = .ok env →
        ∃ env2, RemoteSource.yamlUnmarshal
          (.document (.mapping (es.filter (fun kv => kv.1 != key)))) = .ok env2) ∧
      (∀ (args : List String) (d : Data) (env : RemoteSource.Environment) (w : Outcomes),
        RemoteSource.yamlUnmarshal d = .ok env →
        ((RemoteSource.main args (.data d)).run w).trace.head? =
          some ⟨RemoteSource.upsertCall env env.BaseProject,
            w [] (RemoteSource.upsertCall env env.BaseProject)⟩)) ∧
    ((∀ (args : List String) (getenv : String → String) (w : Outcomes),
        (RemoteDeployment.main args getenv .error).run w = ⟨[], 1⟩) ∧
      (∀ (args : List String) (getenv : String → String) (d : Data) (w : Outcomes),
        RemoteDeployment.yamlUnmarshal d = .error () →
        (RemoteDeployment.main args getenv (.data d)).run w = ⟨[], 1⟩) ∧
      (∀ (es : List (String × Yaml)) (key : String) (env : RemoteDeployment.Environment),
        RemoteDeployment.yamlUnmarshal (.document (.mapping es)) = .ok env →
        ∃ env2, RemoteDeployment.yamlUnmarshal
          (.document (.mapping (es.filter (fun kv => kv.1 != key)))) = .ok env2) ∧
      (∀ (args : List String) (getenv : String → String) (d : Data)
          (env : RemoteDeployment.Environment) (w : Outcomes),
        RemoteDeployment.yamlUnmarshal d = .ok env →
        ((RemoteDeployment.main args getenv (.data d)).run w).trace.head? =
          some ⟨RemoteDeployment.upsertCall env (RemoteDeployment.credentials env getenv)
              env.BaseProject,
            w [] (RemoteDeployment.upsertCall env (RemoteDeployment.credentials env getenv)
              env.BaseProject)⟩)) :=
  ⟨⟨LocalSource.run_main_readError_local,
      fun args d w h => LocalSource.run_main_decodeError_local args d w h,
      LocalSource.yamlUnmarshal_filter_local,
      fun args d env w h => LocalSource.run_main_head_local args d env h w⟩,
    ⟨RemoteSource.run_main_readError_remote,
      fun args d w h => RemoteSource.run_main_decodeError_remote args d w h,
      RemoteSource.yamlUnmarshal_filter_remote,
      fun args d env w h => RemoteSource.run_main_head_remote args d env h w⟩,
    ⟨RemoteDeployment.run_main_readError_deployment,
      fun args getenv d w h => RemoteDeployment.run_main_decodeError_deployment args getenv d w h,
      RemoteDeployment.yamlUnmarshal_filter_deployment,
      fun args getenv d env w h => RemoteDeployment.run_main_head_deployment args getenv d env h w⟩⟩

/-- C9, amended, on the samples: a malformed file stops remote-source at once, and the
sample configuration without `region` decodes and leads to the upsert of the base
stack. -/
theorem C9_config_load_failure_sample :
    (RemoteSource.main [] (.data .malformed)).run allSucceed = ⟨[], 1⟩ ∧
    (∃ env2, RemoteSource.yamlUnmarshal (.document (.mapping
      (RemoteSource.sampleEntries.filter (fun kv => kv.1 != "region")))) = .ok env2) ∧
    ((RemoteSource.main [] (.data (.document RemoteSource.sampleConfig))).run
        allSucceed).trace.head? =
      some ⟨RemoteSource.upsertCall RemoteSource.sampleEnv
          RemoteSource.sampleEnv.BaseProject, true⟩ :=
  ⟨C9_config_load_failure.2.1.2.1 [] .malformed allSucceed rfl,
    C9_config_load_failure.2.1.2.2.1 RemoteSource.sampleEntries "region"
      RemoteSource.sampleEnv rfl,
    C9_config_load_failure.2.1.2.2.2 [] (.document RemoteSource.sampleConfig)
      RemoteSource.sampleEnv allSucceed rfl⟩

/-! ## What each mode runs -/

namespace LocalSource

theorem destroyMode_iff_local (args : List String) :
    destroyMode args = true ↔ args.head? = some "destroy" := by
  cases args <;> simp [destroyMode]

/-- What `main` does in each mode: with `destroy` as first argument the run destroys and
never refreshes, updates or sets configuration; otherwise it refreshes and updates and
never destroys. -/
theorem mode_run_local (args : List String) (d : Data) (env : Environment)
    (h : yamlUnmarshal d = .ok env) :
    (args.head? = some "destroy" →
      destroyed ((main args (.data d)).run allSucceed).trace =
        [appStack env, platformStack env, baseStack env] ∧
      refreshed ((main args (.data d)).run allSucceed).trace = [] ∧
      updated ((main args (.data d)).run allSucceed).trace = [] ∧
      ∀ w : Outcomes, NoApplyOps ((main args (.data d)).run w).trace) ∧
    (args.head? ≠ some "destroy" →
      destroyed ((main args (.data d)).run allSucceed).trace = [] ∧
      refreshed ((main args (.data d)).run allSucceed).trace =
        [baseStack env, platformStack env, appStack env] ∧
      updated ((main args (.data d)).run allSucceed).trace =
        [baseStack env, platformStack env, appStack env] ∧
      ∀ w : Outcomes, NoDestroy ((main args (.data d)).run w).trace) := by
  constructor
  · intro hh
    have hd : destroyMode args = true := (destroyMode_iff_local args).2 hh
    refine ⟨?_, ?_, ?_, ?_⟩
    · rw [run_main_allSucceed_local args d env h, hd]
      simp [plan, upsertCall, baseStack, platformStack, appStack, successCalls, StackOp.call, destroyed, calls]
    · rw [run_main_allSucceed_local args d env h, hd]
      simp [plan, upsertCall, baseStack, platformStack, appStack, successCalls, StackOp.call, refreshed, calls]
    · rw [run_main_allSucceed_local args d env h, hd]
      simp [plan, upsertCall, baseStack, platformStack, appStack, successCalls, StackOp.call, updated, calls]
    · intro w
      rw [run_main_local args d env h w, hd]
      exact noApplyOps_of_plan _ w (plan_destroy_calls_local env)
  · intro hh
    have hd : destroyMode args = false := by
      cases hb : destroyMode args
      · rfl
      · exact absurd ((destroyMode_iff_local args).1 hb) hh
    refine ⟨?_, ?_, ?_, ?_⟩
    · rw [run_main_allSucceed_local args d env h, hd]
      simp [plan, upsertCall, baseStack, platformStack, appStack, successCalls, StackOp.call, destroyed, calls]
    · rw [run_main_allSucceed_local args d env h, hd]
      simp [plan, upsertCall, baseStack, platformStack, appStack, successCalls, StackOp.call, refreshed, calls]
    · rw [run_main_allSucceed_local args d env h, hd]
      simp [plan, upsertCall, baseStack, platformStack, appStack, successCalls, StackOp.call, updated, calls]
    · intro w
      rw [run_main_local args d env h w, hd]
      exact noDestroy_of_plan _ w (plan_apply_calls_local env)

end LocalSource

namespace RemoteSource

theorem destroyMode_iff_remote (args : List String) :
    destroyMode args = true ↔ args.head? = some "destroy" := by
  cases args <;> simp [destroyMode]

/-- What `main` does in each mode: with `destroy` as first argument the run destroys and
never refreshes, updates or sets configuration; otherwise it refreshes and updates and
never destroys. -/
theorem mode_run_remote (args : List String) (d : Data) (env : Environment)
    (h : yamlUnmarshal d = .ok env) :
    (args.head? = some "destroy" →
      destroyed ((main args (.data d)).run allSucceed).trace =
        [appStack env, platformStack env, dataStack env, baseStack env] ∧
      refreshed ((main args (.data d)).run allSucceed).trace = [] ∧
      updated ((main args (.data d)).run allSucceed).trace = [] ∧
      ∀ w : Outcomes, NoApplyOps ((main args (.data d)).run w).trace) ∧
    (args.head? ≠ some "destroy" →
      destroyed ((main args (.data d)).run allSucceed).trace = [] ∧
      refreshed ((main args (.data d)).run allSucceed).trace =
        [baseStack env, platformStack env, dataStack env, appStack env] ∧
      updated ((main args (.data d)).run allSucceed).trace =
        [baseStack env, platformStack env, dataStack env, appStack env] ∧
      ∀ w : Outcomes, NoDestroy ((main args (.data d)).run w).trace) := by
  constructor
  · intro hh
    have hd : destroyMode args = true := (destroyMode_iff_remote args).2 hh
    refine ⟨?_, ?_, ?_, ?_⟩
    · rw [run_main_allSucceed_remote args d env h, hd]
      simp [plan, upsertCall, baseStack, platformStack, dataStack, appStack, successCalls, StackOp.call, destroyed, calls]
    · rw [run_main_allSucceed_remote args d env h, hd]
      simp [plan, upsertCall, baseStack, platformStack, dataStack, appStack, successCalls, StackOp.call, refreshed, calls]
    · rw [run_main_allSucceed_remote args d env h, hd]
      simp [plan, upsertCall, baseStack, platformStack, dataStack, appStack, successCalls, StackOp.call, updated, calls]
    · intro w
      rw [run_main_remote args d env h w, hd]
      exact noApplyOps_of_plan _ w (plan_destroy_calls_remote env)
  · intro hh
    have hd : destroyMode args = false := by
      cases hb : destroyMode args
      · rfl
      · exact absurd ((destroyMode_iff_remote args).1 hb) hh
    refine ⟨?_, ?_, ?_, ?_⟩
    · rw [run_main_allSucceed_remote args d env h, hd]
      simp [plan, upsertCall, baseStack, platformStack, dataStack, appStack, successCalls, StackOp.call, destroyed, calls]
    · rw [run_main_allSucceed_remote args d env h, hd]
      simp [plan, upsertCall, baseStack, platformStack, dataStack, appStack, successCalls, StackOp.call, refreshed, calls]
    · rw [run_main_allSucceed_remote args d env h, hd]
      simp [plan, upsertCall, baseStack, platformStack, dataStack, appStack, successCalls, StackOp.call, updated, calls]
    · intro w
      rw [run_main_remote args d env h w, hd]
      exact noDestroy_of_plan _ w (plan_apply_calls_remote env)

end RemoteSource

namespace RemoteDeployment

theorem destroyMode_iff_deployment (args : List String) :
    destroyMode args = true ↔ args.head? = some "destroy" := by
  cases args <;> simp [destroyMode]

/-- What `main` does in each mode: with `destroy` as first argument the run destroys and
never refreshes, updates or sets configuration; otherwise it refreshes and updates and
never destroys. -/
theorem mode_run_deployment (args : List String) (getenv : String → String) (d : Data) (env : Environment)
    (h : yamlUnmarshal d = .ok env) :
    (args.head? = some "destroy" →
      destroyed ((main args getenv (.data d)).run allSucceed).trace =
        [appStack env, platformStack env, dataStack env, baseStack env] ∧
      refreshed ((main args getenv (.data d)).run allSucceed).trace = [] ∧
      updated ((main args getenv (.data d)).run allSucceed).trace = [] ∧
      ∀ w : Outcomes, NoApplyOps ((main args getenv (.data d)).run w).trace) ∧
    (args.head? ≠ some "destroy" →
      destroyed ((main args getenv (.data d)).run allSucceed).trace = [] ∧
      refreshed ((main args getenv (.data d)).run allSucceed).trace =
        [baseStack env, platformStack env, dataStack env, appStack env] ∧
      updated ((main args getenv (.data d)).run allSucceed).trace =
        [baseStack env, platformStack env, dataStack env, appStack env] ∧
      ∀ w : Outcomes, NoDestroy ((main args getenv (.data d)).run w).trace) := by
  constructor
  · intro hh
    have hd : destroyMode args = true := (destroyMode_iff_deployment args).2 hh
    refine ⟨?_, ?_, ?_, ?_⟩
    · rw [run_main_allSucceed_deployment args getenv d env h, hd]
      simp [plan, upsertCall, baseStack, platformStack, dataStack, appStack, successCalls, StackOp.call, destroyed, calls]
    · rw [run_main_allSucceed_deployment args getenv d env h, hd]
      simp [plan, upsertCall, baseStack, platformStack, dataStack, appStack, successCalls, StackOp.call, refreshed, calls]
    · rw [run_main_allSucceed_deployment args getenv d env h, hd]
      simp [plan, upsertCall, baseStack, platformStack, dataStack, appStack, successCalls, StackOp.call, updated, calls]
    · intro w
      rw [run_main_deployment args getenv d env h w, hd]
      exact noApplyOps_of_plan _ w (plan_destroy_calls_deployment env _)
  · intro hh
    have hd : destroyMode args = false := by
      cases hb : destroyMode args
      · rfl
      · exact absurd ((destroyMode_iff_deployment args).1 hb) hh
    refine ⟨?_, ?_, ?_, ?_⟩
    · rw [run_main_allSucceed_deployment args getenv d env h, hd]
      simp [plan, upsertCall, baseStack, platformStack, dataStack, appStack, successCalls, StackOp.call, destroyed, calls]
    · rw [run_main_allSucceed_deployment args getenv d env h, hd]
      simp [plan, upsertCall, baseStack, platformStack, dataStack, appStack, successCalls, StackOp.call, refreshed, calls]
    · rw [run_main_allSucceed_deployment args getenv d env h, hd]
      simp [plan, upsertCall, baseStack, platformStack, dataStack, appStack, successCalls, StackOp.call, updated, calls]
    · intro w
      rw [run_main_deployment args getenv d env h w, hd]
      exact noDestroy_of_plan _ w (plan_apply_calls_deployment env _)

end RemoteDeployment

/-! ## C10: mode selection -/

/-- C10: in each program the value of `destroy` is true exactly when the first
positional argument exists and is the string `destroy`, and later arguments do not
matter; and `main` runs accordingly: with `destroy` as first argument the all-success
run destroys app, platform, (data,) base and refreshes and updates nothing, and no run
refreshes, updates or sets configuration; with any other argument list the all-success
run refreshes and updates base, platform, (data,) app and destroys nothing, and no run
destroys. -/
theorem C10_mode_selection :
    (∀ args : List String,
      (LocalSource.destroyMode args = true ↔ args.head? = some "destroy") ∧
      (RemoteSource.destroyMode args = true ↔ args.head? = some "destroy") ∧
      (RemoteDeployment.destroyMode args = true ↔ args.head? = some "destroy")) ∧
    (∀ (arg0 : String) (rest rest2 : List String),
      LocalSource.destroyMode (arg0 :: rest) = LocalSource.destroyMode (arg0 :: rest2) ∧
      RemoteSource.destroyMode (arg0 :: rest) = RemoteSource.destroyMode (arg0 :: rest2) ∧
      RemoteDeployment.destroyMode (arg0 :: rest) =
        RemoteDeployment.destroyMode (arg0 :: rest2)) ∧
    (∀ (args args2 : List String) (file : ReadFile) (getenv : String → String),
      args.head? = args2.head? →
      LocalSource.main args file = LocalSource.main args2 file ∧
      RemoteSource.main args file = RemoteSource.main args2 file ∧
      RemoteDeployment.main args getenv file = RemoteDeployment.main args2 getenv file) ∧
    LocalSource.destroyMode [] = false ∧ RemoteSource.destroyMode [] = false ∧
    RemoteDeployment.destroyMode [] = false ∧
    LocalSource.destroyMode ["Destroy"] = false ∧
    RemoteSource.destroyMode [" destroy"] = false ∧
    RemoteDeployment.destroyMode ["destroy "] = false ∧
    LocalSource.destroyMode ["up", "destroy"] = false ∧
    RemoteSource.destroyMode ["up", "destroy"] = false ∧
    RemoteDeployment.destroyMode ["up", "destroy"] = false ∧
    LocalSource.destroyMode ["destroy", "up"] = true ∧
    RemoteSource.destroyMode ["destroy", "up"] = true ∧
    RemoteDeployment.destroyMode ["destroy", "up"] = true ∧
    (∀ (args : List String) (d : Data) (env : LocalSource.Environment),
      LocalSource.yamlUnmarshal d = .ok env →
      (args.head? = some "destroy" →
        destroyed ((LocalSource.main args (.data d)).run allSucceed).trace =
          [LocalSource.appStack env, LocalSource.platformStack env,
           LocalSource.baseStack env] ∧
        refreshed ((LocalSource.main args (.data d)).run allSucceed).trace = [] ∧
        updated ((LocalSource.main args (.data d)).run allSucceed).trace = [] ∧
        ∀ w : Outcomes, NoApplyOps ((LocalSource.main args (.data d)).run w).trace) ∧
      (args.head? ≠ some "destroy" →
        destroyed ((LocalSource.main args (.data d)).run allSucceed).trace = [] ∧
        refreshed ((LocalSource.main args (.data d)).run allSucceed).trace =
          [LocalSource.baseStack env, LocalSource.platformStack env,
           LocalSource.appStack env] ∧
        updated ((LocalSource.main args (.data d)).run allSucceed).trace =
          [LocalSource.baseStack env, LocalSource.platformStack env,
           LocalSource.appStack env] ∧
        ∀ w : Outcomes, NoDestroy ((LocalSource.main args (.data d)).run w).trace)) ∧
    (∀ (args : List String) (d : Data) (env : RemoteSource.Environment),
      RemoteSource.yamlUnmarshal d = .ok env →
      (args.head? = some "destroy" →
        destroyed ((RemoteSource.main args (.data d)).run allSucceed).trace =
          [RemoteSource.appStack env, RemoteSource.platformStack env,
           RemoteSource.dataStack env, RemoteSource.baseStack env] ∧
        refreshed ((RemoteSource.main args (.data d)).run allSucceed).trace = [] ∧
        updated ((RemoteSource.main args (.data d)).run allSucceed).trace = [] ∧
        ∀ w : Outcomes, NoApplyOps ((RemoteSource.main args (.data d)).run w).trace) ∧
      (args.head? ≠ some "destroy" →
        destroyed ((RemoteSource.main args (.data d)).run allSucceed).trace = [] ∧
        refreshed ((RemoteSource.main args (.data d)).run allSucceed).trace =
          [RemoteSource.baseStack env, RemoteSource.platformStack env,
           RemoteSource.dataStack env, RemoteSource.appStack env] ∧
        updated ((RemoteSource.main args (.data d)).run allSucceed).trace =
          [RemoteSource.baseStack env, RemoteSource.platformStack env,
           RemoteSource.dataStack env, RemoteSource.appStack env] ∧
        ∀ w : Outcomes, NoDestroy ((RemoteSource.main args (.data d)).run w).trace)) ∧
    (∀ (args : List String) (getenv : String → String) (d : Data) (env : RemoteDeployment.Environment),
      RemoteDeployment.yamlUnmarshal d = .ok env →
      (args.head? = some "destroy" →
        destroyed ((RemoteDeployment.main args getenv (.data d)).run allSucceed).trace =
          [RemoteDeployment.appStack env, RemoteDeployment.platformStack env,
           RemoteDeployment.dataStack env, RemoteDeployment.baseStack env] ∧
        refreshed ((RemoteDeployment.main args getenv (.data d)).run allSucceed).trace = [] ∧
        updated ((RemoteDeployment.main args getenv (.data d)).run allSucceed).trace = [] ∧
        ∀ w : Outcomes, NoApplyOps ((RemoteDeployment.main args getenv (.data d)).run w).trace) ∧
      (args.head? ≠ some "destroy" →
        destroyed ((RemoteDeployment.main args getenv (.data d)).run allSucceed).trace = [] ∧
        refreshed ((RemoteDeployment.main args getenv (.data d)).run allSucceed).trace =
          [RemoteDeployment.baseStack env, RemoteDeployment.platformStack env,
           RemoteDeployment.dataStack env, RemoteDeployment.appStack env] ∧
        updated ((RemoteDeployment.main args getenv (.data d)).run allSucceed).trace =
          [RemoteDeployment.baseStack env, RemoteDeployment.platformStack env,
           RemoteDeployment.dataStack env, RemoteDeployment.appStack env] ∧
        ∀ w : Outcomes, NoDestroy ((RemoteDeployment.main args getenv (.data d)).run w).trace)) := by
  have hmode : ∀ args args2 : List String, args.head? = args2.head? →
      LocalSource.destroyMode args = LocalSource.destroyMode args2 ∧
      RemoteSource.destroyMode args = RemoteSource.destroyMode args2 ∧
      RemoteDeployment.destroyMode args = RemoteDeployment.destroyMode args2 := by
    intro args args2 h
    cases args with
    | nil =>
      cases args2 with
      | nil => exact ⟨rfl, rfl, rfl⟩
      | cons b bs => simp at h
    | cons a as =>
      cases args2 with
      | nil => simp at h
      | cons b bs =>
        simp only [List.head?_cons, Option.some.injEq] at h
        subst h
        exact ⟨rfl, rfl, rfl⟩
  refine ⟨?_, ?_, ?_, by decide, by decide, by decide, by decide, by decide, by decide,
    by decide, by decide, by decide, by decide, by decide, by decide,
    fun args d env h => LocalSource.mode_run_local args d env h,
    fun args d env h => RemoteSource.mode_run_remote args d env h,
    fun args getenv d env h => RemoteDeployment.mode_run_deployment args getenv d env h⟩
  · intro args
    cases args with
    | nil => simp [LocalSource.destroyMode, RemoteSource.destroyMode,
        RemoteDeployment.destroyMode]
    | cons a as =>
      simp [LocalSource.destroyMode, RemoteSource.destroyMode, RemoteDeployment.destroyMode]
  · intro arg0 rest rest2
    exact ⟨rfl, rfl, rfl⟩
  · intro args args2 file getenv h
    obtain ⟨h1, h2, h3⟩ := hmode args args2 h
    refine ⟨?_, ?_, ?_⟩
    · unfold LocalSource.main; rw [h1]
    · unfold RemoteSource.main; rw [h2]
    · unfold RemoteDeployment.main; rw [h3]

/-- C10 on the sample configuration of local-source: with `destroy` first the run
destroys app, platform, base, also when more arguments follow; with `up destroy` it
refreshes base, platform, app and destroys nothing. -/
theorem C10_mode_selection_sample :
    destroyed ((LocalSource.main ["destroy", "up"]
        (.data (.document LocalSource.sampleConfig))).run allSucceed).trace =
      [⟨"zephyr/app/dev"⟩, ⟨"zephyr/platform/dev"⟩, ⟨"zephyr/base/dev"⟩] ∧
    destroyed ((LocalSource.main ["up", "destroy"]
        (.data (.document LocalSource.sampleConfig))).run allSucceed).trace = [] ∧
    refreshed ((LocalSource.main ["up", "destroy"]
        (.data (.document LocalSource.sampleConfig))).run allSucceed).trace =
      [⟨"zephyr/base/dev"⟩, ⟨"zephyr/platform/dev"⟩, ⟨"zephyr/app/dev"⟩] :=
  ⟨((C10_mode_selection.2.2.2.2.2.2.2.2.2.2.2.2.2.2.2.1 ["destroy", "up"]
      (.document LocalSource.sampleConfig) LocalSource.sampleEnv rfl).1 rfl).1,
    ((C10_mode_selection.2.2.2.2.2.2.2.2.2.2.2.2.2.2.2.1 ["up", "destroy"]
      (.document LocalSource.sampleConfig) LocalSource.sampleEnv rfl).2 (by decide)).1,
    ((C10_mode_selection.2.2.2.2.2.2.2.2.2.2.2.2.2.2.2.1 ["up", "destroy"]
      (.document LocalSource.sampleConfig) LocalSource.sampleEnv rfl).2 (by decide)).2.1⟩

/-! ## Progress sinks, set-config errors, forwarded variables, stack names -/

theorem logsToTemp_of_check (helper : Stack → String → Proc GoError) (op : StackOp)
    (h : ∀ s n, helper s n = (do
      let (tmp, err) ← osCreateTemp
      if err ≠ GoError.nil then
        pure err
      else
        let err ← invoke (op.call s [Writer.stdout, tmp])
        pure err)) : LogsToTemp helper op := by
  intro s n w t
  rw [h]
  constructor
  · intro h1
    simp [Bind.bind, Proc.bind, Pure.pure, Proc.pure, invoke, osCreateTemp, h1]
  · intro h1
    cases h2 : w (t ++ [⟨.CreateTemp, true⟩]) (op.call s [.stdout, .tmp t.length]) <;>
      simp [Bind.bind, Proc.bind, Pure.pure, Proc.pure, invoke, osCreateTemp, h1, h2]

theorem StackOp.call_isSetConfig (op : StackOp) (s : Stack) (ws : List Writer) :
    (op.call s ws).isSetConfig = false := by
  cases op <;> rfl

theorem calls_append (t : Trace) (es : List Entry) : calls (t ++ es) = calls t ++ calls es := by
  simp [calls]

theorem calls_length (t1 t2 : Trace) (h : calls t1 = calls t2) : t1.length = t2.length := by
  have := congrArg List.length h
  simpa [calls] using this

/-- Engines that agree off the set-config calls take a plan through the same course,
provided the plan never looks at the error of a set-config. -/
theorem runFrom_sameCourse (ps : List Item)
    (hps : ∀ i ∈ ps, i.dropsSetConfigError = true) (w1 w2 : Outcomes)
    (hw : AgreeOffSetConfig w1 w2) (t1 t2 : Trace) (ht : calls t1 = calls t2) :
    SameCourse ((exec ps).runFrom w1 t1) ((exec ps).runFrom w2 t2) := by
  induction ps generalizing t1 t2 with
  | nil => exact ⟨ht, rfl⟩
  | cons i is ih =>
    have his : ∀ i ∈ is, i.dropsSetConfigError = true :=
      fun j hj => hps j (List.mem_cons_of_mem _ hj)
    have hi := hps i (List.mem_cons_self _ _)
    cases i with
    | call c f =>
      rw [runFrom_cons, runFrom_cons, Item.exec_call, Item.exec_call]
      have hnext : ∀ b1 b2 : Bool, calls (t1 ++ [⟨c, b1⟩]) = calls (t2 ++ [⟨c, b2⟩]) := by
        intro b1 b2
        rw [calls_append, calls_append, ht]
        rfl
      cases hc : c.isSetConfig
      · have hww := hw t1 t2 c ht hc
        by_cases h1 : w1 t1 c = false ∧ f = true
        · have h2 : w2 t2 c = false ∧ f = true := ⟨hww ▸ h1.1, h1.2⟩
          simp only [h1, h2, and_self, if_true]
          exact ⟨hnext _ _, rfl⟩
        · have h2 : ¬ (w2 t2 c = false ∧ f = true) := fun h => h1 ⟨hww ▸ h.1, h.2⟩
          simp only [h1, h2, if_false]
          exact ih his _ _ (hnext _ _)
      · have hf : f = false := by
          simpa [Item.dropsSetConfigError, hc] using hi
        simp only [hf, Bool.false_eq_true, and_false, if_false]
        exact ih his _ _ (hnext _ _)
    | logged op s =>
      rw [runFrom_cons, runFrom_cons, Item.exec_logged, Item.exec_logged]
      have hlen := calls_length t1 t2 ht
      have hct := hw t1 t2 .CreateTemp ht rfl
      have hn1 : ∀ b1 b2 : Bool,
          calls (t1 ++ [⟨.CreateTemp, b1⟩]) = calls (t2 ++ [⟨.CreateTemp, b2⟩]) := by
        intro b1 b2
        rw [calls_append, calls_append, ht]
        rfl
      have hop := hw (t1 ++ [⟨.CreateTemp, true⟩]) (t2 ++ [⟨.CreateTemp, true⟩])
        (op.call s [.stdout, .tmp t1.length]) (hn1 _ _) (StackOp.call_isSetConfig _ _ _)
      rw [← hlen, ← hct, ← hop]
      have hn2 : ∀ b1 b2 : Bool,
          calls (t1 ++ [⟨.CreateTemp, true⟩, ⟨op.call s [.stdout, .tmp t1.length], b1⟩]) =
            calls (t2 ++ [⟨.CreateTemp, true⟩, ⟨op.call s [.stdout, .tmp t1.length], b2⟩]) := by
        intro b1 b2
        rw [calls_append, calls_append, ht]
        rfl
      by_cases h1 : w1 t1 .CreateTemp = false
      · simp only [h1, if_true]
        exact ⟨hn1 _ _, rfl⟩
      · by_cases h2 : w1 (t1 ++ [⟨.CreateTemp, true⟩])
            (op.call s [.stdout, .tmp t1.length]) = false
        · simp only [h1, h2, if_true, if_false]
          exact ⟨hn2 _ _, rfl⟩
        · simp only [h1, h2, if_false]
          exact ih his _ _ (hn2 _ _)

theorem sameCourse_refl (r : Result) : SameCourse r r := ⟨rfl, rfl⟩

namespace LocalSource

theorem plan_dropsSetConfigError_local (b : Bool) (env : Environment) :
    ∀ i ∈ plan b env, i.dropsSetConfigError = true := by
  cases b <;> simp [plan, upsertCall, Item.dropsSetConfigError, Call.isSetConfig]

/-- The outcome of the set-config calls does not change the course of `main`. -/
theorem sameCourse_main_local (args : List String) (file : ReadFile)
    (w1 w2 : Outcomes) (hw : AgreeOffSetConfig w1 w2) :
    SameCourse ((main args file).run w1) ((main args file).run w2) := by
  cases file with
  | error => exact ⟨rfl, rfl⟩
  | data d =>
    cases h : yamlUnmarshal d with
    | error e =>
      rw [run_main_decodeError_local args d w1 h, run_main_decodeError_local args d w2 h]
      exact ⟨rfl, rfl⟩
    | ok env =>
      rw [run_main_local args d env h w1, run_main_local args d env h w2]
      exact runFrom_sameCourse _ (plan_dropsSetConfigError_local _ env) w1 w2 hw [] []
        rfl

end LocalSource

namespace RemoteSource

theorem plan_dropsSetConfigError_remote (b : Bool) (env : Environment) :
    ∀ i ∈ plan b env, i.dropsSetConfigError = true := by
  cases b <;> simp [plan, upsertCall, Item.dropsSetConfigError, Call.isSetConfig]

/-- The outcome of the set-config calls does not change the course of `main`. -/
theorem sameCourse_main_remote (args : List String) (file : ReadFile)
    (w1 w2 : Outcomes) (hw : AgreeOffSetConfig w1 w2) :
    SameCourse ((main args file).run w1) ((main args file).run w2) := by
  cases file with
  | error => exact ⟨rfl, rfl⟩
  | data d =>
    cases h : yamlUnmarshal d with
    | error e =>
      rw [run_main_decodeError_remote args d w1 h, run_main_decodeError_remote args d w2 h]
      exact ⟨rfl, rfl⟩
    | ok env =>
      rw [run_main_remote args d env h w1, run_main_remote args d env h w2]
      exact runFrom_sameCourse _ (plan_dropsSetConfigError_remote _ env) w1 w2 hw [] []
        rfl

end RemoteSource

namespace RemoteDeployment

theorem plan_dropsSetConfigError_deployment (b : Bool) (env : Environment)
    (creds : List (String × EnvVarValue)) :
    ∀ i ∈ plan b env creds, i.dropsSetConfigError = true := by
  cases b <;> simp [plan, upsertCall, Item.dropsSetConfigError, Call.isSetConfig]

/-- The outcome of the set-config calls does not change the course of `main`. -/
theorem sameCourse_main_deployment (args : List String) (getenv : String → String)
    (file : ReadFile)
    (w1 w2 : Outcomes) (hw : AgreeOffSetConfig w1 w2) :
    SameCourse ((main args getenv file).run w1) ((main args getenv file).run w2) := by
  cases file with
  | error => exact ⟨rfl, rfl⟩
  | data d =>
    cases h : yamlUnmarshal d with
    | error e =>
      rw [run_main_decodeError_deployment args getenv d w1 h, run_main_decodeError_deployment args getenv d w2 h]
      exact ⟨rfl, rfl⟩
    | ok env =>
      rw [run_main_deployment args getenv d env h w1, run_main_deployment args getenv d env h w2]
      exact runFrom_sameCourse _ (plan_dropsSetConfigError_deployment _ env _) w1 w2 hw [] []
        rfl

end RemoteDeployment

namespace RemoteDeployment

theorem plan_streams_deployment (b : Bool) (env : Environment)
    (creds : List (String × EnvVarValue)) :
    ∀ c ∈ successCalls (plan b env creds) 0,
      c.isCreateTemp = false ∧ ∀ ws, c.progressStreams = some ws → ws = [Writer.stdout] := by
  cases b <;>
    simp [plan, upsertCall, successCalls, Call.isCreateTemp, Call.progressStreams]

/-- No run of remote-deployment creates a temp file, and every lifecycle call it makes
has `os.Stdout` as its only progress sink. -/
theorem run_streams_deployment (args : List String) (getenv : String → String)
    (file : ReadFile) (w : Outcomes) :
    ∀ e ∈ ((main args getenv file).run w).trace,
      e.call.isCreateTemp = false ∧
        ∀ ws, e.call.progressStreams = some ws → ws = [Writer.stdout] := by
  rcases run_main_cases_deployment args getenv file w with ⟨h, _⟩ | ⟨env, h, _⟩
  · rw [h]
    intro e he
    simp at he
  · rw [h]
    intro e he
    exact plan_streams_deployment _ env _ e.call (runFrom_call_mem _ w e he)

/-- The environment variables handed over at the upserts of a run. -/
theorem upsert_envVars_deployment (args : List String) (getenv : String → String)
    (d : Data) (env : Environment) (h : yamlUnmarshal d = .ok env) (w : Outcomes) :
    (upsertCalls ((main args getenv (.data d)).run w).trace).map Call.envVars <+:
        List.replicate 4 (some (credentials env getenv)) ∧
    (upsertCalls ((main args getenv (.data d)).run allSucceed).trace).map Call.envVars =
        List.replicate 4 (some (credentials env getenv)) := by
  obtain ⟨h1, h2⟩ := upsertCalls_main_deployment args getenv d env h w
  constructor
  · have := h1.map Call.envVars
    simpa [upsertCall, Call.envVars, List.replicate] using this
  · rw [h2]
    simp [upsertCall, Call.envVars, List.replicate]

end RemoteDeployment

theorem append_cons_cancel {α : Type} (x : α) (a b r1 r2 : List α) (ha : x ∉ a) (hb : x ∉ b)
    (h : a ++ x :: r1 = b ++ x :: r2) : a = b ∧ r1 = r2 := by
  induction a generalizing b with
  | nil =>
    cases b with
    | nil => simpa using h
    | cons y b =>
      simp only [List.nil_append, List.cons_append, List.cons.injEq] at h
      exact absurd (List.mem_cons_self _ _) (h.1 ▸ hb)
  | cons y a ih =>
    cases b with
    | nil =>
      simp only [List.nil_append, List.cons_append, List.cons.injEq] at h
      exact absurd (List.mem_cons_self _ _) (h.1 ▸ ha)
    | cons z b =>
      simp only [List.cons_append, List.cons.injEq] at h
      obtain ⟨h1, h2⟩ := ih b (fun hm => ha (List.mem_cons_of_mem _ hm))
        (fun hm => hb (List.mem_cons_of_mem _ hm)) h.2
      exact ⟨by rw [h.1, h1], h2⟩

theorem fullyQualified_data (o p s : String) :
    (FullyQualifiedStackName o p s).data = o.data ++ '/' :: (p.data ++ '/' :: s.data) := by
  simp [FullyQualifiedStackName, String.data_append]

theorem fullyQualified_injective (o1 p1 s1 o2 p2 s2 : String)
    (ho1 : SlashFree o1) (hp1 : SlashFree p1) (ho2 : SlashFree o2) (hp2 : SlashFree p2)
    (h : FullyQualifiedStackName o1 p1 s1 = FullyQualifiedStackName o2 p2 s2) :
    o1 = o2 ∧ p1 = p2 ∧ s1 = s2 := by
  have hd := congrArg String.data h
  rw [fullyQualified_data, fullyQualified_data] at hd
  obtain ⟨h1, h2⟩ := append_cons_cancel '/' _ _ _ _ ho1 ho2 hd
  obtain ⟨h3, h4⟩ := append_cons_cancel '/' _ _ _ _ hp1 hp2 h2
  exact ⟨String.ext h1, String.ext h3, String.ext h4⟩

theorem fullyQualified_project_injective (o s p1 p2 : String)
    (h : FullyQualifiedStackName o p1 s = FullyQualifiedStackName o p2 s) : p1 = p2 := by
  have hd := congrArg String.data h
  rw [fullyQualified_data, fullyQualified_data] at hd
  have h1 := List.append_cancel_left hd
  simp only [List.cons.injEq, true_and] at h1
  exact String.ext (List.append_cancel_right h1)

theorem fullyQualified_org_injective (p s o1 o2 : String)
    (h : FullyQualifiedStackName o1 p s = FullyQualifiedStackName o2 p s) : o1 = o2 := by
  have hd := congrArg String.data h
  rw [fullyQualified_data, fullyQualified_data] at hd
  exact String.ext (List.append_cancel_right hd)

theorem fullyQualified_stack_injective (o p s1 s2 : String)
    (h : FullyQualifiedStackName o p s1 = FullyQualifiedStackName o p s2) : s1 = s2 := by
  have hd := congrArg String.data h
  rw [fullyQualified_data, fullyQualified_data] at hd
  have h1 := List.append_cancel_left hd
  simp only [List.cons.injEq, true_and] at h1
  have h2 := List.append_cancel_left h1
  simp only [List.cons.injEq, true_and] at h2
  exact String.ext h2

/-! ## C11: the progress sinks of the helpers -/

/-- C11 as stated fails for remote-deployment: its `refreshStack` makes a single call,
the refresh with `os.Stdout` as only progress sink, and creates no temp file. -/
theorem C11_deployment_single_sink :
    RemoteDeployment.refreshStack ⟨"zephyr/base/dev"⟩ "base" allSucceed [] =
      .next GoError.nil [⟨.Refresh ⟨"zephyr/base/dev"⟩ [.stdout], true⟩] ∧
    ¬ LogsToTemp RemoteDeployment.refreshStack .refresh := by
  refine ⟨rfl, ?_⟩
  intro h
  have h2 := (h ⟨"zephyr/base/dev"⟩ "base" allSucceed []).2 rfl
  have h3 : RemoteDeployment.refreshStack ⟨"zephyr/base/dev"⟩ "base" allSucceed [] =
      .next GoError.nil [⟨.Refresh ⟨"zephyr/base/dev"⟩ [.stdout], true⟩] := rfl
  rw [h3] at h2
  simp [StackOp.call, allSucceed] at h2

/-- C11, amended: in local-source and remote-source each refresh, update and destroy
helper hands the engine exactly two progress sinks, `os.Stdout` and the temp file it
has just created, and returns the error of `os.CreateTemp` without invoking the
operation; in remote-deployment each helper hands over `os.Stdout` alone, and no run of
that program creates a temp file. -/
theorem C11_helper_progress_sinks :
    (LogsToTemp LocalSource.refreshStack .refresh ∧
      LogsToTemp LocalSource.updateStack .update ∧
      LogsToTemp LocalSource.deleteStack .destroy) ∧
    (LogsToTemp RemoteSource.refreshStack .refresh ∧
      LogsToTemp RemoteSource.updateStack .update ∧
      LogsToTemp RemoteSource.deleteStack .destroy) ∧
    (LogsToStdoutOnly RemoteDeployment.refreshStack .refresh ∧
      LogsToStdoutOnly RemoteDeployment.updateStack .update ∧
      LogsToStdoutOnly RemoteDeployment.deleteStack .destroy) ∧
    (∀ (args : List String) (getenv : String → String) (file : ReadFile) (w : Outcomes),
      ∀ e ∈ ((RemoteDeployment.main args getenv file).run w).trace,
        e.call.isCreateTemp = false ∧
          ∀ ws, e.call.progressStreams = some ws → ws = [Writer.stdout]) := by
  refine ⟨⟨?_, ?_, ?_⟩, ⟨?_, ?_, ?_⟩, ⟨?_, ?_, ?_⟩, ?_⟩
  · exact logsToTemp_of_check _ _ (fun _ _ => rfl)
  · exact logsToTemp_of_check _ _ (fun _ _ => rfl)
  · exact logsToTemp_of_check _ _ (fun _ _ => rfl)
  · exact logsToTemp_of_check _ _ (fun _ _ => rfl)
  · exact logsToTemp_of_check _ _ (fun _ _ => rfl)
  · exact logsToTemp_of_check _ _ (fun _ _ => rfl)
  · intro s n w t; rfl
  · intro s n w t; rfl
  · intro s n w t; rfl
  · exact RemoteDeployment.run_streams_deployment

/-- C11, amended, on samples: `deleteStack` of local-source started after three calls
with every call succeeding creates temp file 3 and destroys with the sinks `os.Stdout`
and that file; with every call failing it stops after `os.CreateTemp`. -/
theorem C11_helper_progress_sinks_sample :
    LocalSource.deleteStack ⟨"zephyr/app/dev"⟩ "application" allSucceed
        [⟨.CreateTemp, true⟩, ⟨.CreateTemp, true⟩, ⟨.CreateTemp, true⟩] =
      .next GoError.nil
        [⟨.CreateTemp, true⟩, ⟨.CreateTemp, true⟩, ⟨.CreateTemp, true⟩, ⟨.CreateTemp, true⟩,
          ⟨.Destroy ⟨"zephyr/app/dev"⟩ [.stdout, .tmp 3], true⟩] ∧
    LocalSource.deleteStack ⟨"zephyr/app/dev"⟩ "application" (fun _ _ => false) [] =
      .next GoError.failed [⟨.CreateTemp, false⟩] :=
  ⟨(C11_helper_progress_sinks.1.2.2 ⟨"zephyr/app/dev"⟩ "application" allSucceed
      [⟨.CreateTemp, true⟩, ⟨.CreateTemp, true⟩, ⟨.CreateTemp, true⟩]).2 rfl,
    (C11_helper_progress_sinks.1.2.2 ⟨"zephyr/app/dev"⟩ "application" (fun _ _ => false)
      []).1 rfl⟩

/-! ## C12: the environment variables forwarded at upsert -/

/-- C12 as stated fails for `AWS_REGION`: on the sample configuration, with `AWS_REGION`
set to `eu-central-1` in the process environment, the entry handed over at the first
upsert is the region `us-west-2` of the configuration, and it is not secret. -/
theorem C12_region_from_config_not_secret :
    RemoteDeployment.sampleGetenvRegion "AWS_REGION" = "eu-central-1" ∧
    (((upsertCalls ((RemoteDeployment.main [] RemoteDeployment.sampleGetenvRegion
        (.data (.document RemoteDeployment.sampleConfig))).run allSucceed).trace).head?.bind
          Call.envVars).bind (List.lookup "AWS_REGION")) =
      some ⟨"us-west-2", false⟩ := by
  decide

/-- C12, amended: in remote-deployment the upserts of all four stacks are handed the
same four entries: `AWS_ACCESS_KEY_ID`, `AWS_SECRET_ACCESS_KEY` and `AWS_SESSION_TOKEN`
as secrets holding the value of that variable in the process environment, unchanged, and
`AWS_REGION` not secret, holding the region of the configuration file. -/
theorem C12_forwarded_environment (args : List String) (getenv : String → String)
    (d : Data) (env : RemoteDeployment.Environment) (w : Outcomes)
    (h : RemoteDeployment.yamlUnmarshal d = .ok env) :
    (upsertCalls ((RemoteDeployment.main args getenv (.data d)).run w).trace).map
        Call.envVars <+:
      List.replicate 4 (some
        [ ("AWS_REGION", ⟨env.Region, false⟩),
          ("AWS_ACCESS_KEY_ID", ⟨getenv "AWS_ACCESS_KEY_ID", true⟩),
          ("AWS_SECRET_ACCESS_KEY", ⟨getenv "AWS_SECRET_ACCESS_KEY", true⟩),
          ("AWS_SESSION_TOKEN", ⟨getenv "AWS_SESSION_TOKEN", true⟩) ]) ∧
    (upsertCalls ((RemoteDeployment.main args getenv (.data d)).run allSucceed).trace).map
        Call.envVars =
      List.replicate 4 (some
        [ ("AWS_REGION", ⟨env.Region, false⟩),
          ("AWS_ACCESS_KEY_ID", ⟨getenv "AWS_ACCESS_KEY_ID", true⟩),
          ("AWS_SECRET_ACCESS_KEY", ⟨getenv "AWS_SECRET_ACCESS_KEY", true⟩),
          ("AWS_SESSION_TOKEN", ⟨getenv "AWS_SESSION_TOKEN", true⟩) ]) :=
  RemoteDeployment.upsert_envVars_deployment args getenv d env h w

/-- C12, amended, on the sample configuration and process environment. -/
theorem C12_forwarded_environment_sample :
    RemoteDeployment.yamlUnmarshal (.document RemoteDeployment.sampleConfig) =
      .ok RemoteDeployment.sampleEnv ∧
    (upsertCalls ((RemoteDeployment.main [] RemoteDeployment.sampleGetenv
        (.data (.document RemoteDeployment.sampleConfig))).run allSucceed).trace).map
        Call.envVars =
      List.replicate 4 (some
        [ ("AWS_REGION", ⟨"us-west-2", false⟩),
          ("AWS_ACCESS_KEY_ID", ⟨"AKIAEXAMPLE", true⟩),
          ("AWS_SECRET_ACCESS_KEY", ⟨"secret-example", true⟩),
          ("AWS_SESSION_TOKEN", ⟨"token-example", true⟩) ]) :=
  ⟨rfl, (C12_forwarded_environment [] RemoteDeployment.sampleGetenv
    (.document RemoteDeployment.sampleConfig) RemoteDeployment.sampleEnv allSucceed rfl).2⟩

/-! ## C13: the error of a set-config call -/

/-- C13 as stated fails: no program checks the error of a set-config call.  On the
sample configurations, when every set-config fails and every other call succeeds, each
of the three programs records the failed set-config of the base stack, goes on to the
last call of its apply sequence and exits with status 0. -/
theorem C13_set_config_failure_never_fatal :
    (((LocalSource.main [] (.data (.document LocalSource.sampleConfig))).run
        setConfigFails).trace[3]? =
        some ⟨.SetConfig ⟨"zephyr/base/dev"⟩ "aws:region" ⟨"us-west-2", false⟩, false⟩ ∧
      ((LocalSource.main [] (.data (.document LocalSource.sampleConfig))).run
        setConfigFails).trace.getLast? =
        some ⟨.Up ⟨"zephyr/app/dev"⟩ [.stdout, .tmp 21], true⟩ ∧
      ((LocalSource.main [] (.data (.document LocalSource.sampleConfig))).run
        setConfigFails).trace.length = 23 ∧
      ((LocalSource.main [] (.data (.document LocalSource.sampleConfig))).run
        setConfigFails).exit = 0) ∧
    (((RemoteSource.main [] (.data (.document RemoteSource.sampleConfig))).run
        setConfigFails).trace[4]? =
        some ⟨.SetConfig ⟨"zephyr/base/dev"⟩ "aws:region" ⟨"us-west-2", false⟩, false⟩ ∧
      ((RemoteSource.main [] (.data (.document RemoteSource.sampleConfig))).run
        setConfigFails).trace.getLast? =
        some ⟨.Up ⟨"zephyr/app/dev"⟩ [.stdout, .tmp 33], true⟩ ∧
      ((RemoteSource.main [] (.data (.document RemoteSource.sampleConfig))).run
        setConfigFails).trace.length = 35 ∧
      ((RemoteSource.main [] (.data (.document RemoteSource.sampleConfig))).run
        setConfigFails).exit = 0) ∧
    (((RemoteDeployment.main [] RemoteDeployment.sampleGetenv
        (.data (.document RemoteDeployment.sampleConfig))).run setConfigFails).trace[4]? =
        some ⟨.SetConfig ⟨"zephyr/base/dev"⟩ "aws:region" ⟨"us-west-2", false⟩, false⟩ ∧
      ((RemoteDeployment.main [] RemoteDeployment.sampleGetenv
        (.data (.document RemoteDeployment.sampleConfig))).run
          setConfigFails).trace.getLast? =
        some ⟨.Up ⟨"zephyr/app/dev"⟩ [.stdout], true⟩ ∧
      ((RemoteDeployment.main [] RemoteDeployment.sampleGetenv
        (.data (.document RemoteDeployment.sampleConfig))).run
          setConfigFails).trace.length = 27 ∧
      ((RemoteDeployment.main [] RemoteDeployment.sampleGetenv
        (.data (.document RemoteDeployment.sampleConfig))).run setConfigFails).exit = 0) :=
  ⟨⟨by decide, by decide, by decide, by decide⟩,
    ⟨by decide, by decide, by decide, by decide⟩,
    ⟨by decide, by decide, by decide, by decide⟩⟩

/-- C13, amended: in all three programs the error of a set-config call is discarded:
two engines that answer alike on every other call take the program through the same
calls in the same order and to the same exit status, whatever they answer to the
set-config calls. -/
theorem C13_set_config_errors_discarded :
    (∀ (args : List String) (file : ReadFile) (w1 w2 : Outcomes),
      AgreeOffSetConfig w1 w2 →
      SameCourse ((LocalSource.main args file).run w1)
        ((LocalSource.main args file).run w2)) ∧
    (∀ (args : List String) (file : ReadFile) (w1 w2 : Outcomes),
      AgreeOffSetConfig w1 w2 →
      SameCourse ((RemoteSource.main args file).run w1)
        ((RemoteSource.main args file).run w2)) ∧
    (∀ (args : List String) (getenv : String → String) (file : ReadFile)
        (w1 w2 : Outcomes),
      AgreeOffSetConfig w1 w2 →
      SameCourse ((RemoteDeployment.main args getenv file).run w1)
        ((RemoteDeployment.main args getenv file).run w2)) :=
  ⟨LocalSource.sameCourse_main_local, RemoteSource.sameCourse_main_remote,
    RemoteDeployment.sameCourse_main_deployment⟩

/-- C13, amended, on the sample configuration of local-source: failing set-config calls
leave the course of the run as in the all-success run. -/
theorem C13_set_config_errors_discarded_sample :
    AgreeOffSetConfig setConfigFails allSucceed ∧
    SameCourse
      ((LocalSource.main [] (.data (.document LocalSource.sampleConfig))).run
        setConfigFails)
      ((LocalSource.main [] (.data (.document LocalSource.sampleConfig))).run
        allSucceed) :=
  ⟨fun _ _ c _ hc => by simp [setConfigFails, allSucceed, hc],
    C13_set_config_errors_discarded.1 [] (.data (.document LocalSource.sampleConfig))
      setConfigFails allSucceed
      (fun _ _ c _ hc => by simp [setConfigFails, allSucceed, hc])⟩

/-! ## C14: uniqueness of fully qualified names -/

/-- C14 as stated fails: the triples `a/b`, `c`, `d` and `a`, `b/c`, `d` differ and have
the same fully qualified name. -/
theorem C14_names_collide :
    ("a/b", "c", "d") ≠ ("a", "b/c", "d") ∧
    FullyQualifiedStackName "a/b" "c" "d" = FullyQualifiedStackName "a" "b/c" "d" := by
  decide

/-- C14, amended: triples whose organization and project name have no `/` in them and
that differ in a component have different fully qualified names; and, for all strings,
names that differ only in the project name, only in the organization or only in the
stack suffix are different, so two projects with different names in one run never share
an upsert name. -/
theorem C14_names_unique_without_slash :
    (∀ o1 p1 s1 o2 p2 s2 : String,
      SlashFree o1 → SlashFree p1 → SlashFree o2 → SlashFree p2 →
      FullyQualifiedStackName o1 p1 s1 = FullyQualifiedStackName o2 p2 s2 →
      o1 = o2 ∧ p1 = p2 ∧ s1 = s2) ∧
    (∀ o s p1 p2 : String,
      FullyQualifiedStackName o p1 s = FullyQualifiedStackName o p2 s → p1 = p2) ∧
    (∀ p s o1 o2 : String,
      FullyQualifiedStackName o1 p s = FullyQualifiedStackName o2 p s → o1 = o2) ∧
    (∀ o p s1 s2 : String,
      FullyQualifiedStackName o p s1 = FullyQualifiedStackName o p s2 → s1 = s2) ∧
    (∀ (env : LocalSource.Environment) (p1 p2 : LocalSource.Project),
      p1.Name ≠ p2.Name →
      (LocalSource.upsertCall env p1).upsertName ≠
        (LocalSource.upsertCall env p2).upsertName) ∧
    (∀ (env : RemoteSource.Environment) (p1 p2 : RemoteSource.Project),
      p1.Name ≠ p2.Name →
      (RemoteSource.upsertCall env p1).upsertName ≠
        (RemoteSource.upsertCall env p2).upsertName) ∧
    (∀ (env : RemoteDeployment.Environment) (creds : List (String × EnvVarValue))
        (p1 p2 : RemoteDeployment.Project),
      p1.Name ≠ p2.Name →
      (RemoteDeployment.upsertCall env creds p1).upsertName ≠
        (RemoteDeployment.upsertCall env creds p2).upsertName) := by
  refine ⟨fullyQualified_injective, fullyQualified_project_injective,
    fullyQualified_org_injective, fullyQualified_stack_injective, ?_, ?_, ?_⟩
  · intro env p1 p2 hne h
    simp only [LocalSource.upsertCall, Call.upsertName, Option.some.injEq] at h
    exact hne (fullyQualified_project_injective _ _ _ _ h)
  · intro env p1 p2 hne h
    simp only [RemoteSource.upsertCall, Call.upsertName, Option.some.injEq] at h
    exact hne (fullyQualified_project_injective _ _ _ _ h)
  · intro env creds p1 p2 hne h
    simp only [RemoteDeployment.upsertCall, Call.upsertName, Option.some.injEq] at h
    exact hne (fullyQualified_project_injective _ _ _ _ h)

/-- C14, amended, on a sample: the `dev` and `prod` stacks of project `base` in
organization `zephyr` have different names. -/
theorem C14_names_unique_without_slash_sample :
    SlashFree "zephyr" ∧ SlashFree "base" ∧
    FullyQualifiedStackName "zephyr" "base" "dev" ≠
      FullyQualifiedStackName "zephyr" "base" "prod" :=
  ⟨by unfold SlashFree; decide, by unfold SlashFree; decide,
    fun h => absurd
      (C14_names_unique_without_slash.1 "zephyr" "base" "dev" "zephyr" "base" "prod"
        (by unfold SlashFree; decide) (by unfold SlashFree; decide)
        (by unfold SlashFree; decide) (by unfold SlashFree; decide) h).2.2
      (by decide)⟩

end Zephyr
